import Mathlib

/-!
# The virtio transport and virtqueue engine of hvisor-tool (`tools/virtio.c`)

A shallow embedding of the virtqueue walker, the used-ring publication, the
interrupt injection path and the MMIO register file, followed by theorems about
them.

Conventions of the embedding.

* Machine integers are natural numbers; a wrap-around is written `% 2 ^ w`
  where the C code computes in a type of `w` bits.  `int` values are `Int`.
* Guest memory is typed: a descriptor, an avail ring or a used ring is read
  whole at a host address.  Two host addresses never alias one object.
* A loop that the C code may run for ever takes a `fuel` argument and returns
  `none` when the fuel runs out.
-/

namespace Virtio

/-! ## Constants of the virtio headers

The headers that define these constants are not among the sources; the values are those
of the virtio ring and virtio-mmio interfaces. -/

/-- Modelled from the spec: the `NEXT` flag of a descriptor, the chain goes on at the
`next` field (constant of the virtio ring header). -/
def VRING_DESC_F_NEXT : Nat := 1
/-- Modelled from the spec: the `WRITE` flag of a descriptor, the buffer is written by the
device (constant of the virtio ring header). -/
def VRING_DESC_F_WRITE : Nat := 2
/-- Modelled from the spec: the `INDIRECT` flag of a descriptor, the buffer holds a table
of descriptors (constant of the virtio ring header). -/
def VRING_DESC_F_INDIRECT : Nat := 4
/-- Modelled from the spec: the `USED_F_NO_NOTIFY` bit of `used_ring->flags` (constant of
the virtio ring header). -/
def VRING_USED_F_NO_NOTIFY : Nat := 1
/-- Modelled from the spec: the `AVAIL_F_NO_INTERRUPT` bit of `avail_ring->flags`
(constant of the virtio ring header). -/
def VRING_AVAIL_F_NO_INTERRUPT : Nat := 1
/-- Modelled from the spec: the `VRING` bit of `interrupt_status` (constant of the
virtio-mmio header). -/
def VIRTIO_MMIO_INT_VRING : Nat := 1

/-! ## Data model

The structures are declared in virtio.h and hvisor.h, which are not among the sources;
their fields are those that `virtio.c` reads and writes and that section 3 of the
specification lists. -/

/-- Modelled from the spec: one descriptor (`VirtqDesc`) of 16 bytes, with a 64-bit address,
a 32-bit length, 16-bit flags and a 16-bit next index. -/
structure VirtqDesc where
  addr : Nat
  len : Nat
  flags : Nat
  next : Nat
  deriving DecidableEq

/-- Modelled from the spec: the avail ring (`VirtqAvail`); `ring num` is the used-event
slot behind the ring. -/
structure VirtqAvail where
  flags : Nat
  idx : Nat
  ring : Nat → Nat

/-- Modelled from the spec: one element `{id, len}` of the used ring. -/
structure VirtqUsedElem where
  id : Nat
  len : Nat
  deriving DecidableEq

/-- Modelled from the spec: the used ring (`VirtqUsed`); `avail_event` is the 16-bit slot
behind the ring. -/
structure VirtqUsed where
  flags : Nat
  idx : Nat
  ring : Nat → VirtqUsedElem
  avail_event : Nat

/-- The globals `virt_addr` and `phys_addr`: host address and guest-physical
address of the start of the guest-memory window. -/
structure Window where
  virt_addr : Nat
  phys_addr : Nat

/-- Guest memory as the daemon reads it through host pointers. -/
structure GuestMem where
  desc : Nat → VirtqDesc
  avail : Nat → VirtqAvail
  used : Nat → VirtqUsed

/-- Modelled from the spec: the fields of `VirtQueue` (the mutex apart). `dev` and
`notify_handler` are handles; `desc_table`, `avail_ring` and `used_ring` are host
addresses. -/
structure VirtQueue where
  dev : Nat
  vq_idx : Nat
  num : Nat
  queue_num_max : Nat
  desc_table_addr : Nat
  avail_addr : Nat
  used_addr : Nat
  desc_table : Nat
  avail_ring : Nat
  used_ring : Nat
  notify_handler : Nat
  last_avail_idx : Nat
  last_used_idx : Nat
  ready : Nat
  event_idx_enabled : Nat

/-- One entry of a scatter-gather vector (`struct iovec`). -/
structure Iovec where
  iov_base : Nat
  iov_len : Nat
  deriving DecidableEq

/-- The two output vectors of the walker; `none` is a slot never stored to. -/
structure SgVec where
  iov : Nat → Option Iovec
  flags : Nat → Option Nat

/-- What one call of `process_descriptor_chain` leaves behind: the returned
`int`, the queue, `*desc_idx` (when stored), the number of entries allocated
for the vectors (when allocated) and the stores made to them. -/
structure ChainResult where
  ret : Int
  vq : VirtQueue
  desc_idx : Option Nat
  cap : Option Int
  out : SgVec

/-! ## Address translation -/

/-- The function `get_virt_addr`: `virt_addr - phys_addr + addr` on 64-bit pointers. -/
def get_virt_addr (w : Window) (addr : Nat) : Nat :=
  (w.virt_addr + (2 ^ 64 - w.phys_addr % 2 ^ 64) + addr) % 2 ^ 64

/-- The function `get_phys_addr`: `addr - virt_addr + phys_addr` on 64-bit pointers. -/
def get_phys_addr (w : Window) (addr : Nat) : Nat :=
  (addr + (2 ^ 64 - w.virt_addr % 2 ^ 64) + w.phys_addr) % 2 ^ 64

/-! ## The descriptor walker -/

/-- The value of `(int)x` for an unsigned `x`: the low 32 bits, read as two's complement. -/
def castInt (x : Nat) : Int :=
  if x % 2 ^ 32 < 2 ^ 31 then ((x % 2 ^ 32 : Nat) : Int) else ((x % 2 ^ 32 : Nat) : Int) - 2 ^ 32

/-- The value of `vq->num - 1` in unsigned 64-bit arithmetic. -/
def num_minus_one (num : Nat) : Nat :=
  (num + (2 ^ 64 - 1)) % 2 ^ 64

/-- The descriptor `vq->desc_table[next]`: entries are 16 bytes apart. -/
def desc_at (m : GuestMem) (table : Nat) (next : Nat) : VirtqDesc :=
  m.desc (table + 16 * next)

/-- An output vector nothing was stored to. -/
def SgVec.empty : SgVec :=
  { iov := fun _ => none, flags := fun _ => none }

/-- The function `descriptor2iov`: store entry `i` of the vectors from descriptor `vd`;
`want_flags` is false when the `flags` pointer is `NULL`. -/
def descriptor2iov (w : Window) (i : Nat) (vd : VirtqDesc) (out : SgVec)
    (want_flags : Bool) : SgVec :=
  { iov := fun j => if j = i then some { iov_base := get_virt_addr w vd.addr, iov_len := vd.len }
                    else out.iov j,
    flags := if want_flags then (fun j => if j = i then some vd.flags else out.flags j)
             else out.flags }

/-- The first loop of `process_descriptor_chain` (lines 319-328), from the loop test on:
it returns the final `i` and `chain_len`. These are the values of the C `int`s as long
as `chain_len` stays below 2^31; one indirect descriptor adds less than 2^28 to it, its
`len` being a 32-bit field. -/
def count_loop (m : GuestMem) (vq : VirtQueue) : Nat → Int → Nat → Int → Option (Int × Int)
  | 0, _, _, _ => none
  | fuel + 1, i, next, chain_len =>
    if i < castInt vq.num then
      let vdesc := desc_at m vq.desc_table next
      let chain_len1 :=
        if vdesc.flags &&& VRING_DESC_F_INDIRECT ≠ 0 then chain_len + ((vdesc.len / 16 : Nat) : Int)
        else chain_len
      let i1 := if vdesc.flags &&& VRING_DESC_F_INDIRECT ≠ 0 then i - 1 else i
      if vdesc.flags &&& VRING_DESC_F_NEXT = 0 then some (i1, chain_len1)
      else count_loop m vq fuel (i1 + 1) vdesc.next chain_len1
    else some (i, chain_len)

/-- The inner `for (;;)` loop over an indirect table (lines 343-352): it returns the
final `i`, `table_len` and vectors. -/
def indirect_loop (w : Window) (m : GuestMem) (want_flags : Bool) (ind_table : Nat) :
    Nat → Nat → Nat → Int → SgVec → Option (Nat × Int × SgVec)
  | 0, _, _, _, _ => none
  | fuel + 1, i, next, table_len, out =>
    let ind_desc := desc_at m ind_table next
    let out1 := descriptor2iov w i ind_desc out want_flags
    if ind_desc.flags &&& VRING_DESC_F_NEXT = 0 then some (i + 1, table_len - 1, out1)
    else indirect_loop w m want_flags ind_table fuel (i + 1) ind_desc.next (table_len - 1) out1

/-- The second loop of `process_descriptor_chain` (lines 336-360), from the loop test on. -/
def fill_loop (w : Window) (m : GuestMem) (vq : VirtQueue) (want_flags : Bool)
    (chain_len : Int) : Nat → Nat → Nat → SgVec → Option SgVec
  | 0, _, _, _ => none
  | fuel + 1, i, next, out =>
    if (i : Int) < chain_len then
      let vdesc := desc_at m vq.desc_table next
      if vdesc.flags &&& VRING_DESC_F_INDIRECT ≠ 0 then
        match indirect_loop w m want_flags (get_virt_addr w vdesc.addr) fuel i 0
            ((vdesc.len / 16 : Nat) : Int) out with
        | none => none
        | some (i1, table_len, out1) =>
          if table_len ≠ 0 then some out1
          else fill_loop w m vq want_flags chain_len fuel (i1 + 1) vdesc.next out1
      else
        fill_loop w m vq want_flags chain_len fuel (i + 1) vdesc.next
          (descriptor2iov w i vdesc out want_flags)
    else some out

/-- The function `process_descriptor_chain`. -/
def process_descriptor_chain (fuel : Nat) (w : Window) (m : GuestMem) (vq : VirtQueue)
    (want_flags : Bool) (append_len : Int) : Option ChainResult :=
  let idx := vq.last_avail_idx
  if idx = (m.avail vq.avail_ring).idx then
    some { ret := 0, vq := vq, desc_idx := none, cap := none, out := SgVec.empty }
  else
    let vq1 := { vq with last_avail_idx := (vq.last_avail_idx + 1) % 2 ^ 16 }
    let head := (m.avail vq.avail_ring).ring (idx &&& num_minus_one vq.num)
    match count_loop m vq1 fuel 0 head 0 with
    | none => none
    | some (i, counted) =>
      let chain_len := counted + (i + 1)
      match fill_loop w m vq1 want_flags chain_len fuel 0 head SgVec.empty with
      | none => none
      | some out =>
        some { ret := chain_len, vq := vq1, desc_idx := some head,
               cap := some (chain_len + append_len), out := out }

/-! ## Publishing completions -/

/-- The function `update_used_ring`: `used_idx` and `mask` are 16-bit locals. The queue
is handed back with the memory: the function stores to guest memory only. -/
def update_used_ring (m : GuestMem) (vq : VirtQueue) (idx : Nat) (iolen : Nat) :
    VirtQueue × GuestMem :=
  let used_ring := m.used vq.used_ring
  let used_idx := used_ring.idx
  let mask := num_minus_one vq.num % 2 ^ 16
  let slot := used_idx &&& mask
  let used_ring1 : VirtqUsed :=
    { used_ring with
      ring := fun j => if j = slot then { id := idx, len := iolen } else used_ring.ring j,
      idx := (used_idx + 1) % 2 ^ 16 }
  (vq, { m with used := fun a => if a = vq.used_ring then used_ring1 else m.used a })

/-! ## Devices and the mailbox -/

/-- Modelled from the spec: the register file `VirtMmioRegs`; values are stored as
written. -/
structure VirtMmioRegs where
  device_id : Nat
  dev_feature_sel : Nat
  drv_feature_sel : Nat
  queue_sel : Nat
  interrupt_status : Nat
  interrupt_count : Nat
  status : Nat
  generation : Nat
  dev_feature : Nat
  drv_feature : Nat

/-- Modelled from the spec: the fields of `VirtIODevice` that `virtio.c` uses; `vqs` is the
array of queues, `type` the device type tag. -/
structure VirtIODevice where
  vqs_len : Nat
  zone_id : Nat
  irq_id : Nat
  base_addr : Nat
  len : Nat
  type : Nat
  regs : VirtMmioRegs
  vqs : Nat → VirtQueue
  activated : Bool

/-- Modelled from the spec: a request of the kernel (`struct device_req`). -/
structure device_req where
  src_cpu : Nat
  src_zone : Nat
  address : Nat
  size : Nat
  value : Nat
  is_write : Nat
  need_interrupt : Nat

/-- Modelled from the spec: a response to the kernel (`struct device_res`). -/
structure device_res where
  target_zone : Nat
  irq_id : Nat
  deriving DecidableEq

/-- Modelled from the spec: the shared mailbox (`struct virtio_bridge`). -/
structure virtio_bridge where
  req_front : Nat
  req_rear : Nat
  res_front : Nat
  res_rear : Nat
  req_list : Nat → device_req
  res_list : Nat → device_res
  cfg_flags : Nat → Nat
  cfg_values : Nat → Nat
  mmio_addrs : Nat → Nat
  mmio_avail : Nat
  need_wakeup : Nat

/-- The function `is_queue_full` on `unsigned int` arguments. -/
def is_queue_full (front rear size : Nat) : Bool :=
  decide (((rear + 1) % 2 ^ 32) &&& ((size + (2 ^ 32 - 1)) % 2 ^ 32) = front)

/-- The function `is_queue_empty`. -/
def is_queue_empty (front rear : Nat) : Bool :=
  decide (rear = front)

/-- Modelled from the spec: `vring_need_event` of the virtio ring header, which is not
among the sources; the standard predicate `(uint16)(new - event - 1) < (uint16)(new - old)`
on 16-bit arguments. -/
def vring_need_event (event_idx new_idx old : Nat) : Bool :=
  decide ((new_idx % 2 ^ 16 + 2 * 2 ^ 16 - event_idx % 2 ^ 16 - 1) % 2 ^ 16
    < (new_idx % 2 ^ 16 + 2 ^ 16 - old % 2 ^ 16) % 2 ^ 16)

/-- Modelled from the spec: the macro `VQ_USED_EVENT` of virtio.h, which is not among the
sources; the used-event index is the 16-bit slot at the tail of the avail ring,
`avail_ring->ring[num]`. -/
def VQ_USED_EVENT (m : GuestMem) (vq : VirtQueue) : Nat :=
  (m.avail vq.avail_ring).ring vq.num

/-- The queue `q` of a device with one field replaced. -/
def set_vq (vqs : Nat → VirtQueue) (q : Nat) (v : VirtQueue) : Nat → VirtQueue :=
  fun i => if i = q then v else vqs i

/-- The function `virtio_inject_irq` on queue `q` of device `dev` (`vq->dev` is `dev`).
`MAX_REQ` is the length of the response ring, a constant of hvisor.h; `MAX_REQ - 1` is
taken in 32-bit unsigned arithmetic. The result is `none` when the call finds the
response ring full: it then spins until the kernel frees a slot. -/
def virtio_inject_irq (MAX_REQ : Nat) (m : GuestMem) (bridge : virtio_bridge)
    (dev : VirtIODevice) (q : Nat) : Option (VirtIODevice × virtio_bridge) :=
  let vq := dev.vqs q
  let last_used_idx := vq.last_used_idx
  let idx := (m.used vq.used_ring).idx
  let dev1 := { dev with vqs := set_vq dev.vqs q { vq with last_used_idx := idx } }
  if idx = last_used_idx then some (dev1, bridge)
  else if vq.event_idx_enabled = 0 ∧
      (m.avail vq.avail_ring).flags &&& VRING_AVAIL_F_NO_INTERRUPT ≠ 0 then some (dev1, bridge)
  else if vq.event_idx_enabled ≠ 0 ∧
      vring_need_event (VQ_USED_EVENT m vq) idx last_used_idx = false then some (dev1, bridge)
  else if is_queue_full bridge.res_front bridge.res_rear MAX_REQ = true then none
  else
    let res_rear := bridge.res_rear
    let bridge1 :=
      { bridge with
        res_list := fun j => if j = res_rear then
            { irq_id := dev.irq_id, target_zone := dev.zone_id } else bridge.res_list j,
        res_rear := ((res_rear + 1) % 2 ^ 32) &&& ((MAX_REQ + (2 ^ 32 - 1)) % 2 ^ 32) }
    let regs1 :=
      { dev1.regs with
        interrupt_status := VIRTIO_MMIO_INT_VRING,
        interrupt_count := dev1.regs.interrupt_count + 1 }
    some ({ dev1 with regs := regs1 }, bridge1)

/-! ## Reset -/

/-- The function `virtqueue_reset`: every field zeroed but the handler, the device
back-pointer and `queue_num_max`; `vq_idx` set to `idx`. -/
def virtqueue_reset (vq : VirtQueue) (idx : Nat) : VirtQueue :=
  { dev := vq.dev, vq_idx := idx, num := 0, queue_num_max := vq.queue_num_max,
    desc_table_addr := 0, avail_addr := 0, used_addr := 0,
    desc_table := 0, avail_ring := 0, used_ring := 0,
    notify_handler := vq.notify_handler,
    last_avail_idx := 0, last_used_idx := 0, ready := 0, event_idx_enabled := 0 }

/-- The loop of `virtio_dev_reset` over the first `n` queues. -/
def reset_queues (vqs : Nat → VirtQueue) : Nat → Nat → VirtQueue
  | 0 => vqs
  | n + 1 => set_vq (reset_queues vqs n) n (virtqueue_reset (reset_queues vqs n n) n)

/-- The function `virtio_dev_reset`. -/
def virtio_dev_reset (vdev : VirtIODevice) : VirtIODevice :=
  let regs1 := { vdev.regs with status := 0, interrupt_status := 0, interrupt_count := 0 }
  let idx := vdev.regs.queue_sel
  let vqs1 := set_vq vdev.vqs idx { vdev.vqs idx with ready := 0 }
  { vdev with regs := regs1, vqs := reset_queues vqs1 vdev.vqs_len, activated := false }

/-! ## Queue programming -/

/-- The function `virtqueue_set_desc_table`: `virt_addr + desc_table_addr - phys_addr`. -/
def virtqueue_set_desc_table (w : Window) (vq : VirtQueue) : VirtQueue :=
  { vq with desc_table := (w.virt_addr + vq.desc_table_addr + (2 ^ 64 - w.phys_addr % 2 ^ 64)) % 2 ^ 64 }

/-- The function `virtqueue_set_avail`. -/
def virtqueue_set_avail (w : Window) (vq : VirtQueue) : VirtQueue :=
  { vq with avail_ring := (w.virt_addr + vq.avail_addr + (2 ^ 64 - w.phys_addr % 2 ^ 64)) % 2 ^ 64 }

/-- The function `virtqueue_set_used`. -/
def virtqueue_set_used (w : Window) (vq : VirtQueue) : VirtQueue :=
  { vq with used_ring := (w.virt_addr + vq.used_addr + (2 ^ 64 - w.phys_addr % 2 ^ 64)) % 2 ^ 64 }

/-! ## The register file: writes

The register offsets and feature bit numbers are constants of the virtio-mmio and
virtio-config headers, which are not among the sources. -/

def VIRTIO_MMIO_MAGIC_VALUE : Nat := 0x000
def VIRTIO_MMIO_VERSION : Nat := 0x004
def VIRTIO_MMIO_DEVICE_ID : Nat := 0x008
def VIRTIO_MMIO_VENDOR_ID : Nat := 0x00c
def VIRTIO_MMIO_DEVICE_FEATURES : Nat := 0x010
def VIRTIO_MMIO_DEVICE_FEATURES_SEL : Nat := 0x014
def VIRTIO_MMIO_DRIVER_FEATURES : Nat := 0x020
def VIRTIO_MMIO_DRIVER_FEATURES_SEL : Nat := 0x024
def VIRTIO_MMIO_QUEUE_SEL : Nat := 0x030
def VIRTIO_MMIO_QUEUE_NUM_MAX : Nat := 0x034
def VIRTIO_MMIO_QUEUE_NUM : Nat := 0x038
def VIRTIO_MMIO_QUEUE_READY : Nat := 0x044
def VIRTIO_MMIO_QUEUE_NOTIFY : Nat := 0x050
def VIRTIO_MMIO_INTERRUPT_STATUS : Nat := 0x060
def VIRTIO_MMIO_INTERRUPT_ACK : Nat := 0x064
def VIRTIO_MMIO_STATUS : Nat := 0x070
def VIRTIO_MMIO_QUEUE_DESC_LOW : Nat := 0x080
def VIRTIO_MMIO_QUEUE_DESC_HIGH : Nat := 0x084
def VIRTIO_MMIO_QUEUE_AVAIL_LOW : Nat := 0x090
def VIRTIO_MMIO_QUEUE_AVAIL_HIGH : Nat := 0x094
def VIRTIO_MMIO_QUEUE_USED_LOW : Nat := 0x0a0
def VIRTIO_MMIO_QUEUE_USED_HIGH : Nat := 0x0a4
def VIRTIO_MMIO_CONFIG_GENERATION : Nat := 0x0fc
def VIRTIO_MMIO_CONFIG : Nat := 0x100
/-- Modelled from the spec: the bit number of the feature `VIRTIO_RING_F_EVENT_IDX`. -/
def VIRTIO_RING_F_EVENT_IDX : Nat := 29
/-- Modelled from the spec: the bit number of the feature `VIRTIO_F_VERSION_1`. -/
def VIRTIO_F_VERSION_1 : Nat := 32
def UINT32_MAX : Nat := 2 ^ 32 - 1

/-- The loop of the `DRIVER_FEATURES` case: `event_idx_enabled = 1` on the first `n` queues. -/
def enable_event_idx (vqs : Nat → VirtQueue) : Nat → Nat → VirtQueue
  | 0 => vqs
  | n + 1 => set_vq (enable_event_idx vqs n) n { enable_event_idx vqs n n with event_idx_enabled := 1 }

/-- The C value of `!value`. -/
def logical_not (value : Nat) : Nat :=
  if value = 0 then 1 else 0

/-- The function `virtio_mmio_write` on a device that is not `NULL`; `value` is a
64-bit unsigned, `sel` stands for `regs->queue_sel` and `vq` for `vqs[regs->queue_sel]`.
`notify vdev q` is the effect on the device of the back-end's notify handler of
queue `q`, which is outside `virtio.c`. -/
def virtio_mmio_write (w : Window) (notify : VirtIODevice → Nat → VirtIODevice)
    (vdev : VirtIODevice) (offset value size : Nat) : VirtIODevice :=
  let regs := vdev.regs
  let vqs := vdev.vqs
  let sel := regs.queue_sel
  let vq := vqs sel
  if offset ≥ VIRTIO_MMIO_CONFIG then vdev
  else if size ≠ 4 then vdev
  else if offset = VIRTIO_MMIO_DEVICE_FEATURES_SEL then
    { vdev with regs := { regs with dev_feature_sel := if value ≠ 0 then 1 else 0 } }
  else if offset = VIRTIO_MMIO_DRIVER_FEATURES then
    let drv_feature :=
      if regs.drv_feature_sel ≠ 0 then regs.drv_feature ||| ((value <<< 32) % 2 ^ 64)
      else regs.drv_feature ||| value
    let vqs1 :=
      if drv_feature &&& (1 <<< VIRTIO_RING_F_EVENT_IDX) ≠ 0 then enable_event_idx vqs vdev.vqs_len
      else vqs
    { vdev with regs := { regs with drv_feature := drv_feature }, vqs := vqs1 }
  else if offset = VIRTIO_MMIO_DRIVER_FEATURES_SEL then
    { vdev with regs := { regs with drv_feature_sel := if value ≠ 0 then 1 else 0 } }
  else if offset = VIRTIO_MMIO_QUEUE_SEL then
    if value < vdev.vqs_len then { vdev with regs := { regs with queue_sel := value } } else vdev
  else if offset = VIRTIO_MMIO_QUEUE_NUM then
    { vdev with vqs := set_vq vqs sel { vq with num := value } }
  else if offset = VIRTIO_MMIO_QUEUE_READY then
    { vdev with vqs := set_vq vqs sel { vq with ready := value } }
  else if offset = VIRTIO_MMIO_QUEUE_NOTIFY then
    if value < vdev.vqs_len then notify vdev value else vdev
  else if offset = VIRTIO_MMIO_INTERRUPT_ACK then
    if value = regs.interrupt_status ∧ regs.interrupt_count > 0 then
      { vdev with regs := { regs with interrupt_count := regs.interrupt_count - 1 } }
    else
      { vdev with
        regs := { regs with interrupt_status := regs.interrupt_status &&& logical_not value } }
  else if offset = VIRTIO_MMIO_STATUS then
    let vdev1 := { vdev with regs := { regs with status := value } }
    if vdev1.regs.status = 0 then virtio_dev_reset vdev1 else vdev1
  else if offset = VIRTIO_MMIO_QUEUE_DESC_LOW then
    { vdev with
      vqs := set_vq vqs sel { vq with desc_table_addr := vq.desc_table_addr ||| (value &&& UINT32_MAX) } }
  else if offset = VIRTIO_MMIO_QUEUE_DESC_HIGH then
    { vdev with
      vqs := set_vq vqs sel (virtqueue_set_desc_table w
        { vq with desc_table_addr := vq.desc_table_addr ||| ((value <<< 32) % 2 ^ 64) }) }
  else if offset = VIRTIO_MMIO_QUEUE_AVAIL_LOW then
    { vdev with
      vqs := set_vq vqs sel { vq with avail_addr := vq.avail_addr ||| (value &&& UINT32_MAX) } }
  else if offset = VIRTIO_MMIO_QUEUE_AVAIL_HIGH then
    { vdev with
      vqs := set_vq vqs sel (virtqueue_set_avail w
        { vq with avail_addr := vq.avail_addr ||| ((value <<< 32) % 2 ^ 64) }) }
  else if offset = VIRTIO_MMIO_QUEUE_USED_LOW then
    { vdev with
      vqs := set_vq vqs sel { vq with used_addr := vq.used_addr ||| (value &&& UINT32_MAX) } }
  else if offset = VIRTIO_MMIO_QUEUE_USED_HIGH then
    { vdev with
      vqs := set_vq vqs sel (virtqueue_set_used w
        { vq with used_addr := vq.used_addr ||| ((value <<< 32) % 2 ^ 64) }) }
  else vdev

/-! ## The register file: reads -/

/-- Modelled from the spec: the constant `VIRT_MAGIC` of virtio.h, the string "virt". -/
def VIRT_MAGIC : Nat := 0x74726976
/-- Modelled from the spec: the constant `VIRT_VERSION` of virtio.h, virtio-mmio version 2. -/
def VIRT_VERSION : Nat := 2
/-- Modelled from the spec: the constant `VIRT_VENDOR` of virtio.h, the vendor tag. -/
def VIRT_VENDOR : Nat := 0x48564953

/-- The function `virtio_mmio_read`; `vdev` is `none` for a `NULL` device. `config vdev offs`
is the 64-bit value at byte `offs` of the back-end's config structure, which is outside
`virtio.c`. -/
def virtio_mmio_read (config : VirtIODevice → Nat → Nat) (vdev : Option VirtIODevice)
    (offset size : Nat) : Nat :=
  match vdev with
  | none =>
    if offset = VIRTIO_MMIO_MAGIC_VALUE then VIRT_MAGIC
    else if offset = VIRTIO_MMIO_VERSION then VIRT_VERSION
    else if offset = VIRTIO_MMIO_VENDOR_ID then VIRT_VENDOR
    else 0
  | some vdev =>
    if offset ≥ VIRTIO_MMIO_CONFIG then config vdev (offset - VIRTIO_MMIO_CONFIG)
    else if size ≠ 4 then 0
    else if offset = VIRTIO_MMIO_MAGIC_VALUE then VIRT_MAGIC
    else if offset = VIRTIO_MMIO_VERSION then VIRT_VERSION
    else if offset = VIRTIO_MMIO_DEVICE_ID then vdev.regs.device_id
    else if offset = VIRTIO_MMIO_VENDOR_ID then VIRT_VENDOR
    else if offset = VIRTIO_MMIO_DEVICE_FEATURES then
      if vdev.regs.dev_feature_sel ≠ 0 then vdev.regs.dev_feature >>> 32
      else vdev.regs.dev_feature
    else if offset = VIRTIO_MMIO_QUEUE_NUM_MAX then (vdev.vqs vdev.regs.queue_sel).queue_num_max
    else if offset = VIRTIO_MMIO_QUEUE_READY then (vdev.vqs vdev.regs.queue_sel).ready
    else if offset = VIRTIO_MMIO_INTERRUPT_STATUS then vdev.regs.interrupt_status
    else if offset = VIRTIO_MMIO_STATUS then vdev.regs.status
    else if offset = VIRTIO_MMIO_CONFIG_GENERATION then vdev.regs.generation
    else 0

/-! ## Notification suppression -/

/-- The function `virtqueue_disable_notify`. The macro `VQ_AVAIL_EVENT` of virtio.h is not
among the sources: by the specification the avail-event index is the 16-bit slot at the
tail of the used ring, here the field `avail_event`. -/
def virtqueue_disable_notify (m : GuestMem) (vq : VirtQueue) : GuestMem :=
  let used_ring := m.used vq.used_ring
  let used_ring1 : VirtqUsed :=
    if vq.event_idx_enabled ≠ 0 then
      { used_ring with avail_event := (vq.last_avail_idx + (2 ^ 16 - 1)) % 2 ^ 16 }
    else
      { used_ring with flags := used_ring.flags ||| VRING_USED_F_NO_NOTIFY }
  { m with used := fun a => if a = vq.used_ring then used_ring1 else m.used a }

/-- The function `virtqueue_enable_notify`; the mask is `!(uint16_t)VRING_USED_F_NO_NOTIFY`,
a logical not. -/
def virtqueue_enable_notify (m : GuestMem) (vq : VirtQueue) : GuestMem :=
  let used_ring := m.used vq.used_ring
  let used_ring1 : VirtqUsed :=
    if vq.event_idx_enabled ≠ 0 then
      { used_ring with avail_event := (m.avail vq.avail_ring).idx }
    else
      { used_ring with flags := used_ring.flags &&& logical_not VRING_USED_F_NO_NOTIFY }
  { m with used := fun a => if a = vq.used_ring then used_ring1 else m.used a }

/-! ## The dispatcher -/

/-- The function `in_range` on 64-bit unsigned arguments. -/
def in_range (value lower len : Nat) : Bool :=
  decide (value ≥ lower ∧ value < (lower + len) % 2 ^ 64)

/-- The function `virtio_finish_cfg_req`; its parameter `target_cpu` is a `uint32_t`, so
the argument is taken modulo 2^32; `cfg_flags` holds 32-bit counters. -/
def virtio_finish_cfg_req (bridge : virtio_bridge) (target_cpu value : Nat) : virtio_bridge :=
  let target_cpu := target_cpu % 2 ^ 32
  { bridge with
    cfg_values := fun c => if c = target_cpu then value else bridge.cfg_values c,
    cfg_flags := fun c => if c = target_cpu then (bridge.cfg_flags c + 1) % 2 ^ 32
                          else bridge.cfg_flags c }

/-- The search loop of `virtio_handle_req` from index `i` on: the index of the first
device of the table whose zone and address range match the request, with the device;
`none` when the loop ends at `vdevs_num`. -/
def find_vdev (req : device_req) : List VirtIODevice → Nat → Option (Nat × VirtIODevice)
  | [], _ => none
  | vdev :: rest, i =>
    if req.src_zone = vdev.zone_id ∧ in_range req.address vdev.base_addr vdev.len = true
    then some (i, vdev)
    else find_vdev req rest (i + 1)

/-- The function `virtio_handle_req` on the device table `vdevs` (of `vdevs_num` entries)
and the mailbox: the returned `int`, the device table and the mailbox afterwards. What a
notify handler does to the mailbox is outside `virtio.c`. -/
def virtio_handle_req (w : Window) (notify : VirtIODevice → Nat → VirtIODevice)
    (config : VirtIODevice → Nat → Nat) (vdevs : List VirtIODevice) (bridge : virtio_bridge)
    (req : device_req) : Int × List VirtIODevice × virtio_bridge :=
  match find_vdev req vdevs 0 with
  | none => (-1, vdevs, bridge)
  | some (i, vdev) =>
    let offs := (req.address + (2 ^ 64 - vdev.base_addr % 2 ^ 64)) % 2 ^ 64
    let vdev1 :=
      if req.is_write ≠ 0 then virtio_mmio_write w notify vdev offs req.value req.size
      else vdev
    let value :=
      if req.is_write ≠ 0 then 0
      else virtio_mmio_read config (some vdev) offs req.size
    let bridge1 :=
      if req.need_interrupt = 0 then virtio_finish_cfg_req bridge req.src_cpu value
      else bridge
    (0, vdevs.set i vdev1, bridge1)

/-! ## Device creation -/

/-- Constants and handler addresses of virtio.h, virtio_blk.h and virtio_net.h, which are
not among the sources. -/
structure Headers where
  VirtioTNet : Nat
  VirtioTBlock : Nat
  VirtioTConsole : Nat
  BLK_SUPPORTED_FEATURES : Nat
  NET_SUPPORTED_FEATURES : Nat
  VIRTQUEUE_BLK_MAX_SIZE : Nat
  VIRTQUEUE_NET_MAX_SIZE : Nat
  NET_MAX_QUEUES : Nat
  NET_QUEUE_RX : Nat
  NET_QUEUE_TX : Nat
  virtio_blk_notify_handler : Nat
  virtio_net_rxq_notify_handler : Nat
  virtio_net_txq_notify_handler : Nat
  virtio_console_rxq_notify_handler : Nat
  virtio_console_txq_notify_handler : Nat

/-- Modelled from the spec: the bit number of the console feature `VIRTIO_CONSOLE_F_SIZE`
(constant of the virtio console header). -/
def VIRTIO_CONSOLE_F_SIZE : Nat := 0
/-- The macro `CONSOLE_SUPPORTED_FEATURES` of virtio_console.h. -/
def CONSOLE_SUPPORTED_FEATURES : Nat :=
  (1 <<< VIRTIO_F_VERSION_1) ||| (1 <<< VIRTIO_CONSOLE_F_SIZE)
/-- The macro `CONSOLE_MAX_QUEUES` of virtio_console.h. -/
def CONSOLE_MAX_QUEUES : Nat := 2
/-- The macro `VIRTQUEUE_CONSOLE_MAX_SIZE` of virtio_console.h. -/
def VIRTQUEUE_CONSOLE_MAX_SIZE : Nat := 64
/-- The macro `CONSOLE_QUEUE_RX` of virtio_console.h. -/
def CONSOLE_QUEUE_RX : Nat := 0
/-- The macro `CONSOLE_QUEUE_TX` of virtio_console.h. -/
def CONSOLE_QUEUE_TX : Nat := 1

/-- The function `init_mmio_regs`. -/
def init_mmio_regs (regs : VirtMmioRegs) (type : Nat) : VirtMmioRegs :=
  { regs with device_id := type, queue_sel := 0 }

/-- The loops of `init_virtio_queue` for the net and the console device, rounds
`i = 0 .. n - 1`: each round calls `virtqueue_reset(vq, i)`, on the first element of the
array, and then sets `vq[i].queue_num_max` and `vq[i].dev`. -/
def init_queue_loop (vdev_ptr max_size : Nat) (vq : Nat → VirtQueue) : Nat → Nat → VirtQueue
  | 0 => vq
  | n + 1 =>
    let vq1 := set_vq (init_queue_loop vdev_ptr max_size vq n) 0
      (virtqueue_reset (init_queue_loop vdev_ptr max_size vq n 0) n)
    let vq2 := set_vq vq1 n { vq1 n with queue_num_max := max_size }
    set_vq vq2 n { vq2 n with dev := vdev_ptr }

/-- The function `init_virtio_queue`. `heap` is the content of the array that `malloc`
returns, `vdev_ptr` the address of the device. -/
def init_virtio_queue (h : Headers) (heap : Nat → VirtQueue) (vdev_ptr : Nat)
    (vdev : VirtIODevice) (type : Nat) : VirtIODevice :=
  if type = h.VirtioTBlock then
    let vq0 := virtqueue_reset (heap 0) 0
    let vq1 := { vq0 with queue_num_max := h.VIRTQUEUE_BLK_MAX_SIZE }
    let vq2 := { vq1 with notify_handler := h.virtio_blk_notify_handler }
    let vq3 := { vq2 with dev := vdev_ptr }
    { vdev with vqs_len := 1, vqs := set_vq heap 0 vq3 }
  else if type = h.VirtioTNet then
    let vq1 := init_queue_loop vdev_ptr h.VIRTQUEUE_NET_MAX_SIZE heap h.NET_MAX_QUEUES
    let vq2 := set_vq vq1 h.NET_QUEUE_RX
      { vq1 h.NET_QUEUE_RX with notify_handler := h.virtio_net_rxq_notify_handler }
    let vq3 := set_vq vq2 h.NET_QUEUE_TX
      { vq2 h.NET_QUEUE_TX with notify_handler := h.virtio_net_txq_notify_handler }
    { vdev with vqs_len := h.NET_MAX_QUEUES, vqs := vq3 }
  else if type = h.VirtioTConsole then
    let vq1 := init_queue_loop vdev_ptr VIRTQUEUE_CONSOLE_MAX_SIZE heap CONSOLE_MAX_QUEUES
    let vq2 := set_vq vq1 CONSOLE_QUEUE_RX
      { vq1 CONSOLE_QUEUE_RX with notify_handler := h.virtio_console_rxq_notify_handler }
    let vq3 := set_vq vq2 CONSOLE_QUEUE_TX
      { vq2 CONSOLE_QUEUE_TX with notify_handler := h.virtio_console_txq_notify_handler }
    { vdev with vqs_len := CONSOLE_MAX_QUEUES, vqs := vq3 }
  else vdev

/-- The device that `calloc` returns: every field zero. -/
def zero_device : VirtIODevice :=
  { vqs_len := 0, zone_id := 0, irq_id := 0, base_addr := 0, len := 0, type := 0,
    regs := { device_id := 0, dev_feature_sel := 0, drv_feature_sel := 0, queue_sel := 0,
              interrupt_status := 0, interrupt_count := 0, status := 0, generation := 0,
              dev_feature := 0, drv_feature := 0 },
    vqs := fun _ =>
      { dev := 0, vq_idx := 0, num := 0, queue_num_max := 0, desc_table_addr := 0,
        avail_addr := 0, used_addr := 0, desc_table := 0, avail_ring := 0, used_ring := 0,
        notify_handler := 0, last_avail_idx := 0, last_used_idx := 0, ready := 0,
        event_idx_enabled := 0 },
    activated := false }

/-- The function `create_virtio_device`: the created device, `none` for `NULL`. `is_err` is
the result of the back-end's init function, which is outside `virtio.c`; on success the
caller's table `vdevs` receives the device at index `vdevs_num`. -/
def create_virtio_device (h : Headers) (heap : Nat → VirtQueue) (vdev_ptr : Nat)
    (is_err : Bool) (dev_type zone_id base_addr len irq_id : Nat) : Option VirtIODevice :=
  let vdev0 : VirtIODevice :=
    { zero_device with
      regs := init_mmio_regs zero_device.regs dev_type,
      base_addr := base_addr, len := len, zone_id := zone_id, irq_id := irq_id,
      type := dev_type }
  if dev_type = h.VirtioTBlock then
    let vdev1 := { vdev0 with regs := { vdev0.regs with dev_feature := h.BLK_SUPPORTED_FEATURES } }
    let vdev2 := init_virtio_queue h heap vdev_ptr vdev1 dev_type
    if is_err then none else some vdev2
  else if dev_type = h.VirtioTNet then
    let vdev1 := { vdev0 with regs := { vdev0.regs with dev_feature := h.NET_SUPPORTED_FEATURES } }
    let vdev2 := init_virtio_queue h heap vdev_ptr vdev1 dev_type
    if is_err then none else some vdev2
  else if dev_type = h.VirtioTConsole then
    let vdev1 := { vdev0 with regs := { vdev0.regs with dev_feature := CONSOLE_SUPPORTED_FEATURES } }
    let vdev2 := init_virtio_queue h heap vdev_ptr vdev1 dev_type
    if is_err then none else some vdev2
  else none

/-! ## The dispatcher loop -/

/-- The calls that `virtio_close` makes (logging apart); `teardown i` is the call of the
hook `vdevs[i]->virtio_close(vdevs[i])`. -/
inductive CloseStep where
  | destroy_event_monitor
  | teardown (i : Nat)
  | close_ko_fd
  | munmap_bridge
  | munmap_window
  deriving DecidableEq

/-- The function `virtio_close` on a table of `vdevs_num` devices: its calls, in order. -/
def virtio_close (vdevs_num : Nat) : List CloseStep :=
  [CloseStep.destroy_event_monitor] ++ (List.range vdevs_num).map CloseStep.teardown
    ++ [CloseStep.close_ko_fd, CloseStep.munmap_bridge, CloseStep.munmap_window]

/-- A C assignment to a variable that holds `old`: the variable holds `new` afterwards. -/
def c_assign (_old new : Nat) : Nat :=
  new

/-- The inner `while (1)` loop of `handle_virtio_requests` (lines 704-729), with the kernel
adding no request while it runs: pending requests are handled one by one; on an empty
ring the loop spins, sets `need_wakeup`, sleeps, finds the ring still empty and leaves.
`req_front` is an `unsigned int`, `MAX_REQ` a constant of hvisor.h. -/
def drain_loop (MAX_REQ : Nat) (w : Window) (notify : VirtIODevice → Nat → VirtIODevice)
    (config : VirtIODevice → Nat → Nat) :
    Nat → Nat → List VirtIODevice → virtio_bridge →
      Option (Nat × List VirtIODevice × virtio_bridge)
  | 0, _, _, _ => none
  | fuel + 1, req_front, vdevs, bridge =>
    if is_queue_empty req_front bridge.req_rear = false then
      let req := bridge.req_list req_front
      let bridge1 := { bridge with need_wakeup := 0 }
      let handled := virtio_handle_req w notify config vdevs bridge1 req
      let req_front1 := ((req_front + 1) % 2 ^ 32) &&& ((MAX_REQ + (2 ^ 32 - 1)) % 2 ^ 32)
      drain_loop MAX_REQ w notify config fuel req_front1 handled.2.1
        { handled.2.2 with req_front := req_front1 }
    else
      some (req_front, vdevs, { bridge with need_wakeup := 1 })

/-- What one round of the `for (;;)` loop of `handle_virtio_requests` leaves behind: the
calls of `virtio_close` when the round made them, whether the round left the loop by
`break`, and the local `req_front`, the device table and the mailbox. -/
structure RoundResult where
  closed : Option (List CloseStep)
  left_loop : Bool
  req_front : Nat
  vdevs : List VirtIODevice
  bridge : virtio_bridge

/-- One round of the `for (;;)` loop of `handle_virtio_requests` (lines 692-730);
`sigwait_result` is the signal that `sigwait` stored in `sig`. `SIGHVI` and `SIGTERM` are
constants of hvisor.h and signal.h. The result is `none` when the inner loop runs out of
fuel. -/
def handle_virtio_requests_round (SIGHVI SIGTERM MAX_REQ : Nat) (w : Window)
    (notify : VirtIODevice → Nat → VirtIODevice) (config : VirtIODevice → Nat → Nat)
    (fuel sigwait_result req_front : Nat) (vdevs : List VirtIODevice)
    (bridge : virtio_bridge) : Option RoundResult :=
  let sig := sigwait_result
  let sig := c_assign sig SIGHVI
  if sig = SIGTERM then
    some { closed := some (virtio_close vdevs.length), left_loop := true,
           req_front := req_front, vdevs := vdevs, bridge := bridge }
  else if sig ≠ SIGHVI then
    some { closed := none, left_loop := false,
           req_front := req_front, vdevs := vdevs, bridge := bridge }
  else
    match drain_loop MAX_REQ w notify config fuel req_front vdevs bridge with
    | none => none
    | some (req_front1, vdevs1, bridge1) =>
      some { closed := none, left_loop := false,
             req_front := req_front1, vdevs := vdevs1, bridge := bridge1 }

/-! ## Vocabulary of the statements -/

/-- The table index of the `j`-th descriptor of the chain that starts at index `head`
of the table at `table`, following the `next` fields. -/
def chain_idx (m : GuestMem) (table : Nat) (head : Nat) : Nat → Nat
  | 0 => head
  | j + 1 => (desc_at m table (chain_idx m table head j)).next

/-- The `j`-th descriptor of the chain that starts at index `head`. -/
def chain_desc (m : GuestMem) (table : Nat) (head : Nat) (j : Nat) : VirtqDesc :=
  desc_at m table (chain_idx m table head j)

/-- The head index that the walker reads from the avail ring. -/
def avail_head (m : GuestMem) (vq : VirtQueue) : Nat :=
  (m.avail vq.avail_ring).ring (vq.last_avail_idx &&& (vq.num - 1))

/-- The entry that `descriptor2iov` stores for descriptor `vd`. -/
def iov_of (w : Window) (vd : VirtqDesc) : Iovec :=
  { iov_base := get_virt_addr w vd.addr, iov_len := vd.len }

/-- A sequence of calls of the walker on one queue; each call comes with its fuel, the
guest memory it finds and its arguments. The result is the final queue and the number
of calls that found the avail ring non-empty, `none` when a call does not return. -/
def walk_calls (w : Window) :
    VirtQueue → List (Nat × GuestMem × Bool × Int) → Option (VirtQueue × Nat)
  | vq, [] => some (vq, 0)
  | vq, c :: cs =>
    match process_descriptor_chain c.1 w c.2.1 vq c.2.2.1 c.2.2.2 with
    | none => none
    | some r =>
      match walk_calls w r.vq cs with
      | none => none
      | some (vq1, n) =>
        some (vq1, n + (if vq.last_avail_idx = (c.2.1.avail vq.avail_ring).idx then 0 else 1))

/-- The stores of `k` rounds of the inner loop over the indirect table at `table`, starting
at output index `i` and table index `next`. -/
def store_chain (w : Window) (m : GuestMem) (want_flags : Bool) (table : Nat) :
    Nat → Nat → Nat → SgVec → SgVec
  | 0, _, _, out => out
  | k + 1, i, next, out =>
    store_chain w m want_flags table k (i + 1) (desc_at m table next).next
      (descriptor2iov w i (desc_at m table next) out want_flags)

/-- The driver acknowledges `n` times, each time writing the current `interrupt_status`
to `INTERRUPT_ACK`. -/
def ack_times (w : Window) (notify : VirtIODevice → Nat → VirtIODevice) :
    Nat → VirtIODevice → VirtIODevice
  | 0, vdev => vdev
  | n + 1, vdev =>
    ack_times w notify n
      (virtio_mmio_write w notify vdev VIRTIO_MMIO_INTERRUPT_ACK vdev.regs.interrupt_status 4)

/-- A sequence of register writes `(offset, value, size)` on one device, in order. -/
def mmio_writes (w : Window) (notify : VirtIODevice → Nat → VirtIODevice) :
    VirtIODevice → List (Nat × Nat × Nat) → VirtIODevice
  | vdev, [] => vdev
  | vdev, wr :: rest =>
    mmio_writes w notify (virtio_mmio_write w notify vdev wr.1 wr.2.1 wr.2.2) rest

/-- The driver programs queue `q`: it selects the queue, writes its size and the two halves
of the 64-bit addresses of the descriptor table, the avail ring and the used ring. -/
def program_queue (w : Window) (notify : VirtIODevice → Nat → VirtIODevice)
    (vdev : VirtIODevice) (q num desc avail used : Nat) : VirtIODevice :=
  mmio_writes w notify vdev
    [(VIRTIO_MMIO_QUEUE_SEL, q, 4), (VIRTIO_MMIO_QUEUE_NUM, num, 4),
     (VIRTIO_MMIO_QUEUE_DESC_LOW, desc % 2 ^ 32, 4), (VIRTIO_MMIO_QUEUE_DESC_HIGH, desc / 2 ^ 32, 4),
     (VIRTIO_MMIO_QUEUE_AVAIL_LOW, avail % 2 ^ 32, 4),
     (VIRTIO_MMIO_QUEUE_AVAIL_HIGH, avail / 2 ^ 32, 4),
     (VIRTIO_MMIO_QUEUE_USED_LOW, used % 2 ^ 32, 4), (VIRTIO_MMIO_QUEUE_USED_HIGH, used / 2 ^ 32, 4)]

/-- The driver negotiates its features in two halves: the low window `a`, then the high
window `b`. -/
def features_low_high (w : Window) (notify : VirtIODevice → Nat → VirtIODevice)
    (vdev : VirtIODevice) (a b : Nat) : VirtIODevice :=
  mmio_writes w notify vdev
    [(VIRTIO_MMIO_DRIVER_FEATURES_SEL, 0, 4), (VIRTIO_MMIO_DRIVER_FEATURES, a, 4),
     (VIRTIO_MMIO_DRIVER_FEATURES_SEL, 1, 4), (VIRTIO_MMIO_DRIVER_FEATURES, b, 4)]

/-- The same two halves in the opposite order: the high window `b`, then the low window `a`. -/
def features_high_low (w : Window) (notify : VirtIODevice → Nat → VirtIODevice)
    (vdev : VirtIODevice) (a b : Nat) : VirtIODevice :=
  mmio_writes w notify vdev
    [(VIRTIO_MMIO_DRIVER_FEATURES_SEL, 1, 4), (VIRTIO_MMIO_DRIVER_FEATURES, b, 4),
     (VIRTIO_MMIO_DRIVER_FEATURES_SEL, 0, 4), (VIRTIO_MMIO_DRIVER_FEATURES, a, 4)]

/-- A write of `lo` to the register at `low` followed by a write of `hi` to the register
at `high`, both of 4 bytes. -/
def write_low_high (w : Window) (notify : VirtIODevice → Nat → VirtIODevice)
    (vdev : VirtIODevice) (low high lo hi : Nat) : VirtIODevice :=
  virtio_mmio_write w notify (virtio_mmio_write w notify vdev low lo 4) high hi 4

/-- A window: guest-physical `0x1000` is mapped at host address `100000`. -/
def sample_window : Window :=
  { virt_addr := 100000, phys_addr := 4096 }

/-- A programmed queue of size `num`: descriptor table at host address 1000, avail ring
at 2000, used ring at 3000, nothing consumed yet. -/
def sample_vq (num : Nat) : VirtQueue :=
  { dev := 0, vq_idx := 0, num := num, queue_num_max := 64,
    desc_table_addr := 0, avail_addr := 0, used_addr := 0,
    desc_table := 1000, avail_ring := 2000, used_ring := 3000,
    notify_handler := 0, last_avail_idx := 0, last_used_idx := 0,
    ready := 1, event_idx_enabled := 0 }

/-- Guest memory whose avail ring holds one chain with head 0 and whose descriptors
are given by `desc`. -/
def sample_mem (desc : Nat → VirtqDesc) : GuestMem :=
  { desc := desc,
    avail := fun _ => { flags := 0, idx := 1, ring := fun _ => 0 },
    used := fun _ => { flags := 0, idx := 0, ring := fun _ => { id := 0, len := 0 },
                       avail_event := 0 } }

/-- Descriptors of a block request: a readable 16-byte header, a writable 4 KiB buffer
and a writable status byte, chained 0, 1, 2. -/
def three_direct : Nat → VirtqDesc := fun a =>
  if a = 1000 then { addr := 4096, len := 16, flags := 1, next := 1 }
  else if a = 1016 then { addr := 8192, len := 4096, flags := 3, next := 2 }
  else if a = 1032 then { addr := 12288, len := 1, flags := 2, next := 0 }
  else { addr := 0, len := 0, flags := 0, next := 0 }

/-- Descriptors 0 and 1 form a cycle: each is direct and carries NEXT. -/
def two_cycle : Nat → VirtqDesc := fun a =>
  if a = 1000 then { addr := 4096, len := 16, flags := 1, next := 1 }
  else { addr := 8192, len := 32, flags := 1, next := 0 }

/-- The head descriptor is indirect without NEXT and declares a table of length 0. -/
def empty_indirect : Nat → VirtqDesc := fun _ =>
  { addr := 4096, len := 0, flags := 4, next := 0 }

/-- The head descriptor (guest-physical table address `0x2000`, host address 104096) is
indirect without NEXT and declares `len` bytes of table; the table holds a chain of three
entries 0, 1, 2, the last without NEXT. -/
def indirect_three (len : Nat) : Nat → VirtqDesc := fun a =>
  if a = 1000 then { addr := 8192, len := len, flags := 4, next := 0 }
  else if a = 104096 then { addr := 16384, len := 16, flags := 1, next := 1 }
  else if a = 104112 then { addr := 20480, len := 4096, flags := 3, next := 2 }
  else if a = 104128 then { addr := 24576, len := 1, flags := 2, next := 0 }
  else { addr := 0, len := 0, flags := 0, next := 0 }

/-- A queue of size 8 whose used ring, at host address 3000, has `idx = 9`. -/
def sample_used_mem : GuestMem :=
  { desc := fun _ => { addr := 0, len := 0, flags := 0, next := 0 },
    avail := fun _ => { flags := 0, idx := 9, ring := fun _ => 0 },
    used := fun _ => { flags := 0, idx := 9, ring := fun _ => { id := 0, len := 0 },
                       avail_event := 0 } }

/-- A device with one queue of size 8 (zone 1, interrupt 75); the queue has the given
`event_idx_enabled` and `last_used_idx`, the registers the given `interrupt_status`. -/
def sample_dev (event_idx last_used int_status : Nat) : VirtIODevice :=
  { vqs_len := 1, zone_id := 1, irq_id := 75, base_addr := 0xa003000, len := 0x200, type := 2,
    regs := { device_id := 2, dev_feature_sel := 0, drv_feature_sel := 0, queue_sel := 0,
              interrupt_status := int_status, interrupt_count := 0, status := 15,
              generation := 0, dev_feature := 0, drv_feature := 0 },
    vqs := fun _ => { sample_vq 8 with event_idx_enabled := event_idx, last_used_idx := last_used },
    activated := true }

/-- An empty mailbox. -/
def sample_bridge : virtio_bridge :=
  { req_front := 0, req_rear := 0, res_front := 0, res_rear := 0,
    req_list := fun _ => { src_cpu := 0, src_zone := 0, address := 0, size := 0, value := 0,
                           is_write := 0, need_interrupt := 0 },
    res_list := fun _ => { target_zone := 0, irq_id := 0 },
    cfg_flags := fun _ => 0, cfg_values := fun _ => 0, mmio_addrs := fun _ => 0,
    mmio_avail := 1, need_wakeup := 0 }

/-- Guest memory with the given `used_ring->idx`, used-event index and `avail_ring->flags`. -/
def sample_irq_mem (used_idx used_event avail_flags : Nat) : GuestMem :=
  { desc := fun _ => { addr := 0, len := 0, flags := 0, next := 0 },
    avail := fun _ => { flags := avail_flags, idx := 0, ring := fun _ => used_event },
    used := fun _ => { flags := 0, idx := used_idx, ring := fun _ => { id := 0, len := 0 },
                       avail_event := 0 } }

/-- A notify handler that leaves the device as it is. -/
def sample_notify : VirtIODevice → Nat → VirtIODevice :=
  fun vdev _ => vdev

/-- Header constants for the samples: type tags 1, 2, 3 for net, block and console, two
net queues, distinct handler addresses. -/
def sample_headers : Headers :=
  { VirtioTNet := 1, VirtioTBlock := 2, VirtioTConsole := 3,
    BLK_SUPPORTED_FEATURES := 1 <<< 32, NET_SUPPORTED_FEATURES := 1 <<< 32,
    VIRTQUEUE_BLK_MAX_SIZE := 512, VIRTQUEUE_NET_MAX_SIZE := 256,
    NET_MAX_QUEUES := 2, NET_QUEUE_RX := 0, NET_QUEUE_TX := 1,
    virtio_blk_notify_handler := 11, virtio_net_rxq_notify_handler := 12,
    virtio_net_txq_notify_handler := 13, virtio_console_rxq_notify_handler := 14,
    virtio_console_txq_notify_handler := 15 }

/-- Content of freshly allocated memory: every field of every queue holds 7. -/
def sample_heap : Nat → VirtQueue := fun _ =>
  { dev := 7, vq_idx := 7, num := 7, queue_num_max := 7, desc_table_addr := 7,
    avail_addr := 7, used_addr := 7, desc_table := 7, avail_ring := 7, used_ring := 7,
    notify_handler := 7, last_avail_idx := 7, last_used_idx := 7, ready := 7,
    event_idx_enabled := 7 }

/-- A console device of zone 1 at `0xa003000`, as `create_virtio_device` makes it. -/
def sample_console : Option VirtIODevice :=
  create_virtio_device sample_headers sample_heap 9000 false 3 1 0xa003000 0x200 75

/-- A block device of zone 1 at `0xa003000`, as `create_virtio_device` makes it. -/
def sample_block : Option VirtIODevice :=
  create_virtio_device sample_headers sample_heap 9000 false 2 1 0xa003000 0x200 75

/-- No config space. -/
def sample_config : VirtIODevice → Nat → Nat :=
  fun _ _ => 0

/-- A read request of CPU 2 of zone 1 for the register at `address`, on the control path. -/
def sample_read_req (address : Nat) : device_req :=
  { src_cpu := 2, src_zone := 1, address := address, size := 4, value := 0,
    is_write := 0, need_interrupt := 0 }

/-- Guest memory whose used ring has the given `flags`. -/
def sample_flags_mem (flags : Nat) : GuestMem :=
  { desc := fun _ => { addr := 0, len := 0, flags := 0, next := 0 },
    avail := fun _ => { flags := 0, idx := 0, ring := fun _ => 0 },
    used := fun _ => { flags := flags, idx := 0, ring := fun _ => { id := 0, len := 0 },
                       avail_event := 0 } }

/-- A mailbox with one pending request: a control-path read of the magic register of the
sample device. -/
def sample_pending_bridge : virtio_bridge :=
  { sample_bridge with req_rear := 1, req_list := fun _ => sample_read_req 0xa003000 }

/-- The head descriptor is direct without NEXT and its buffer, 16 bytes at guest-physical
address 0, lies below the window, which starts at `0x1000`. -/
def outside_window : Nat → VirtqDesc := fun _ =>
  { addr := 0, len := 16, flags := 0, next := 0 }

/-- The head descriptor is indirect without NEXT over a table of two entries (`len = 32`)
at host address 104096; entry 0 of the table carries INDIRECT and NEXT, entry 1 ends the
chain. -/
def nested_indirect : Nat → VirtqDesc := fun a =>
  if a = 1000 then { addr := 8192, len := 32, flags := 4, next := 0 }
  else if a = 104096 then { addr := 16384, len := 64, flags := 5, next := 1 }
  else if a = 104112 then { addr := 20480, len := 8, flags := 2, next := 0 }
  else { addr := 0, len := 0, flags := 0, next := 0 }

/-- Every descriptor of the table carries INDIRECT and NEXT and points to entry 0. -/
def indirect_next_cycle : Nat → VirtqDesc := fun _ =>
  { addr := 8192, len := 16, flags := 5, next := 0 }

/-! # Theorems -/

/-! ## The walker on chains of direct descriptors -/

theorem chain_idx_succ (m : GuestMem) (table head j : Nat) :
    chain_idx m table head (j + 1) = chain_idx m table (desc_at m table head).next j := by
  induction j with
  | zero => rfl
  | succ j ih => simp only [chain_idx] at ih ⊢; rw [ih]

theorem chain_desc_succ (m : GuestMem) (table head j : Nat) :
    chain_desc m table head (j + 1) = chain_desc m table (desc_at m table head).next j := by
  unfold chain_desc; rw [chain_idx_succ]

theorem chain_desc_zero (m : GuestMem) (table head : Nat) :
    chain_desc m table head 0 = desc_at m table head := rfl

theorem castInt_of_lt {n : Nat} (h : n < 2 ^ 31) : castInt n = (n : Int) := by
  unfold castInt
  have h1 : n % 2 ^ 32 = n := Nat.mod_eq_of_lt (by omega)
  rw [h1, if_pos h]

theorem num_minus_one_of_pos {n : Nat} (h1 : 1 ≤ n) (h : n < 2 ^ 64) :
    num_minus_one n = n - 1 := by
  unfold num_minus_one; omega

theorem count_loop_direct (m : GuestMem) (vq : VirtQueue) (hnum : vq.num < 2 ^ 31) :
    ∀ (k fuel : Nat) (i : Nat) (next : Nat) (cl : Int),
      1 ≤ k → k ≤ fuel → i + k ≤ vq.num →
      (∀ j, j < k → (chain_desc m vq.desc_table next j).flags &&& VRING_DESC_F_INDIRECT = 0) →
      (∀ j, j + 1 < k → (chain_desc m vq.desc_table next j).flags &&& VRING_DESC_F_NEXT ≠ 0) →
      (chain_desc m vq.desc_table next (k - 1)).flags &&& VRING_DESC_F_NEXT = 0 →
      count_loop m vq fuel (i : Int) next cl = some (((i + k - 1 : Nat) : Int), cl) := by
  intro k
  induction k with
  | zero => intro fuel i next cl h; omega
  | succ k ih =>
    intro fuel i next cl _ hfuel hik hdir hnext hlast
    obtain ⟨fuel, rfl⟩ : ∃ f, fuel = f + 1 := ⟨fuel - 1, by omega⟩
    have hd0 := hdir 0 (by omega)
    rw [chain_desc_zero] at hd0
    have hlt : (i : Int) < castInt vq.num := by rw [castInt_of_lt hnum]; omega
    rw [count_loop]
    simp only [hlt, if_true, hd0, ne_eq, not_true_eq_false, if_false]
    by_cases hk : k = 0
    · subst hk
      simp only [Nat.zero_add, Nat.sub_self] at hlast
      rw [chain_desc_zero] at hlast
      simp [hlast]
    · have hn0 := hnext 0 (by omega)
      rw [chain_desc_zero] at hn0
      simp only [hn0, if_false]
      have := ih fuel (i + 1) (desc_at m vq.desc_table next).next cl (by omega) (by omega) (by omega)
        (fun j hj => by rw [← chain_desc_succ]; exact hdir (j + 1) (by omega))
        (fun j hj => by rw [← chain_desc_succ]; exact hnext (j + 1) (by omega))
        (by rw [← chain_desc_succ]; have : k - 1 + 1 = k + 1 - 1 := by omega
            rw [this]; exact hlast)
      have e1 : ((i : Int) + 1) = ((i + 1 : Nat) : Int) := by push_cast; ring
      rw [e1, this]
      congr 2
      omega

theorem descriptor2iov_iov_same (w : Window) (i : Nat) (vd : VirtqDesc) (out : SgVec) (wf : Bool) :
    (descriptor2iov w i vd out wf).iov i = some (iov_of w vd) := by
  simp [descriptor2iov, iov_of]

theorem descriptor2iov_iov_other (w : Window) (i x : Nat) (vd : VirtqDesc) (out : SgVec)
    (wf : Bool) (h : x ≠ i) : (descriptor2iov w i vd out wf).iov x = out.iov x := by
  simp [descriptor2iov, h]

theorem descriptor2iov_flags_same (w : Window) (i : Nat) (vd : VirtqDesc) (out : SgVec) :
    (descriptor2iov w i vd out true).flags i = some vd.flags := by
  simp [descriptor2iov]

theorem descriptor2iov_flags_other (w : Window) (i x : Nat) (vd : VirtqDesc) (out : SgVec)
    (wf : Bool) (h : x ≠ i) : (descriptor2iov w i vd out wf).flags x = out.flags x := by
  cases wf <;> simp [descriptor2iov, h]

theorem descriptor2iov_flags_off (w : Window) (i : Nat) (vd : VirtqDesc) (out : SgVec) :
    (descriptor2iov w i vd out false).flags = out.flags := by
  simp [descriptor2iov]

theorem fill_loop_direct (w : Window) (m : GuestMem) (vq : VirtQueue) (wf : Bool) :
    ∀ (k fuel i next : Nat) (out : SgVec),
      k < fuel →
      (∀ j, j < k → (chain_desc m vq.desc_table next j).flags &&& VRING_DESC_F_INDIRECT = 0) →
      ∃ out1, fill_loop w m vq wf ((i + k : Nat) : Int) fuel i next out = some out1 ∧
        (∀ j, j < k → out1.iov (i + j) = some (iov_of w (chain_desc m vq.desc_table next j))) ∧
        (∀ j, j < k → wf = true →
          out1.flags (i + j) = some (chain_desc m vq.desc_table next j).flags) ∧
        (∀ x, x < i → out1.iov x = out.iov x ∧ out1.flags x = out.flags x) ∧
        (∀ x, i + k ≤ x → out1.iov x = out.iov x ∧ out1.flags x = out.flags x) ∧
        (wf = false → out1.flags = out.flags) := by
  intro k
  induction k with
  | zero =>
    intro fuel i next out hfuel _
    obtain ⟨fuel, rfl⟩ : ∃ f, fuel = f + 1 := ⟨fuel - 1, by omega⟩
    refine ⟨out, ?_, ?_, ?_, ?_, ?_, ?_⟩
    · rw [fill_loop]; simp
    · intro j hj; omega
    · intro j hj; omega
    · intro x _; exact ⟨rfl, rfl⟩
    · intro x _; exact ⟨rfl, rfl⟩
    · intro _; rfl
  | succ k ih =>
    intro fuel i next out hfuel hdir
    obtain ⟨fuel, rfl⟩ : ∃ f, fuel = f + 1 := ⟨fuel - 1, by omega⟩
    have hd0 := hdir 0 (by omega)
    rw [chain_desc_zero] at hd0
    obtain ⟨out1, h1, h2, h3, h4, h5, h6⟩ := ih fuel (i + 1) (desc_at m vq.desc_table next).next
      (descriptor2iov w i (desc_at m vq.desc_table next) out wf) (by omega)
      (fun j hj => by rw [← chain_desc_succ]; exact hdir (j + 1) (by omega))
    have e : i + 1 + k = i + (k + 1) := by omega
    rw [e] at h1
    refine ⟨out1, ?_, ?_, ?_, ?_, ?_, ?_⟩
    · rw [fill_loop]
      have hlt : (i : Int) < ((i + (k + 1) : Nat) : Int) := by omega
      simp only [hlt, if_true, hd0, ne_eq, not_true_eq_false, if_false]
      exact h1
    · intro j hj
      cases j with
      | zero =>
        rw [Nat.add_zero, (h4 i (by omega)).1, descriptor2iov_iov_same, chain_desc_zero]
      | succ j =>
        have := h2 j (by omega)
        rw [chain_desc_succ, ← this]; congr 1; omega
    · intro j hj hwf
      subst hwf
      cases j with
      | zero =>
        rw [Nat.add_zero, (h4 i (by omega)).2, descriptor2iov_flags_same, chain_desc_zero]
      | succ j =>
        have := h3 j (by omega) rfl
        rw [chain_desc_succ, ← this]; congr 1; omega
    · intro x hx
      have := h4 x (by omega)
      rw [this.1, this.2, descriptor2iov_iov_other _ _ _ _ _ _ (by omega),
        descriptor2iov_flags_other _ _ _ _ _ _ (by omega)]
      exact ⟨rfl, rfl⟩
    · intro x hx
      have := h5 x (by omega)
      rw [this.1, this.2, descriptor2iov_iov_other _ _ _ _ _ _ (by omega),
        descriptor2iov_flags_other _ _ _ _ _ _ (by omega)]
      exact ⟨rfl, rfl⟩
    · intro hwf
      subst hwf
      rw [h6 rfl, descriptor2iov_flags_off]

/-- C1, amended: on a queue with `1 ≤ num < 2^31`, the range in which the loop bound
`(int)vq->num` of line 319 keeps the value of `num`, and a non-empty avail ring whose head
starts a chain of `k` direct descriptors (`1 ≤ k ≤ num`, the first `k - 1` with NEXT, the
`k`-th without), the walker returns `k`, stores the head index read from
`avail_ring->ring[last_avail_idx & (num - 1)]` to `*desc_idx`, and entry `j < k` of the
output holds the translated address, the length and (when the flags vector is requested)
the flags of the `j`-th descriptor of the chain. -/
theorem process_descriptor_chain_direct_chain (fuel : Nat) (w : Window) (m : GuestMem)
    (vq : VirtQueue) (want_flags : Bool) (append_len : Int) (k : Nat)
    (hnum1 : 1 ≤ vq.num) (hnum : vq.num < 2 ^ 31)
    (hnonempty : vq.last_avail_idx ≠ (m.avail vq.avail_ring).idx)
    (hk1 : 1 ≤ k) (hk : k ≤ vq.num)
    (hdirect : ∀ j, j < k →
      (chain_desc m vq.desc_table (avail_head m vq) j).flags &&& VRING_DESC_F_INDIRECT = 0)
    (hnext : ∀ j, j < k - 1 →
      (chain_desc m vq.desc_table (avail_head m vq) j).flags &&& VRING_DESC_F_NEXT ≠ 0)
    (hlast : (chain_desc m vq.desc_table (avail_head m vq) (k - 1)).flags
      &&& VRING_DESC_F_NEXT = 0)
    (hfuel : k < fuel) :
    ∃ r, process_descriptor_chain fuel w m vq want_flags append_len = some r ∧
      r.ret = (k : Int) ∧
      r.desc_idx = some (avail_head m vq) ∧
      r.cap = some ((k : Int) + append_len) ∧
      (∀ j, j < k →
        r.out.iov j = some
          { iov_base := get_virt_addr w (chain_desc m vq.desc_table (avail_head m vq) j).addr,
            iov_len := (chain_desc m vq.desc_table (avail_head m vq) j).len }) ∧
      (want_flags = true → ∀ j, j < k →
        r.out.flags j = some (chain_desc m vq.desc_table (avail_head m vq) j).flags) := by
  have hhead : (m.avail vq.avail_ring).ring (vq.last_avail_idx &&& num_minus_one vq.num)
      = avail_head m vq := by
    unfold avail_head; rw [num_minus_one_of_pos hnum1 (by omega)]
  have hc := count_loop_direct m { vq with last_avail_idx := (vq.last_avail_idx + 1) % 2 ^ 16 }
    hnum k fuel 0 (avail_head m vq) 0 hk1 (by omega) (by simpa using hk) hdirect
    (fun j hj => hnext j (by omega)) hlast
  obtain ⟨out1, hf, hiov, hflags, _, _, _⟩ :=
    fill_loop_direct w m { vq with last_avail_idx := (vq.last_avail_idx + 1) % 2 ^ 16 }
      want_flags k fuel 0 (avail_head m vq) SgVec.empty hfuel hdirect
  have hlen : (0 : Int) + (((0 + k - 1 : Nat) : Int) + 1) = ((0 + k : Nat) : Int) := by omega
  refine ⟨{ ret := (k : Int), vq := { vq with last_avail_idx := (vq.last_avail_idx + 1) % 2 ^ 16 },
            desc_idx := some (avail_head m vq), cap := some ((k : Int) + append_len),
            out := out1 }, ?_, rfl, rfl, rfl, ?_, ?_⟩
  · unfold process_descriptor_chain
    simp only [hnonempty, if_false, hhead]
    have hc' : count_loop m { vq with last_avail_idx := (vq.last_avail_idx + 1) % 2 ^ 16 } fuel 0
        (avail_head m vq) 0 = some (((0 + k - 1 : Nat) : Int), 0) := by exact_mod_cast hc
    rw [hc']
    simp only [hlen, hf]
    simp
  · intro j hj
    have := hiov j hj
    rw [Nat.zero_add] at this
    exact this
  · intro hwf j hj
    have := hflags j hj hwf
    rw [Nat.zero_add] at this
    exact this

/-- Witness of C1: the three-descriptor block request. -/
theorem process_descriptor_chain_direct_chain_witness :
    ∃ r, process_descriptor_chain 4 sample_window (sample_mem three_direct) (sample_vq 4)
        true 1 = some r ∧
      r.ret = ((3 : Nat) : Int) ∧
      r.desc_idx = some (avail_head (sample_mem three_direct) (sample_vq 4)) ∧
      r.cap = some (((3 : Nat) : Int) + 1) ∧
      (∀ j, j < 3 →
        r.out.iov j = some
          { iov_base := get_virt_addr sample_window
              (chain_desc (sample_mem three_direct) (sample_vq 4).desc_table
                (avail_head (sample_mem three_direct) (sample_vq 4)) j).addr,
            iov_len := (chain_desc (sample_mem three_direct) (sample_vq 4).desc_table
                (avail_head (sample_mem three_direct) (sample_vq 4)) j).len }) ∧
      (true = true → ∀ j, j < 3 →
        r.out.flags j = some (chain_desc (sample_mem three_direct) (sample_vq 4).desc_table
          (avail_head (sample_mem three_direct) (sample_vq 4)) j).flags) :=
  process_descriptor_chain_direct_chain 4 sample_window (sample_mem three_direct) (sample_vq 4)
    true 1 3 (by decide) (by decide) (by decide) (by decide) (by decide) (by decide)
    (by decide) (by decide) (by decide)

/-- Counterexample to C1 as stated: the same three-descriptor chain on a queue whose size
register holds `2^31`. The chain is direct, its first two descriptors carry NEXT, the third
does not, and `3 ≤ num`; the loop bound `(int)vq->num` is `-2^31`, the counting loop is
not entered, and the walker returns 1 with one entry stored, not 3. -/
theorem direct_chain_cut_at_int_bound :
    1 ≤ (sample_vq (2 ^ 31)).num ∧ 3 ≤ (sample_vq (2 ^ 31)).num ∧
    castInt (sample_vq (2 ^ 31)).num = -2147483648 ∧
    (∀ j, j < 3 →
      (chain_desc (sample_mem three_direct) (sample_vq (2 ^ 31)).desc_table
        (avail_head (sample_mem three_direct) (sample_vq (2 ^ 31))) j).flags
        &&& VRING_DESC_F_INDIRECT = 0) ∧
    (∀ j, j < 2 →
      (chain_desc (sample_mem three_direct) (sample_vq (2 ^ 31)).desc_table
        (avail_head (sample_mem three_direct) (sample_vq (2 ^ 31))) j).flags
        &&& VRING_DESC_F_NEXT ≠ 0) ∧
    (chain_desc (sample_mem three_direct) (sample_vq (2 ^ 31)).desc_table
        (avail_head (sample_mem three_direct) (sample_vq (2 ^ 31))) 2).flags
        &&& VRING_DESC_F_NEXT = 0 ∧
    (process_descriptor_chain 4 sample_window (sample_mem three_direct) (sample_vq (2 ^ 31))
      true 1).map (fun r => (r.ret, r.cap, r.out.iov 0, r.out.iov 1, r.out.iov 2))
      = some (1, some 2, some { iov_base := 100000, iov_len := 16 }, none, none) := by
  refine ⟨by decide, by decide, by decide, by decide, by decide, by decide, ?_⟩
  decide

/-! ## The avail index -/

theorem process_descriptor_chain_empty (fuel : Nat) (w : Window) (m : GuestMem) (vq : VirtQueue)
    (wf : Bool) (al : Int) (h : vq.last_avail_idx = (m.avail vq.avail_ring).idx) :
    process_descriptor_chain fuel w m vq wf al
      = some { ret := 0, vq := vq, desc_idx := none, cap := none, out := SgVec.empty } := by
  unfold process_descriptor_chain
  simp only [h, if_true]

theorem process_descriptor_chain_nonempty (fuel : Nat) (w : Window) (m : GuestMem)
    (vq : VirtQueue) (wf : Bool) (al : Int) (r : ChainResult)
    (hr : process_descriptor_chain fuel w m vq wf al = some r)
    (h : vq.last_avail_idx ≠ (m.avail vq.avail_ring).idx) :
    r.vq = { vq with last_avail_idx := (vq.last_avail_idx + 1) % 2 ^ 16 } := by
  unfold process_descriptor_chain at hr
  simp only [h, if_false] at hr
  split at hr
  · exact absurd hr (by simp)
  · split at hr
    · exact absurd hr (by simp)
    · simp only [Option.some.injEq] at hr
      rw [← hr]

theorem process_descriptor_chain_ret_ne_zero (fuel : Nat) (w : Window) (m : GuestMem)
    (vq : VirtQueue) (wf : Bool) (al : Int) (r : ChainResult)
    (hr : process_descriptor_chain fuel w m vq wf al = some r) (h : r.ret ≠ 0) :
    vq.last_avail_idx ≠ (m.avail vq.avail_ring).idx := by
  intro he
  rw [process_descriptor_chain_empty fuel w m vq wf al he] at hr
  simp only [Option.some.injEq] at hr
  rw [← hr] at h
  exact h rfl

theorem walk_calls_last_avail_idx (w : Window) :
    ∀ (calls : List (Nat × GuestMem × Bool × Int)) (vq vq1 : VirtQueue) (n : Nat),
      walk_calls w vq calls = some (vq1, n) →
      vq1.last_avail_idx % 2 ^ 16 = (vq.last_avail_idx + n) % 2 ^ 16 := by
  intro calls
  induction calls with
  | nil =>
    intro vq vq1 n h
    simp only [walk_calls, Option.some.injEq, Prod.mk.injEq] at h
    rw [← h.1, ← h.2]; rfl
  | cons c cs ih =>
    intro vq vq1 n h
    rw [walk_calls] at h
    cases hp : process_descriptor_chain c.1 w c.2.1 vq c.2.2.1 c.2.2.2 with
    | none => rw [hp] at h; exact absurd h (by simp)
    | some r =>
      rw [hp] at h
      simp only at h
      cases hw : walk_calls w r.vq cs with
      | none => rw [hw] at h; exact absurd h (by simp)
      | some res =>
        obtain ⟨vq2, n2⟩ := res
        rw [hw] at h
        simp only [Option.some.injEq, Prod.mk.injEq] at h
        have ih1 := ih r.vq vq2 n2 hw
        rw [← h.1, ← h.2, ih1]
        by_cases he : vq.last_avail_idx = (c.2.1.avail vq.avail_ring).idx
        · rw [process_descriptor_chain_empty c.1 w c.2.1 vq c.2.2.1 c.2.2.2 he] at hp
          simp only [Option.some.injEq] at hp
          rw [← hp]
          simp only [he, if_true, Nat.add_zero]
        · rw [process_descriptor_chain_nonempty c.1 w c.2.1 vq c.2.2.1 c.2.2.2 r hp he]
          simp only [he, if_false]
          omega

/-- C2, amended: a call of the walker that finds the avail ring empty
(`last_avail_idx == avail_ring->idx`) returns 0 and changes nothing; a call that returns on
a non-empty avail ring advances `last_avail_idx` by exactly 1 modulo 2^16 and changes no
other field of the queue; a call that returns a non-zero result found the ring
non-empty. Hence after any sequence of calls `last_avail_idx` has advanced, modulo 2^16,
by the number of calls that found the avail ring non-empty. -/
theorem last_avail_idx_advances_per_dequeue (fuel : Nat) (w : Window) (m : GuestMem)
    (vq : VirtQueue) (want_flags : Bool) (append_len : Int) :
    (vq.last_avail_idx = (m.avail vq.avail_ring).idx →
      process_descriptor_chain fuel w m vq want_flags append_len
        = some { ret := 0, vq := vq, desc_idx := none, cap := none, out := SgVec.empty }) ∧
    (∀ r, process_descriptor_chain fuel w m vq want_flags append_len = some r →
      vq.last_avail_idx ≠ (m.avail vq.avail_ring).idx →
      r.vq = { vq with last_avail_idx := (vq.last_avail_idx + 1) % 2 ^ 16 }) ∧
    (∀ r, process_descriptor_chain fuel w m vq want_flags append_len = some r →
      r.ret ≠ 0 → r.vq.last_avail_idx = (vq.last_avail_idx + 1) % 2 ^ 16) ∧
    (∀ calls vq1 n, walk_calls w vq calls = some (vq1, n) →
      vq1.last_avail_idx % 2 ^ 16 = (vq.last_avail_idx + n) % 2 ^ 16) := by
  refine ⟨process_descriptor_chain_empty fuel w m vq want_flags append_len,
    process_descriptor_chain_nonempty fuel w m vq want_flags append_len, ?_,
    fun calls vq1 n h => walk_calls_last_avail_idx w calls vq vq1 n h⟩
  intro r hr hret
  rw [process_descriptor_chain_nonempty fuel w m vq want_flags append_len r hr
    (process_descriptor_chain_ret_ne_zero fuel w m vq want_flags append_len r hr hret)]

/-- Counterexample to C2 as stated: on a head descriptor that is indirect and declares an
empty table the walker returns 0, yet `last_avail_idx` has moved from 0 to 1. -/
theorem zero_result_after_dequeue :
    (sample_vq 4).last_avail_idx = 0 ∧
    (process_descriptor_chain 2 sample_window (sample_mem empty_indirect) (sample_vq 4)
      true 0).map (fun r => (r.ret, r.vq.last_avail_idx)) = some (0, 1) := by
  decide

/-- Witness of C2: two calls on the three-descriptor request, the second on an empty ring. -/
theorem last_avail_idx_advances_per_dequeue_witness :
    (process_descriptor_chain 4 sample_window (sample_mem three_direct) (sample_vq 4)
      true 0).map (fun r => r.vq.last_avail_idx) = some 1 ∧
    walk_calls sample_window (sample_vq 4)
      [(4, sample_mem three_direct, true, 0), (4, sample_mem three_direct, true, 0)]
      = some ({ sample_vq 4 with last_avail_idx := 1 }, 1) ∧
    (1 : Nat) % 2 ^ 16 = ((sample_vq 4).last_avail_idx + 1) % 2 ^ 16 := by
  have h := last_avail_idx_advances_per_dequeue 4 sample_window (sample_mem three_direct)
    (sample_vq 4) true 0
  have hw : walk_calls sample_window (sample_vq 4)
      [(4, sample_mem three_direct, true, 0), (4, sample_mem three_direct, true, 0)]
      = some ({ sample_vq 4 with last_avail_idx := 1 }, 1) := rfl
  exact ⟨by decide, hw, h.2.2.2 _ _ _ hw⟩

/-! ## Chains longer than the queue -/

theorem count_loop_exhaust (m : GuestMem) (vq : VirtQueue) (hnum : vq.num < 2 ^ 31) :
    ∀ (k fuel : Nat) (i : Nat) (next : Nat) (cl : Int),
      k < fuel → i + k = vq.num →
      (∀ j, j < k → (chain_desc m vq.desc_table next j).flags &&& VRING_DESC_F_INDIRECT = 0) →
      (∀ j, j < k → (chain_desc m vq.desc_table next j).flags &&& VRING_DESC_F_NEXT ≠ 0) →
      count_loop m vq fuel (i : Int) next cl = some ((vq.num : Int), cl) := by
  intro k
  induction k with
  | zero =>
    intro fuel i next cl hfuel hik _ _
    obtain ⟨fuel, rfl⟩ : ∃ f, fuel = f + 1 := ⟨fuel - 1, by omega⟩
    have hlt : ¬ ((i : Int) < castInt vq.num) := by rw [castInt_of_lt hnum]; omega
    rw [count_loop]
    simp only [hlt, if_false]
    congr 2
    omega
  | succ k ih =>
    intro fuel i next cl hfuel hik hdir hnext
    obtain ⟨fuel, rfl⟩ : ∃ f, fuel = f + 1 := ⟨fuel - 1, by omega⟩
    have hd0 := hdir 0 (by omega)
    have hn0 := hnext 0 (by omega)
    rw [chain_desc_zero] at hd0 hn0
    have hlt : (i : Int) < castInt vq.num := by rw [castInt_of_lt hnum]; omega
    rw [count_loop]
    simp only [hlt, if_true, hd0, ne_eq, not_true_eq_false, if_false, hn0]
    have := ih fuel (i + 1) (desc_at m vq.desc_table next).next cl (by omega) (by omega)
      (fun j hj => by rw [← chain_desc_succ]; exact hdir (j + 1) (by omega))
      (fun j hj => by rw [← chain_desc_succ]; exact hnext (j + 1) (by omega))
    have e1 : ((i : Int) + 1) = ((i + 1 : Nat) : Int) := by push_cast; ring
    rw [e1, this]

/-- C3, amended: when the descriptors reached from the head are direct and each of the
first `num` of them carries NEXT (a cycle, for example), the walker reports no error. Its
counting loop stops after `num` descriptors (it leaves with `i = num`), and the call
returns a positive chain length, stores the head index, and hands back vectors allocated
for that length whose first `num` entries are the first `num` descriptors of the chain.
The queue is non-empty and its size is in the range of `int`. -/
theorem process_descriptor_chain_no_error_on_long_chain (fuel : Nat) (w : Window)
    (m : GuestMem) (vq : VirtQueue) (want_flags : Bool) (append_len : Int)
    (hnum1 : 1 ≤ vq.num) (hnum : vq.num < 2 ^ 31)
    (hnonempty : vq.last_avail_idx ≠ (m.avail vq.avail_ring).idx)
    (hdirect : ∀ j, j < vq.num + 1 →
      (chain_desc m vq.desc_table (avail_head m vq) j).flags &&& VRING_DESC_F_INDIRECT = 0)
    (hnext : ∀ j, j < vq.num →
      (chain_desc m vq.desc_table (avail_head m vq) j).flags &&& VRING_DESC_F_NEXT ≠ 0)
    (hfuel : vq.num + 1 < fuel) :
    count_loop m vq fuel 0 (avail_head m vq) 0 = some ((vq.num : Int), 0) ∧
    ∃ r, process_descriptor_chain fuel w m vq want_flags append_len = some r ∧
      0 < r.ret ∧
      r.desc_idx = some (avail_head m vq) ∧
      r.cap = some (r.ret + append_len) ∧
      (∀ j, j < vq.num →
        r.out.iov j = some
          { iov_base := get_virt_addr w (chain_desc m vq.desc_table (avail_head m vq) j).addr,
            iov_len := (chain_desc m vq.desc_table (avail_head m vq) j).len }) ∧
      (want_flags = true → ∀ j, j < vq.num →
        r.out.flags j = some (chain_desc m vq.desc_table (avail_head m vq) j).flags) := by
  have hhead : (m.avail vq.avail_ring).ring (vq.last_avail_idx &&& num_minus_one vq.num)
      = avail_head m vq := by
    unfold avail_head; rw [num_minus_one_of_pos hnum1 (by omega)]
  have hc := count_loop_exhaust m { vq with last_avail_idx := (vq.last_avail_idx + 1) % 2 ^ 16 }
    hnum vq.num fuel 0 (avail_head m vq) 0 (by omega) (by simp)
    (fun j hj => hdirect j (by omega)) hnext
  obtain ⟨out1, hf, hiov, hflags, _, _, _⟩ :=
    fill_loop_direct w m { vq with last_avail_idx := (vq.last_avail_idx + 1) % 2 ^ 16 }
      want_flags (vq.num + 1) fuel 0 (avail_head m vq) SgVec.empty hfuel hdirect
  have hlen : (0 : Int) + ((vq.num : Int) + 1) = ((0 + (vq.num + 1) : Nat) : Int) := by omega
  have hcount : count_loop m vq fuel 0 (avail_head m vq) 0 = some ((vq.num : Int), 0) := by
    have := count_loop_exhaust m vq hnum vq.num fuel 0 (avail_head m vq) 0
      (by omega) (by simp) (fun j hj => hdirect j (by omega)) hnext
    exact_mod_cast this
  refine ⟨hcount, ?_⟩
  refine ⟨{ ret := ((0 + (vq.num + 1) : Nat) : Int),
            vq := { vq with last_avail_idx := (vq.last_avail_idx + 1) % 2 ^ 16 },
            desc_idx := some (avail_head m vq),
            cap := some (((0 + (vq.num + 1) : Nat) : Int) + append_len),
            out := out1 }, ?_, ?_, rfl, rfl, ?_, ?_⟩
  · unfold process_descriptor_chain
    simp only [hnonempty, if_false, hhead]
    have hc' : count_loop m { vq with last_avail_idx := (vq.last_avail_idx + 1) % 2 ^ 16 } fuel 0
        (avail_head m vq) 0 = some ((vq.num : Int), 0) := by exact_mod_cast hc
    rw [hc']
    simp only [hlen, hf]
  · show (0 : Int) < ((0 + (vq.num + 1) : Nat) : Int)
    omega
  · intro j hj
    have := hiov j (by omega)
    rw [Nat.zero_add] at this
    exact this
  · intro hwf j hj
    have := hflags j (by omega) hwf
    rw [Nat.zero_add] at this
    exact this

/-- Counterexample to C3 as stated: with `num = 2` and two descriptors that form a cycle the
walker returns the chain length 3, greater than `num`, with three entries stored. -/
theorem cycle_returns_vector :
    (sample_vq 2).num = 2 ∧
    (process_descriptor_chain 4 sample_window (sample_mem two_cycle) (sample_vq 2)
      true 0).map (fun r => (r.ret, r.out.iov 0, r.out.iov 1, r.out.iov 2))
      = some (3, some { iov_base := 100000, iov_len := 16 },
          some { iov_base := 104096, iov_len := 32 },
          some { iov_base := 100000, iov_len := 16 }) := by
  decide

/-- Witness of C3: the two-descriptor cycle on a queue of size 2. -/
theorem process_descriptor_chain_no_error_on_long_chain_witness :
    count_loop (sample_mem two_cycle) (sample_vq 2) 4 0
      (avail_head (sample_mem two_cycle) (sample_vq 2)) 0 = some (((sample_vq 2).num : Int), 0) ∧
    ∃ r, process_descriptor_chain 4 sample_window (sample_mem two_cycle) (sample_vq 2)
        false 0 = some r ∧
      0 < r.ret ∧
      r.desc_idx = some (avail_head (sample_mem two_cycle) (sample_vq 2)) ∧
      r.cap = some (r.ret + 0) ∧
      (∀ j, j < (sample_vq 2).num →
        r.out.iov j = some
          { iov_base := get_virt_addr sample_window
              (chain_desc (sample_mem two_cycle) (sample_vq 2).desc_table
                (avail_head (sample_mem two_cycle) (sample_vq 2)) j).addr,
            iov_len := (chain_desc (sample_mem two_cycle) (sample_vq 2).desc_table
                (avail_head (sample_mem two_cycle) (sample_vq 2)) j).len }) ∧
      (false = true → ∀ j, j < (sample_vq 2).num →
        r.out.flags j = some (chain_desc (sample_mem two_cycle) (sample_vq 2).desc_table
          (avail_head (sample_mem two_cycle) (sample_vq 2)) j).flags) :=
  process_descriptor_chain_no_error_on_long_chain 4 sample_window (sample_mem two_cycle)
    (sample_vq 2) false 0 (by decide) (by decide) (by decide) (by decide) (by decide)
    (by decide)

/-! ## Indirect tables -/

theorem indirect_loop_chain (w : Window) (m : GuestMem) (wf : Bool) (table : Nat) :
    ∀ (k fuel i next : Nat) (tl : Int) (out : SgVec),
      1 ≤ k → k ≤ fuel →
      (∀ j, j < k - 1 → (chain_desc m table next j).flags &&& VRING_DESC_F_NEXT ≠ 0) →
      (chain_desc m table next (k - 1)).flags &&& VRING_DESC_F_NEXT = 0 →
      indirect_loop w m wf table fuel i next tl out
        = some (i + k, tl - (k : Int), store_chain w m wf table k i next out) := by
  intro k
  induction k with
  | zero => intro fuel i next tl out h; omega
  | succ k ih =>
    intro fuel i next tl out _ hfuel hnext hlast
    obtain ⟨fuel, rfl⟩ : ∃ f, fuel = f + 1 := ⟨fuel - 1, by omega⟩
    rw [indirect_loop]
    by_cases hk : k = 0
    · subst hk
      simp only [Nat.zero_add, Nat.sub_self] at hlast
      rw [chain_desc_zero] at hlast
      simp only [hlast, if_true, store_chain]
      congr 2
    · have hn0 := hnext 0 (by omega)
      rw [chain_desc_zero] at hn0
      simp only [hn0, if_false]
      rw [ih fuel (i + 1) (desc_at m table next).next (tl - 1) _ (by omega) (by omega)
        (fun j hj => by rw [← chain_desc_succ]; exact hnext (j + 1) (by omega))
        (by rw [← chain_desc_succ]; have : k - 1 + 1 = k + 1 - 1 := by omega
            rw [this]; exact hlast)]
      rw [store_chain]
      congr 2
      · omega
      · congr 1
        push_cast
        ring

theorem store_chain_spec (w : Window) (m : GuestMem) (wf : Bool) (table : Nat) :
    ∀ (k i next : Nat) (out : SgVec),
      (∀ j, j < k → (store_chain w m wf table k i next out).iov (i + j)
        = some (iov_of w (chain_desc m table next j))) ∧
      (∀ j, j < k → wf = true → (store_chain w m wf table k i next out).flags (i + j)
        = some (chain_desc m table next j).flags) ∧
      (∀ x, x < i ∨ i + k ≤ x →
        (store_chain w m wf table k i next out).iov x = out.iov x ∧
        (store_chain w m wf table k i next out).flags x = out.flags x) := by
  intro k
  induction k with
  | zero =>
    intro i next out
    refine ⟨fun j hj => by omega, fun j hj => by omega, fun x _ => ⟨rfl, rfl⟩⟩
  | succ k ih =>
    intro i next out
    obtain ⟨h1, h2, h3⟩ := ih (i + 1) (desc_at m table next).next
      (descriptor2iov w i (desc_at m table next) out wf)
    refine ⟨?_, ?_, ?_⟩
    · intro j hj
      rw [store_chain]
      cases j with
      | zero =>
        show (store_chain w m wf table k (i + 1) _ _).iov i = _
        rw [(h3 i (Or.inl (by omega))).1, descriptor2iov_iov_same, chain_desc_zero]
      | succ j =>
        have := h1 j (by omega)
        rw [chain_desc_succ, ← this]; congr 1; omega
    · intro j hj hwf
      subst hwf
      rw [store_chain]
      cases j with
      | zero =>
        show (store_chain w m true table k (i + 1) _ _).flags i = _
        rw [(h3 i (Or.inl (by omega))).2, descriptor2iov_flags_same, chain_desc_zero]
      | succ j =>
        have := h2 j (by omega) rfl
        rw [chain_desc_succ, ← this]; congr 1; omega
    · intro x hx
      rw [store_chain]
      have := h3 x (by omega)
      rw [this.1, this.2, descriptor2iov_iov_other _ _ _ _ _ _ (by omega),
        descriptor2iov_flags_other _ _ _ _ _ _ (by omega)]
      exact ⟨rfl, rfl⟩

theorem store_chain_congr (w : Window) (m m1 : GuestMem) (wf : Bool) (table : Nat) :
    ∀ (k i next : Nat) (out : SgVec),
      (∀ j, j < k → desc_at m1 table (chain_idx m table next j)
        = desc_at m table (chain_idx m table next j)) →
      store_chain w m1 wf table k i next out = store_chain w m wf table k i next out := by
  intro k
  induction k with
  | zero => intro i next out _; rfl
  | succ k ih =>
    intro i next out h
    have h0 := h 0 (by omega)
    simp only [chain_idx] at h0
    rw [store_chain, store_chain, h0]
    exact ih _ _ _ (fun j hj => by
      have := h (j + 1) (by omega)
      rw [chain_idx_succ] at this
      exact this)

theorem chain_desc_congr (m m1 : GuestMem) (table : Nat) :
    ∀ (k next : Nat),
      (∀ j, j < k → desc_at m1 table (chain_idx m table next j)
        = desc_at m table (chain_idx m table next j)) →
      ∀ j, j < k → chain_desc m1 table next j = chain_desc m table next j := by
  intro k
  induction k with
  | zero => intro next _ j hj; omega
  | succ k ih =>
    intro next h j hj
    have h0 := h 0 (by omega)
    simp only [chain_idx] at h0
    cases j with
    | zero => rw [chain_desc_zero, chain_desc_zero, h0]
    | succ j =>
      rw [chain_desc_succ, chain_desc_succ, h0]
      exact ih _ (fun j hj => by
        have := h (j + 1) (by omega)
        rw [chain_idx_succ] at this
        exact this) j (by omega)

theorem process_descriptor_chain_indirect_closed (fuel : Nat) (w : Window) (m : GuestMem)
    (vq : VirtQueue) (wf : Bool) (al : Int) (k : Nat)
    (hnum1 : 1 ≤ vq.num) (hnum : vq.num < 2 ^ 31)
    (hnonempty : vq.last_avail_idx ≠ (m.avail vq.avail_ring).idx)
    (hk1 : 1 ≤ k)
    (hind : (desc_at m vq.desc_table (avail_head m vq)).flags &&& VRING_DESC_F_INDIRECT ≠ 0)
    (hnonext : (desc_at m vq.desc_table (avail_head m vq)).flags &&& VRING_DESC_F_NEXT = 0)
    (hlen : (desc_at m vq.desc_table (avail_head m vq)).len = 16 * k)
    (hnext : ∀ j, j < k - 1 →
      (chain_desc m (get_virt_addr w (desc_at m vq.desc_table (avail_head m vq)).addr) 0 j).flags
        &&& VRING_DESC_F_NEXT ≠ 0)
    (hlast : (chain_desc m (get_virt_addr w (desc_at m vq.desc_table (avail_head m vq)).addr) 0
      (k - 1)).flags &&& VRING_DESC_F_NEXT = 0)
    (hfuel : k < fuel) :
    process_descriptor_chain fuel w m vq wf al
      = some { ret := (k : Int),
               vq := { vq with last_avail_idx := (vq.last_avail_idx + 1) % 2 ^ 16 },
               desc_idx := some (avail_head m vq),
               cap := some ((k : Int) + al),
               out := store_chain w m wf
                 (get_virt_addr w (desc_at m vq.desc_table (avail_head m vq)).addr)
                 k 0 0 SgVec.empty } := by
  have hhead : (m.avail vq.avail_ring).ring (vq.last_avail_idx &&& num_minus_one vq.num)
      = avail_head m vq := by
    unfold avail_head; rw [num_minus_one_of_pos hnum1 (by omega)]
  obtain ⟨fuel, rfl⟩ : ∃ f, fuel = f + 1 := ⟨fuel - 1, by omega⟩
  obtain ⟨fuel, rfl⟩ : ∃ f, fuel = f + 1 := ⟨fuel - 1, by omega⟩
  have hdiv : 16 * k / 16 = k := by omega
  have hlt : (0 : Int) < castInt vq.num := by rw [castInt_of_lt hnum]; omega
  have hil := indirect_loop_chain w m wf
    (get_virt_addr w (desc_at m vq.desc_table (avail_head m vq)).addr) k (fuel + 1) 0 0
    (k : Int) SgVec.empty hk1 (by omega) hnext hlast
  unfold process_descriptor_chain
  simp only [hnonempty, if_false, hhead]
  rw [count_loop]
  simp only [hlt, if_true, hind, hnonext, ne_eq, not_false_eq_true, hlen, hdiv]
  rw [fill_loop]
  have hk0 : (((0 : Nat) : Int)) < (0 : Int) + (k : Int) + ((0 : Int) - 1 + 1) := by omega
  simp only [hk0, if_true, hind, ne_eq, not_false_eq_true, hlen, hdiv, hil]
  rw [fill_loop]
  have hk2 : ¬ (((0 + k + 1 : Nat) : Int) < (0 : Int) + (k : Int) + ((0 : Int) - 1 + 1)) := by
    omega
  simp only [sub_self, not_true_eq_false, if_false, hk2]
  congr 2
  · omega
  · congr 1; omega



/-- C4, amended: on a non-empty queue with `1 ≤ num < 2^31`, the sizes at which the
counting loop of line 319 is entered, when the head descriptor is indirect without NEXT,
declares `len = 16 * k` and points to a table whose entries, followed from entry 0 through
NEXT, form a chain of exactly `k` entries, the walker returns `k`, entry `j < k` of the
output holds the translated address, the length and the flags of the `j`-th entry of that
chain, and nothing is stored at an index from `k` on. No other table entry is read: the
call gives the same result on every guest memory that agrees on the avail ring, the head
descriptor and these `k` entries. -/
theorem process_descriptor_chain_indirect_chain (fuel : Nat) (w : Window) (m : GuestMem)
    (vq : VirtQueue) (want_flags : Bool) (append_len : Int) (k : Nat)
    (hnum1 : 1 ≤ vq.num) (hnum : vq.num < 2 ^ 31)
    (hnonempty : vq.last_avail_idx ≠ (m.avail vq.avail_ring).idx)
    (hk1 : 1 ≤ k)
    (hind : (desc_at m vq.desc_table (avail_head m vq)).flags &&& VRING_DESC_F_INDIRECT ≠ 0)
    (hnonext : (desc_at m vq.desc_table (avail_head m vq)).flags &&& VRING_DESC_F_NEXT = 0)
    (hlen : (desc_at m vq.desc_table (avail_head m vq)).len = 16 * k)
    (hnext : ∀ j, j < k - 1 →
      (chain_desc m (get_virt_addr w (desc_at m vq.desc_table (avail_head m vq)).addr) 0 j).flags
        &&& VRING_DESC_F_NEXT ≠ 0)
    (hlast : (chain_desc m (get_virt_addr w (desc_at m vq.desc_table (avail_head m vq)).addr) 0
      (k - 1)).flags &&& VRING_DESC_F_NEXT = 0)
    (hfuel : k < fuel) :
    (∃ r, process_descriptor_chain fuel w m vq want_flags append_len = some r ∧
      r.ret = (k : Int) ∧
      r.desc_idx = some (avail_head m vq) ∧
      (∀ j, j < k →
        r.out.iov j = some
          { iov_base := get_virt_addr w (chain_desc m
              (get_virt_addr w (desc_at m vq.desc_table (avail_head m vq)).addr) 0 j).addr,
            iov_len := (chain_desc m
              (get_virt_addr w (desc_at m vq.desc_table (avail_head m vq)).addr) 0 j).len }) ∧
      (want_flags = true → ∀ j, j < k →
        r.out.flags j = some (chain_desc m
          (get_virt_addr w (desc_at m vq.desc_table (avail_head m vq)).addr) 0 j).flags) ∧
      (∀ x, k ≤ x → r.out.iov x = none ∧ r.out.flags x = none)) ∧
    (∀ m1 : GuestMem,
      m1.avail vq.avail_ring = m.avail vq.avail_ring →
      desc_at m1 vq.desc_table (avail_head m vq) = desc_at m vq.desc_table (avail_head m vq) →
      (∀ j, j < k →
        desc_at m1 (get_virt_addr w (desc_at m vq.desc_table (avail_head m vq)).addr)
            (chain_idx m (get_virt_addr w (desc_at m vq.desc_table (avail_head m vq)).addr) 0 j)
          = desc_at m (get_virt_addr w (desc_at m vq.desc_table (avail_head m vq)).addr)
            (chain_idx m (get_virt_addr w (desc_at m vq.desc_table (avail_head m vq)).addr) 0 j)) →
      process_descriptor_chain fuel w m1 vq want_flags append_len
        = process_descriptor_chain fuel w m vq want_flags append_len) := by
  have hclosed := process_descriptor_chain_indirect_closed fuel w m vq want_flags append_len k
    hnum1 hnum hnonempty hk1 hind hnonext hlen hnext hlast hfuel
  obtain ⟨s1, s2, s3⟩ := store_chain_spec w m want_flags
    (get_virt_addr w (desc_at m vq.desc_table (avail_head m vq)).addr) k 0 0 SgVec.empty
  refine ⟨⟨_, hclosed, rfl, rfl, ?_, ?_, ?_⟩, ?_⟩
  · intro j hj
    have := s1 j hj
    rw [Nat.zero_add] at this
    exact this
  · intro hwf j hj
    have := s2 j hj hwf
    rw [Nat.zero_add] at this
    exact this
  · intro x hx
    have := s3 x (Or.inr (by omega))
    exact ⟨this.1, this.2⟩
  · intro m1 havail hdesc hchain
    have hh : avail_head m1 vq = avail_head m vq := by unfold avail_head; rw [havail]
    have hcd := chain_desc_congr m m1
      (get_virt_addr w (desc_at m vq.desc_table (avail_head m vq)).addr) k 0 hchain
    have hclosed1 := process_descriptor_chain_indirect_closed fuel w m1 vq want_flags
      append_len k hnum1 hnum (by rw [havail]; exact hnonempty) hk1
      (by rw [hh, hdesc]; exact hind) (by rw [hh, hdesc]; exact hnonext)
      (by rw [hh, hdesc]; exact hlen)
      (by
        intro j hj
        rw [hh, hdesc, hcd j (by omega)]
        exact hnext j hj)
      (by rw [hh, hdesc, hcd (k - 1) (by omega)]; exact hlast) hfuel
    rw [hclosed1, hclosed, hh, hdesc,
      store_chain_congr w m m1 want_flags _ k 0 0 SgVec.empty hchain]

/-- Witness of C4: an indirect head with `len = 48` over a table of three entries. -/
theorem process_descriptor_chain_indirect_chain_witness :
    (process_descriptor_chain 4 sample_window (sample_mem (indirect_three 48)) (sample_vq 4)
      true 0).map (fun r => (r.ret, r.out.iov 0, r.out.iov 1, r.out.iov 2, r.out.iov 3))
      = some (3, some { iov_base := 112288, iov_len := 16 },
          some { iov_base := 116384, iov_len := 4096 },
          some { iov_base := 120480, iov_len := 1 }, none) := by
  obtain ⟨⟨r, hr, h1, _, h3, _, h5⟩, _⟩ :=
    process_descriptor_chain_indirect_chain 4 sample_window (sample_mem (indirect_three 48))
      (sample_vq 4) true 0 3 (by decide) (by decide) (by decide) (by decide) (by decide)
      (by decide) (by decide) (by decide) (by decide) (by decide)
  rw [hr]
  simp only [Option.map_some', h1, h3 0 (by omega), h3 1 (by omega), h3 2 (by omega),
    (h5 3 (by omega)).1]
  decide

/-- Counterexample to C4 as stated: the indirect head with `len = 48` over the table of
three chained entries, on a queue whose size register holds 0 (as after a reset) and on
one whose size register holds `2^31`. In both the loop bound `(int)vq->num` is not above
0, the counting loop is not entered and the table is not counted: the walker returns 1,
not 3, the vectors are allocated for one entry, and the entries of the table are stored
at the indices 0, 1 and 2. -/
theorem indirect_chain_not_counted :
    (desc_at (sample_mem (indirect_three 48)) (sample_vq 0).desc_table 0).flags = 4 ∧
    (desc_at (sample_mem (indirect_three 48)) (sample_vq 0).desc_table 0).len = 16 * 3 ∧
    castInt (sample_vq 0).num = 0 ∧ castInt (sample_vq (2 ^ 31)).num = -2147483648 ∧
    (process_descriptor_chain 4 sample_window (sample_mem (indirect_three 48))
      (sample_vq 0) true 0).map (fun r => (r.ret, r.cap, r.out.iov 1, r.out.iov 2))
      = some (1, some 1, some { iov_base := 116384, iov_len := 4096 },
          some { iov_base := 120480, iov_len := 1 }) ∧
    (process_descriptor_chain 4 sample_window (sample_mem (indirect_three 48))
      (sample_vq (2 ^ 31)) true 0).map (fun r => (r.ret, r.cap, r.out.iov 1, r.out.iov 2))
      = some (1, some 1, some { iov_base := 116384, iov_len := 4096 },
          some { iov_base := 120480, iov_len := 1 }) := by
  refine ⟨by decide, by decide, by decide, by decide, ?_, ?_⟩
  · decide
  · decide

/-- The code at the failing input of C5: the head declares a table of four entries
(`len = 64`) and the NEXT chain of the table ends after three. The walker returns 4, with
entry 3 of the vector never stored. -/
theorem indirect_declared_longer_returns_chain :
    (process_descriptor_chain 4 sample_window (sample_mem (indirect_three 64)) (sample_vq 4)
      true 0).map (fun r => (r.ret, r.cap, r.out.iov 2, r.out.iov 3))
      = some (4, some 4, some { iov_base := 120480, iov_len := 1 }, none) := by
  decide

/-- The code on a table declared shorter than its NEXT chain (`len = 32`, three entries
chained): the walker returns 2 and has stored a third entry. -/
theorem indirect_declared_shorter_returns_chain :
    (process_descriptor_chain 4 sample_window (sample_mem (indirect_three 32)) (sample_vq 4)
      true 0).map (fun r => (r.ret, r.cap, r.out.iov 1, r.out.iov 2))
      = some (2, some 2, some { iov_base := 116384, iov_len := 4096 },
          some { iov_base := 120480, iov_len := 1 }) := by
  decide

/-- The code on every mismatch that C5 speaks of: the head is indirect without NEXT and
declares `d ≥ 1` entries, the NEXT chain of its table has `k ≠ d` entries. The walker
returns the declared length `d` and the `k` entries it stored before it noticed. -/
theorem indirect_mismatch_returns_declared_length (fuel : Nat) (w : Window) (m : GuestMem)
    (vq : VirtQueue) (wf : Bool) (al : Int) (d k : Nat)
    (hnum1 : 1 ≤ vq.num) (hnum : vq.num < 2 ^ 31)
    (hnonempty : vq.last_avail_idx ≠ (m.avail vq.avail_ring).idx)
    (hd1 : 1 ≤ d) (hk1 : 1 ≤ k) (hkd : k ≠ d)
    (hind : (desc_at m vq.desc_table (avail_head m vq)).flags &&& VRING_DESC_F_INDIRECT ≠ 0)
    (hnonext : (desc_at m vq.desc_table (avail_head m vq)).flags &&& VRING_DESC_F_NEXT = 0)
    (hlen : (desc_at m vq.desc_table (avail_head m vq)).len / 16 = d)
    (hnext : ∀ j, j < k - 1 →
      (chain_desc m (get_virt_addr w (desc_at m vq.desc_table (avail_head m vq)).addr) 0 j).flags
        &&& VRING_DESC_F_NEXT ≠ 0)
    (hlast : (chain_desc m (get_virt_addr w (desc_at m vq.desc_table (avail_head m vq)).addr) 0
      (k - 1)).flags &&& VRING_DESC_F_NEXT = 0)
    (hfuel : k < fuel) :
    process_descriptor_chain fuel w m vq wf al
      = some { ret := (d : Int),
               vq := { vq with last_avail_idx := (vq.last_avail_idx + 1) % 2 ^ 16 },
               desc_idx := some (avail_head m vq),
               cap := some ((d : Int) + al),
               out := store_chain w m wf
                 (get_virt_addr w (desc_at m vq.desc_table (avail_head m vq)).addr)
                 k 0 0 SgVec.empty } := by
  have hhead : (m.avail vq.avail_ring).ring (vq.last_avail_idx &&& num_minus_one vq.num)
      = avail_head m vq := by
    unfold avail_head; rw [num_minus_one_of_pos hnum1 (by omega)]
  obtain ⟨fuel, rfl⟩ : ∃ f, fuel = f + 1 := ⟨fuel - 1, by omega⟩
  have hlt : (0 : Int) < castInt vq.num := by rw [castInt_of_lt hnum]; omega
  have hil := indirect_loop_chain w m wf
    (get_virt_addr w (desc_at m vq.desc_table (avail_head m vq)).addr) k fuel 0 0
    (d : Int) SgVec.empty hk1 (by omega) hnext hlast
  unfold process_descriptor_chain
  simp only [hnonempty, if_false, hhead]
  rw [count_loop]
  simp only [hlt, if_true, hind, hnonext, ne_eq, not_false_eq_true, hlen]
  rw [fill_loop]
  have hk0 : (((0 : Nat) : Int)) < (0 : Int) + (d : Int) + ((0 : Int) - 1 + 1) := by omega
  have hne : (d : Int) - (k : Int) ≠ 0 := by omega
  simp only [hk0, if_true, hind, ne_eq, not_false_eq_true, hlen, hil, hne]
  congr 2
  · omega
  · congr 1; omega

/-! ## The used ring -/

theorem and_mod_two_pow_of_lt (a b n : Nat) (h : a < 2 ^ n) : a &&& (b % 2 ^ n) = a &&& b := by
  apply Nat.eq_of_testBit_eq
  intro i
  rw [Nat.testBit_and, Nat.testBit_and, Nat.testBit_mod_two_pow]
  by_cases hi : i < n
  · simp [hi]
  · have : a.testBit i = false :=
      Nat.testBit_lt_two_pow (Nat.lt_of_lt_of_le h (Nat.pow_le_pow_right (by omega) (by omega)))
    simp [this]

theorem used_slot_eq (idx num : Nat) (hidx : idx < 2 ^ 16) (hnum : 1 ≤ num) :
    idx &&& (num_minus_one num % 2 ^ 16) = idx &&& (num - 1) := by
  have h1 : num_minus_one num % 2 ^ 16 = (num - 1) % 2 ^ 16 := by
    unfold num_minus_one; omega
  rw [h1, and_mod_two_pow_of_lt idx (num - 1) 16 hidx]

/-- C6: on a queue whose `num` is a power of two, `update_used_ring(vq, head, iolen)` writes
the element `{id = head, len = iolen}` at slot `old idx & (num - 1)` of the used ring,
sets `used_ring->idx` to the old value plus 1 modulo 2^16, and changes nothing else:
not another slot, not the flags or the event slot of the ring, not the queue (so not
`last_avail_idx` or `last_used_idx`), not the rest of guest memory. The old index is a
16-bit value. -/
theorem update_used_ring_spec (m : GuestMem) (vq : VirtQueue) (head iolen e : Nat)
    (hpow : vq.num = 2 ^ e) (hidx : (m.used vq.used_ring).idx < 2 ^ 16) :
    ((update_used_ring m vq head iolen).2.used vq.used_ring).ring
        ((m.used vq.used_ring).idx &&& (vq.num - 1)) = { id := head, len := iolen } ∧
    ((update_used_ring m vq head iolen).2.used vq.used_ring).idx
        = ((m.used vq.used_ring).idx + 1) % 2 ^ 16 ∧
    (∀ j, j ≠ (m.used vq.used_ring).idx &&& (vq.num - 1) →
      ((update_used_ring m vq head iolen).2.used vq.used_ring).ring j
        = (m.used vq.used_ring).ring j) ∧
    ((update_used_ring m vq head iolen).2.used vq.used_ring).flags
        = (m.used vq.used_ring).flags ∧
    ((update_used_ring m vq head iolen).2.used vq.used_ring).avail_event
        = (m.used vq.used_ring).avail_event ∧
    (update_used_ring m vq head iolen).1 = vq ∧
    (update_used_ring m vq head iolen).1.last_avail_idx = vq.last_avail_idx ∧
    (update_used_ring m vq head iolen).1.last_used_idx = vq.last_used_idx ∧
    (update_used_ring m vq head iolen).2.desc = m.desc ∧
    (update_used_ring m vq head iolen).2.avail = m.avail ∧
    (∀ a, a ≠ vq.used_ring → (update_used_ring m vq head iolen).2.used a = m.used a) := by
  have hnum : 1 ≤ vq.num := by rw [hpow]; exact Nat.one_le_two_pow
  have hslot := used_slot_eq (m.used vq.used_ring).idx vq.num hidx hnum
  refine ⟨?_, ?_, ?_, ?_, ?_, rfl, rfl, rfl, rfl, rfl, ?_⟩
  · simp only [update_used_ring, hslot, if_true]
  · simp [update_used_ring]
  · intro j hj
    simp only [update_used_ring, hslot, if_true, hj, if_false]
  · simp [update_used_ring]
  · simp [update_used_ring]
  · intro a ha
    simp [update_used_ring, ha]

/-- Witness of C6: a queue of size 8 with `used_ring->idx = 9`; the element goes to slot 1. -/
theorem update_used_ring_spec_witness :
    ((update_used_ring sample_used_mem (sample_vq 8) 5 4097).2.used 3000).ring 1
      = { id := 5, len := 4097 } ∧
    ((update_used_ring sample_used_mem (sample_vq 8) 5 4097).2.used 3000).idx = 10 :=
  have h := update_used_ring_spec sample_used_mem (sample_vq 8) 5 4097 3 (by decide) (by decide)
  ⟨h.1, h.2.1⟩

/-! ## Interrupt injection -/

theorem vring_need_event_same (event_idx idx : Nat) : vring_need_event event_idx idx idx = false := by
  unfold vring_need_event
  simp only [decide_eq_false_iff_not]
  omega

theorem res_rear_advance (r e : Nat) (he : e ≤ 32) :
    ((r + 1) % 2 ^ 32) &&& ((2 ^ e + (2 ^ 32 - 1)) % 2 ^ 32) = (r + 1) % 2 ^ e := by
  have h1 : 1 ≤ 2 ^ e := Nat.one_le_two_pow
  have h2 : 2 ^ e ≤ 2 ^ 32 := Nat.pow_le_pow_right (by omega) he
  have h3 : (2 ^ e + (2 ^ 32 - 1)) % 2 ^ 32 = 2 ^ e - 1 := by
    generalize 2 ^ e = n at h1 h2
    omega
  rw [h3, Nat.and_pow_two_sub_one_eq_mod, Nat.mod_mod_of_dvd _ (Nat.pow_dvd_pow 2 he)]

theorem succ_mod_ne (r n : Nat) (hn : 2 ≤ n) : (r + 1) % n ≠ r := by
  intro h
  rcases Nat.lt_trichotomy (r + 1) n with h1 | h1 | h1
  · rw [Nat.mod_eq_of_lt h1] at h; omega
  · rw [h1, Nat.mod_self] at h; omega
  · have := Nat.mod_lt (r + 1) (show 0 < n by omega)
    omega

theorem virtio_inject_irq_enqueue (MAX_REQ : Nat) (m : GuestMem) (bridge : virtio_bridge)
    (dev : VirtIODevice) (q : Nat)
    (hnew : (m.used (dev.vqs q).used_ring).idx ≠ (dev.vqs q).last_used_idx)
    (hflag : ¬ ((dev.vqs q).event_idx_enabled = 0 ∧
      (m.avail (dev.vqs q).avail_ring).flags &&& VRING_AVAIL_F_NO_INTERRUPT ≠ 0))
    (hevent : ¬ ((dev.vqs q).event_idx_enabled ≠ 0 ∧
      vring_need_event (VQ_USED_EVENT m (dev.vqs q)) (m.used (dev.vqs q).used_ring).idx
        (dev.vqs q).last_used_idx = false))
    (hfull : is_queue_full bridge.res_front bridge.res_rear MAX_REQ = false) :
    virtio_inject_irq MAX_REQ m bridge dev q
      = some ({ dev with
                vqs := set_vq dev.vqs q
                  { dev.vqs q with last_used_idx := (m.used (dev.vqs q).used_ring).idx },
                regs := { dev.regs with
                          interrupt_status := VIRTIO_MMIO_INT_VRING,
                          interrupt_count := dev.regs.interrupt_count + 1 } },
              { bridge with
                res_list := fun j => if j = bridge.res_rear then
                  { irq_id := dev.irq_id, target_zone := dev.zone_id } else bridge.res_list j,
                res_rear := ((bridge.res_rear + 1) % 2 ^ 32)
                  &&& ((MAX_REQ + (2 ^ 32 - 1)) % 2 ^ 32) }) := by
  unfold virtio_inject_irq
  dsimp only
  rw [if_neg hnew, if_neg hflag, if_neg hevent, if_neg (by rw [hfull]; simp)]

theorem virtio_inject_irq_skip (MAX_REQ : Nat) (m : GuestMem) (bridge : virtio_bridge)
    (dev : VirtIODevice) (q : Nat)
    (h : (m.used (dev.vqs q).used_ring).idx = (dev.vqs q).last_used_idx ∨
      ((dev.vqs q).event_idx_enabled = 0 ∧
        (m.avail (dev.vqs q).avail_ring).flags &&& VRING_AVAIL_F_NO_INTERRUPT ≠ 0) ∨
      ((dev.vqs q).event_idx_enabled ≠ 0 ∧
        vring_need_event (VQ_USED_EVENT m (dev.vqs q)) (m.used (dev.vqs q).used_ring).idx
          (dev.vqs q).last_used_idx = false)) :
    virtio_inject_irq MAX_REQ m bridge dev q
      = some ({ dev with
                vqs := set_vq dev.vqs q
                  { dev.vqs q with last_used_idx := (m.used (dev.vqs q).used_ring).idx } },
              bridge) := by
  unfold virtio_inject_irq
  dsimp only
  by_cases h1 : (m.used (dev.vqs q).used_ring).idx = (dev.vqs q).last_used_idx
  · rw [if_pos h1]
  · by_cases h2 : (dev.vqs q).event_idx_enabled = 0 ∧
        (m.avail (dev.vqs q).avail_ring).flags &&& VRING_AVAIL_F_NO_INTERRUPT ≠ 0
    · rw [if_neg h1, if_pos h2]
    · have h3 : (dev.vqs q).event_idx_enabled ≠ 0 ∧
          vring_need_event (VQ_USED_EVENT m (dev.vqs q)) (m.used (dev.vqs q).used_ring).idx
            (dev.vqs q).last_used_idx = false := by
        rcases h with h | h | h
        · exact absurd h h1
        · exact absurd h h2
        · exact h
      rw [if_neg h1, if_neg h2, if_pos h3]



/-- C7: on a queue with `event_idx_enabled` set and a response ring that is not full,
`virtio_inject_irq` returns, and it enqueues a response (`res_rear` moves) exactly when
`vring_need_event(used_event, new, old)` holds, `new` being `used_ring->idx` at the call
and `old` the `last_used_idx` before it. When it holds the response written at the old
`res_rear` is the device's `{irq_id, target_zone}`; when it does not, the mailbox and the
registers are unchanged. `MAX_REQ` is a power of two between 2 and 2^32. -/
theorem virtio_inject_irq_event_idx (MAX_REQ : Nat) (m : GuestMem) (bridge : virtio_bridge)
    (dev : VirtIODevice) (q e : Nat)
    (hpow : MAX_REQ = 2 ^ e) (he1 : 1 ≤ e) (he : e ≤ 32)
    (hev : (dev.vqs q).event_idx_enabled ≠ 0)
    (hfull : is_queue_full bridge.res_front bridge.res_rear MAX_REQ = false) :
    ∃ dev1 bridge1, virtio_inject_irq MAX_REQ m bridge dev q = some (dev1, bridge1) ∧
      (bridge1.res_rear ≠ bridge.res_rear ↔
        vring_need_event (VQ_USED_EVENT m (dev.vqs q)) (m.used (dev.vqs q).used_ring).idx
          (dev.vqs q).last_used_idx = true) ∧
      (vring_need_event (VQ_USED_EVENT m (dev.vqs q)) (m.used (dev.vqs q).used_ring).idx
          (dev.vqs q).last_used_idx = true →
        bridge1.res_list bridge.res_rear = { irq_id := dev.irq_id, target_zone := dev.zone_id } ∧
        bridge1.res_rear = (bridge.res_rear + 1) % MAX_REQ) ∧
      (vring_need_event (VQ_USED_EVENT m (dev.vqs q)) (m.used (dev.vqs q).used_ring).idx
          (dev.vqs q).last_used_idx = false →
        bridge1 = bridge ∧ dev1.regs = dev.regs) := by
  cases hne : vring_need_event (VQ_USED_EVENT m (dev.vqs q)) (m.used (dev.vqs q).used_ring).idx
      (dev.vqs q).last_used_idx with
  | false =>
    refine ⟨_, _, virtio_inject_irq_skip MAX_REQ m bridge dev q (Or.inr (Or.inr ⟨hev, hne⟩)),
      ?_, ?_, ?_⟩
    · simp
    · intro h; exact absurd h (by simp)
    · intro _; exact ⟨rfl, rfl⟩
  | true =>
    have hnew : (m.used (dev.vqs q).used_ring).idx ≠ (dev.vqs q).last_used_idx := by
      intro h
      rw [h, vring_need_event_same] at hne
      exact absurd hne (by simp)
    have hrear : ((bridge.res_rear + 1) % 2 ^ 32) &&& ((MAX_REQ + (2 ^ 32 - 1)) % 2 ^ 32)
        = (bridge.res_rear + 1) % MAX_REQ := by
      rw [hpow]; exact res_rear_advance bridge.res_rear e he
    have h2 : 2 ≤ MAX_REQ := by
      rw [hpow]
      calc 2 = 2 ^ 1 := rfl
        _ ≤ 2 ^ e := Nat.pow_le_pow_right (by omega) he1
    refine ⟨_, _, virtio_inject_irq_enqueue MAX_REQ m bridge dev q hnew
      (fun h => hev h.1) (fun h => by rw [hne] at h; exact absurd h.2 (by simp)) hfull,
      ?_, ?_, ?_⟩
    · simp only [hrear, iff_true]
      exact succ_mod_ne bridge.res_rear MAX_REQ h2
    · intro _
      exact ⟨by simp, hrear⟩
    · intro h; exact absurd h (by simp)

/-- Witness of C7: with the used-event index 5, a call with `old = 4`, `new = 5` enqueues
nothing and the next call, with `old = 5`, `new = 6`, enqueues one response. -/
theorem virtio_inject_irq_event_idx_witness :
    (∃ dev1 bridge1, virtio_inject_irq 4 (sample_irq_mem 5 5 0) sample_bridge
        (sample_dev 1 4 0) 0 = some (dev1, bridge1) ∧ bridge1.res_rear = 0 ∧
        (dev1.vqs 0).last_used_idx = 5) ∧
    (∃ dev1 bridge1, virtio_inject_irq 4 (sample_irq_mem 6 5 0) sample_bridge
        (sample_dev 1 5 0) 0 = some (dev1, bridge1) ∧ bridge1.res_rear = 1 ∧
        bridge1.res_list 0 = { irq_id := 75, target_zone := 1 }) := by
  obtain ⟨d1, b1, h1, _, _, h4⟩ := virtio_inject_irq_event_idx 4 (sample_irq_mem 5 5 0)
    sample_bridge (sample_dev 1 4 0) 0 2 (by decide) (by decide) (by decide) (by decide)
    (by decide)
  obtain ⟨d2, b2, g1, _, g3, _⟩ := virtio_inject_irq_event_idx 4 (sample_irq_mem 6 5 0)
    sample_bridge (sample_dev 1 5 0) 0 2 (by decide) (by decide) (by decide) (by decide)
    (by decide)
  refine ⟨⟨d1, b1, h1, ?_, ?_⟩, ⟨d2, b2, g1, ?_, ?_⟩⟩
  · rw [(h4 (by decide)).1]; rfl
  · have h1' := h1
    rw [virtio_inject_irq_skip 4 (sample_irq_mem 5 5 0) sample_bridge (sample_dev 1 4 0) 0
      (Or.inr (Or.inr ⟨by decide, by decide⟩))] at h1'
    simp only [Option.some.injEq, Prod.mk.injEq] at h1'
    rw [← h1'.1]; rfl
  · rw [(g3 (by decide)).2]; rfl
  · exact (g3 (by decide)).1

/-- C8: on a queue with `event_idx_enabled` clear, when the NO_INTERRUPT bit of
`avail_ring->flags` is set, `virtio_inject_irq` returns without enqueuing: `res_rear`, the
response list, `interrupt_status` and `interrupt_count` are as before the call. -/
theorem virtio_inject_irq_no_interrupt (MAX_REQ : Nat) (m : GuestMem) (bridge : virtio_bridge)
    (dev : VirtIODevice) (q : Nat)
    (hev : (dev.vqs q).event_idx_enabled = 0)
    (hflag : (m.avail (dev.vqs q).avail_ring).flags &&& VRING_AVAIL_F_NO_INTERRUPT ≠ 0) :
    ∃ dev1 bridge1, virtio_inject_irq MAX_REQ m bridge dev q = some (dev1, bridge1) ∧
      bridge1.res_rear = bridge.res_rear ∧
      bridge1.res_list = bridge.res_list ∧
      dev1.regs.interrupt_status = dev.regs.interrupt_status ∧
      dev1.regs.interrupt_count = dev.regs.interrupt_count ∧
      bridge1 = bridge ∧ dev1.regs = dev.regs :=
  ⟨_, _, virtio_inject_irq_skip MAX_REQ m bridge dev q (Or.inr (Or.inl ⟨hev, hflag⟩)),
    rfl, rfl, rfl, rfl, rfl, rfl⟩

/-- Witness of C8: a new completion (`used_ring->idx = 1`) with NO_INTERRUPT set. -/
theorem virtio_inject_irq_no_interrupt_witness :
    ∃ dev1 bridge1, virtio_inject_irq 4 (sample_irq_mem 1 0 1) sample_bridge
        (sample_dev 0 0 0) 0 = some (dev1, bridge1) ∧
      bridge1.res_rear = sample_bridge.res_rear ∧
      bridge1.res_list = sample_bridge.res_list ∧
      dev1.regs.interrupt_status = (sample_dev 0 0 0).regs.interrupt_status ∧
      dev1.regs.interrupt_count = (sample_dev 0 0 0).regs.interrupt_count ∧
      bridge1 = sample_bridge ∧ dev1.regs = (sample_dev 0 0 0).regs :=
  virtio_inject_irq_no_interrupt 4 (sample_irq_mem 1 0 1) sample_bridge (sample_dev 0 0 0) 0
    (by decide) (by decide)

/-! ## Interrupt acknowledgement -/

theorem virtio_mmio_write_ack (w : Window) (notify : VirtIODevice → Nat → VirtIODevice)
    (vdev : VirtIODevice) (value : Nat) :
    virtio_mmio_write w notify vdev VIRTIO_MMIO_INTERRUPT_ACK value 4
      = if value = vdev.regs.interrupt_status ∧ vdev.regs.interrupt_count > 0 then
          { vdev with regs := { vdev.regs with interrupt_count := vdev.regs.interrupt_count - 1 } }
        else
          { vdev with
            regs := { vdev.regs with
                      interrupt_status := vdev.regs.interrupt_status &&& logical_not value } } := by
  unfold virtio_mmio_write
  simp [VIRTIO_MMIO_INTERRUPT_ACK, VIRTIO_MMIO_CONFIG, VIRTIO_MMIO_DEVICE_FEATURES_SEL,
    VIRTIO_MMIO_DRIVER_FEATURES, VIRTIO_MMIO_DRIVER_FEATURES_SEL, VIRTIO_MMIO_QUEUE_SEL,
    VIRTIO_MMIO_QUEUE_NUM, VIRTIO_MMIO_QUEUE_READY, VIRTIO_MMIO_QUEUE_NOTIFY]

theorem ack_times_pending (w : Window) (notify : VirtIODevice → Nat → VirtIODevice) :
    ∀ (n : Nat) (vdev : VirtIODevice), n ≤ vdev.regs.interrupt_count →
      (ack_times w notify n vdev).regs.interrupt_status = vdev.regs.interrupt_status ∧
      (ack_times w notify n vdev).regs.interrupt_count = vdev.regs.interrupt_count - n := by
  intro n
  induction n with
  | zero => intro vdev _; exact ⟨rfl, rfl⟩
  | succ n ih =>
    intro vdev h
    rw [ack_times, virtio_mmio_write_ack]
    have hc : vdev.regs.interrupt_status = vdev.regs.interrupt_status ∧
        vdev.regs.interrupt_count > 0 := ⟨rfl, by omega⟩
    rw [if_pos hc]
    obtain ⟨h1, h2⟩ := ih { vdev with
      regs := { vdev.regs with interrupt_count := vdev.regs.interrupt_count - 1 } }
      (by show n ≤ vdev.regs.interrupt_count - 1; omega)
    refine ⟨h1, ?_⟩
    rw [h2]
    show vdev.regs.interrupt_count - 1 - n = vdev.regs.interrupt_count - (n + 1)
    omega

/-- The code at the failing input of C10 (`n = 1`): a reset device, one injected interrupt
(status 1, count 1), then one write of the current `interrupt_status` to `INTERRUPT_ACK`.
The count is 0 and `interrupt_status` is still 1; only a second acknowledgement
clears the register. -/
theorem interrupt_ack_leaves_status_set :
    (virtio_inject_irq 4 (sample_irq_mem 1 0 0) sample_bridge
        (virtio_dev_reset (sample_dev 0 0 0)) 0).map
      (fun r =>
        (r.1.regs.interrupt_status, r.1.regs.interrupt_count,
         (ack_times sample_window sample_notify 1 r.1).regs.interrupt_status,
         (ack_times sample_window sample_notify 1 r.1).regs.interrupt_count,
         (ack_times sample_window sample_notify 2 r.1).regs.interrupt_status,
         (ack_times sample_window sample_notify 2 r.1).regs.interrupt_count))
      = some (1, 1, 1, 0, 0, 0) := by
  decide

/-- The same for every number of pending interrupts: with `interrupt_count = n` and
`interrupt_status` set, `n` acknowledgements bring the count to 0 and leave
`interrupt_status` as it was. -/
theorem interrupt_acks_leave_status_set (w : Window)
    (notify : VirtIODevice → Nat → VirtIODevice) (vdev : VirtIODevice) :
    (ack_times w notify vdev.regs.interrupt_count vdev).regs.interrupt_status
        = vdev.regs.interrupt_status ∧
    (ack_times w notify vdev.regs.interrupt_count vdev).regs.interrupt_count = 0 := by
  obtain ⟨h1, h2⟩ := ack_times_pending w notify vdev.regs.interrupt_count vdev (Nat.le_refl _)
  exact ⟨h1, by rw [h2]; omega⟩

/-! ## Requests that match no device -/

theorem virtio_handle_req_no_match (w : Window) (notify : VirtIODevice → Nat → VirtIODevice)
    (config : VirtIODevice → Nat → Nat) (vdevs : List VirtIODevice) (bridge : virtio_bridge)
    (req : device_req) (h : find_vdev req vdevs 0 = none) :
    virtio_handle_req w notify config vdevs bridge req = (-1, vdevs, bridge) := by
  unfold virtio_handle_req
  rw [h]

theorem virtio_mmio_read_null (config : VirtIODevice → Nat → Nat) (offset size : Nat) :
    virtio_mmio_read config none VIRTIO_MMIO_MAGIC_VALUE size = VIRT_MAGIC ∧
    virtio_mmio_read config none VIRTIO_MMIO_VERSION size = VIRT_VERSION ∧
    virtio_mmio_read config none VIRTIO_MMIO_VENDOR_ID size = VIRT_VENDOR ∧
    (offset ≠ VIRTIO_MMIO_MAGIC_VALUE → offset ≠ VIRTIO_MMIO_VERSION →
      offset ≠ VIRTIO_MMIO_VENDOR_ID → virtio_mmio_read config none offset size = 0) := by
  refine ⟨by simp [virtio_mmio_read], by simp [virtio_mmio_read, VIRTIO_MMIO_VERSION,
    VIRTIO_MMIO_MAGIC_VALUE], by simp [virtio_mmio_read, VIRTIO_MMIO_VERSION,
    VIRTIO_MMIO_MAGIC_VALUE, VIRTIO_MMIO_VENDOR_ID], ?_⟩
  intro h1 h2 h3
  simp [virtio_mmio_read, h1, h2, h3]

/-- The code at the failing input of C11: a control-path read of CPU 2 at an address that
matches no device of the table. `virtio_handle_req` returns -1 and the mailbox is as
before: `cfg_values[2]` and `cfg_flags[2]` are untouched, whereas a read that matches a
device stores the value and increments `cfg_flags[2]`. -/
theorem unmatched_read_gets_no_reply :
    (find_vdev (sample_read_req 0xa000000) [sample_dev 0 0 0] 0).isSome = false ∧
    (virtio_handle_req sample_window sample_notify sample_config [sample_dev 0 0 0]
      sample_bridge (sample_read_req 0xa000000)).1 = -1 ∧
    (virtio_handle_req sample_window sample_notify sample_config [sample_dev 0 0 0]
      sample_bridge (sample_read_req 0xa000000)).2.2.cfg_values 2 = 0 ∧
    (virtio_handle_req sample_window sample_notify sample_config [sample_dev 0 0 0]
      sample_bridge (sample_read_req 0xa000000)).2.2.cfg_flags 2 = 0 ∧
    (virtio_handle_req sample_window sample_notify sample_config [sample_dev 0 0 0]
      sample_bridge (sample_read_req 0xa003000)).2.2.cfg_values 2 = VIRT_MAGIC ∧
    (virtio_handle_req sample_window sample_notify sample_config [sample_dev 0 0 0]
      sample_bridge (sample_read_req 0xa003000)).2.2.cfg_flags 2 = 1 := by
  decide

/-! ## Reset through the status register -/

theorem set_vq_same (vqs : Nat → VirtQueue) (q : Nat) (v : VirtQueue) : set_vq vqs q v q = v := by
  simp [set_vq]

theorem set_vq_other (vqs : Nat → VirtQueue) (q i : Nat) (v : VirtQueue) (h : i ≠ q) :
    set_vq vqs q v i = vqs i := by
  simp [set_vq, h]

theorem reset_queues_apply (vqs : Nat → VirtQueue) :
    ∀ (n i : Nat), reset_queues vqs n i = if i < n then virtqueue_reset (vqs i) i else vqs i := by
  intro n
  induction n with
  | zero => intro i; simp [reset_queues]
  | succ n ih =>
    intro i
    rw [reset_queues]
    by_cases h : i = n
    · subst h
      rw [set_vq_same, ih]
      simp
    · rw [set_vq_other _ _ _ _ h, ih]
      by_cases h1 : i < n
      · have : i < n + 1 := by omega
        simp [h1, this]
      · have : ¬ i < n + 1 := by omega
        simp [h1, this]

theorem virtio_mmio_write_status (w : Window) (notify : VirtIODevice → Nat → VirtIODevice)
    (vdev : VirtIODevice) (value : Nat) :
    virtio_mmio_write w notify vdev VIRTIO_MMIO_STATUS value 4
      = if value = 0 then
          virtio_dev_reset { vdev with regs := { vdev.regs with status := value } }
        else { vdev with regs := { vdev.regs with status := value } } := by
  unfold virtio_mmio_write
  simp [VIRTIO_MMIO_STATUS, VIRTIO_MMIO_INTERRUPT_ACK, VIRTIO_MMIO_CONFIG,
    VIRTIO_MMIO_DEVICE_FEATURES_SEL, VIRTIO_MMIO_DRIVER_FEATURES,
    VIRTIO_MMIO_DRIVER_FEATURES_SEL, VIRTIO_MMIO_QUEUE_SEL, VIRTIO_MMIO_QUEUE_NUM,
    VIRTIO_MMIO_QUEUE_READY, VIRTIO_MMIO_QUEUE_NOTIFY]

theorem virtio_mmio_read_queue_num_max (config : VirtIODevice → Nat → Nat)
    (vdev : VirtIODevice) :
    virtio_mmio_read config (some vdev) VIRTIO_MMIO_QUEUE_NUM_MAX 4
      = (vdev.vqs vdev.regs.queue_sel).queue_num_max := by
  simp [virtio_mmio_read, VIRTIO_MMIO_QUEUE_NUM_MAX, VIRTIO_MMIO_CONFIG,
    VIRTIO_MMIO_MAGIC_VALUE, VIRTIO_MMIO_VERSION, VIRTIO_MMIO_DEVICE_ID, VIRTIO_MMIO_VENDOR_ID,
    VIRTIO_MMIO_DEVICE_FEATURES]

/-- C12: a 4-byte write of 0 to `STATUS` leaves every virtqueue `i < vqs_len` with all
fields zero except `vq_idx`, which is `i`, and `queue_num_max`, `notify_handler` and the
device back-pointer, which keep their values; it sets `status`, `interrupt_status` and
`interrupt_count` to 0; and a read of `QUEUE_NUM_MAX` returns afterwards what it returned
before. -/
theorem status_zero_resets_device (w : Window) (notify : VirtIODevice → Nat → VirtIODevice)
    (config : VirtIODevice → Nat → Nat) (vdev : VirtIODevice) :
    (∀ i, i < vdev.vqs_len →
      (virtio_mmio_write w notify vdev VIRTIO_MMIO_STATUS 0 4).vqs i
        = { dev := (vdev.vqs i).dev, vq_idx := i, num := 0,
            queue_num_max := (vdev.vqs i).queue_num_max,
            desc_table_addr := 0, avail_addr := 0, used_addr := 0,
            desc_table := 0, avail_ring := 0, used_ring := 0,
            notify_handler := (vdev.vqs i).notify_handler,
            last_avail_idx := 0, last_used_idx := 0, ready := 0, event_idx_enabled := 0 }) ∧
    (virtio_mmio_write w notify vdev VIRTIO_MMIO_STATUS 0 4).regs.status = 0 ∧
    (virtio_mmio_write w notify vdev VIRTIO_MMIO_STATUS 0 4).regs.interrupt_status = 0 ∧
    (virtio_mmio_write w notify vdev VIRTIO_MMIO_STATUS 0 4).regs.interrupt_count = 0 ∧
    (virtio_mmio_write w notify vdev VIRTIO_MMIO_STATUS 0 4).vqs_len = vdev.vqs_len ∧
    virtio_mmio_read config (some (virtio_mmio_write w notify vdev VIRTIO_MMIO_STATUS 0 4))
        VIRTIO_MMIO_QUEUE_NUM_MAX 4
      = virtio_mmio_read config (some vdev) VIRTIO_MMIO_QUEUE_NUM_MAX 4 := by
  rw [virtio_mmio_write_status, if_pos rfl]
  refine ⟨?_, rfl, rfl, rfl, rfl, ?_⟩
  · intro i hi
    show reset_queues _ vdev.vqs_len i = _
    rw [reset_queues_apply, if_pos hi]
    by_cases h : i = vdev.regs.queue_sel
    · rw [h, set_vq_same]; rfl
    · rw [set_vq_other _ _ _ _ h]; rfl
  · rw [virtio_mmio_read_queue_num_max, virtio_mmio_read_queue_num_max]
    show (reset_queues _ vdev.vqs_len vdev.regs.queue_sel).queue_num_max = _
    rw [reset_queues_apply, set_vq_same]
    by_cases h : vdev.regs.queue_sel < vdev.vqs_len
    · rw [if_pos h]; rfl
    · rw [if_neg h]

/-! ## Fresh boot against reset -/

/-- The code at the failing input of C13: a console device, queue 0 programmed with size 8
and the addresses `0x1000`, `0x2000`, `0x3000`. After a fresh boot the queue has
`vq_idx = 1`, because `init_virtio_queue` resets the first element of the array in every
round; after `STATUS := 0` and the same programming it has `vq_idx = 0`. The other
fields agree. -/
theorem console_queue_differs_after_reset :
    sample_console.map (fun d =>
      ((program_queue sample_window sample_notify d 0 8 0x1000 0x2000 0x3000).vqs 0).vq_idx)
      = some 1 ∧
    sample_console.map (fun d =>
      ((program_queue sample_window sample_notify
        (virtio_mmio_write sample_window sample_notify
          (program_queue sample_window sample_notify d 0 8 0x1000 0x2000 0x3000)
          VIRTIO_MMIO_STATUS 0 4) 0 8 0x1000 0x2000 0x3000).vqs 0).vq_idx)
      = some 0 := by
  decide

/-- The second queue of the same console device: `init_virtio_queue` never resets it, so
after a fresh boot it holds what the allocation held (here 7 in `last_avail_idx` and in
the address the driver's write is combined with), and zero after a reset. -/
theorem console_second_queue_uninitialised :
    sample_console.map (fun d =>
      (((program_queue sample_window sample_notify d 1 8 0x1000 0x2000 0x3000).vqs 1).last_avail_idx,
       ((program_queue sample_window sample_notify d 1 8 0x1000 0x2000 0x3000).vqs 1).desc_table_addr))
      = some (7, 0x1007) ∧
    sample_console.map (fun d =>
      (((program_queue sample_window sample_notify
        (virtio_mmio_write sample_window sample_notify
          (program_queue sample_window sample_notify d 1 8 0x1000 0x2000 0x3000)
          VIRTIO_MMIO_STATUS 0 4) 1 8 0x1000 0x2000 0x3000).vqs 1).last_avail_idx,
       ((program_queue sample_window sample_notify
        (virtio_mmio_write sample_window sample_notify
          (program_queue sample_window sample_notify d 1 8 0x1000 0x2000 0x3000)
          VIRTIO_MMIO_STATUS 0 4) 1 8 0x1000 0x2000 0x3000).vqs 1).desc_table_addr))
      = some (0, 0x1000) := by
  decide

theorem create_block (h : Headers) (heap : Nat → VirtQueue) (vdev_ptr : Nat)
    (zone_id base_addr len irq_id : Nat) :
    create_virtio_device h heap vdev_ptr false h.VirtioTBlock zone_id base_addr len irq_id
      = some { zero_device with
          vqs_len := 1,
          regs := { zero_device.regs with device_id := h.VirtioTBlock,
                                          dev_feature := h.BLK_SUPPORTED_FEATURES },
          base_addr := base_addr, len := len, zone_id := zone_id, irq_id := irq_id,
          type := h.VirtioTBlock,
          vqs := set_vq heap 0
            { virtqueue_reset (heap 0) 0 with
              queue_num_max := h.VIRTQUEUE_BLK_MAX_SIZE,
              notify_handler := h.virtio_blk_notify_handler,
              dev := vdev_ptr } } := by
  simp [create_virtio_device, init_virtio_queue, init_mmio_regs, zero_device]

/-- For the block device the two states of C13 agree: `init_virtio_queue` resets its one
queue as `virtio_dev_reset` does. -/
theorem block_queue_same_after_reset (h : Headers) (heap : Nat → VirtQueue) (vdev_ptr : Nat)
    (zone_id base_addr len irq_id num desc avail used : Nat) (w : Window)
    (notify : VirtIODevice → Nat → VirtIODevice) (d : VirtIODevice)
    (hd : create_virtio_device h heap vdev_ptr false h.VirtioTBlock zone_id base_addr len irq_id
      = some d) :
    (program_queue w notify
        (virtio_mmio_write w notify (program_queue w notify d 0 num desc avail used)
          VIRTIO_MMIO_STATUS 0 4) 0 num desc avail used).vqs 0
      = (program_queue w notify d 0 num desc avail used).vqs 0 := by
  rw [create_block] at hd
  simp only [Option.some.injEq] at hd
  subst hd
  simp [program_queue, mmio_writes, virtio_mmio_write, virtio_dev_reset, reset_queues, set_vq,
    virtqueue_reset, virtqueue_set_desc_table, virtqueue_set_avail, virtqueue_set_used,
    zero_device, VIRTIO_MMIO_STATUS, VIRTIO_MMIO_INTERRUPT_ACK, VIRTIO_MMIO_CONFIG,
    VIRTIO_MMIO_DEVICE_FEATURES_SEL, VIRTIO_MMIO_DRIVER_FEATURES,
    VIRTIO_MMIO_DRIVER_FEATURES_SEL, VIRTIO_MMIO_QUEUE_SEL, VIRTIO_MMIO_QUEUE_NUM,
    VIRTIO_MMIO_QUEUE_READY, VIRTIO_MMIO_QUEUE_NOTIFY, VIRTIO_MMIO_QUEUE_DESC_LOW,
    VIRTIO_MMIO_QUEUE_DESC_HIGH, VIRTIO_MMIO_QUEUE_AVAIL_LOW, VIRTIO_MMIO_QUEUE_AVAIL_HIGH,
    VIRTIO_MMIO_QUEUE_USED_LOW, VIRTIO_MMIO_QUEUE_USED_HIGH]

/-! ## Notification flags -/

theorem virtqueue_disable_notify_flags (m : GuestMem) (vq : VirtQueue)
    (hev : vq.event_idx_enabled = 0) :
    ((virtqueue_disable_notify m vq).used vq.used_ring).flags
      = (m.used vq.used_ring).flags ||| VRING_USED_F_NO_NOTIFY := by
  simp [virtqueue_disable_notify, hev]

theorem virtqueue_enable_notify_flags (m : GuestMem) (vq : VirtQueue)
    (hev : vq.event_idx_enabled = 0) :
    ((virtqueue_enable_notify m vq).used vq.used_ring).flags = 0 := by
  simp [virtqueue_enable_notify, hev, logical_not, VRING_USED_F_NO_NOTIFY]

/-- The code at the failing input of C14: with `used_ring->flags = 2` and the event index
off, `virtqueue_enable_notify` leaves 0 in the flags, where masking with the bitwise
complement of NO_NOTIFY keeps 2; `virtqueue_disable_notify` gives `2 | 1 = 3`. -/
theorem enable_notify_clears_all_flags :
    ((virtqueue_enable_notify (sample_flags_mem 2) (sample_vq 8)).used 3000).flags = 0 ∧
    2 &&& (2 ^ 16 - 1 - VRING_USED_F_NO_NOTIFY) = 2 ∧
    ((virtqueue_disable_notify (sample_flags_mem 2) (sample_vq 8)).used 3000).flags = 3 := by
  decide

/-! ## Queue addresses -/

theorem combine_halves (lo hi : Nat) (hlo : lo < 2 ^ 32) (hhi : hi < 2 ^ 32) :
    (0 ||| (lo &&& UINT32_MAX)) ||| ((hi <<< 32) % 2 ^ 64) = (hi <<< 32) ||| lo := by
  have h1 : lo &&& UINT32_MAX = lo := by
    show lo &&& (2 ^ 32 - 1) = lo
    rw [Nat.and_pow_two_sub_one_eq_mod, Nat.mod_eq_of_lt hlo]
  have h2 : (hi <<< 32) % 2 ^ 64 = hi <<< 32 := by
    apply Nat.mod_eq_of_lt
    rw [Nat.shiftLeft_eq]
    omega
  rw [h1, h2, Nat.zero_or, Nat.lor_comm]

theorem resolve_pointer (va a pa : Nat) :
    (((va + a + (2 ^ 64 - pa % 2 ^ 64)) % 2 ^ 64 : Nat) : Int)
      = ((va : Int) + (a : Int) - (pa : Int)) % 2 ^ 64 := by
  omega



theorem write_desc_pair (w : Window) (notify : VirtIODevice → Nat → VirtIODevice)
    (vdev : VirtIODevice) (lo hi : Nat) :
    (write_low_high w notify vdev VIRTIO_MMIO_QUEUE_DESC_LOW VIRTIO_MMIO_QUEUE_DESC_HIGH lo hi).vqs
        vdev.regs.queue_sel
      = virtqueue_set_desc_table w
          { vdev.vqs vdev.regs.queue_sel with
            desc_table_addr := ((vdev.vqs vdev.regs.queue_sel).desc_table_addr
              ||| (lo &&& UINT32_MAX)) ||| ((hi <<< 32) % 2 ^ 64) } := by
  simp [write_low_high, virtio_mmio_write, set_vq, VIRTIO_MMIO_STATUS,
    VIRTIO_MMIO_INTERRUPT_ACK, VIRTIO_MMIO_CONFIG,
    VIRTIO_MMIO_DEVICE_FEATURES_SEL, VIRTIO_MMIO_DRIVER_FEATURES,
    VIRTIO_MMIO_DRIVER_FEATURES_SEL, VIRTIO_MMIO_QUEUE_SEL, VIRTIO_MMIO_QUEUE_NUM,
    VIRTIO_MMIO_QUEUE_READY, VIRTIO_MMIO_QUEUE_NOTIFY, VIRTIO_MMIO_QUEUE_DESC_LOW,
    VIRTIO_MMIO_QUEUE_DESC_HIGH]

theorem write_avail_pair (w : Window) (notify : VirtIODevice → Nat → VirtIODevice)
    (vdev : VirtIODevice) (lo hi : Nat) :
    (write_low_high w notify vdev VIRTIO_MMIO_QUEUE_AVAIL_LOW VIRTIO_MMIO_QUEUE_AVAIL_HIGH lo hi).vqs
        vdev.regs.queue_sel
      = virtqueue_set_avail w
          { vdev.vqs vdev.regs.queue_sel with
            avail_addr := ((vdev.vqs vdev.regs.queue_sel).avail_addr
              ||| (lo &&& UINT32_MAX)) ||| ((hi <<< 32) % 2 ^ 64) } := by
  simp [write_low_high, virtio_mmio_write, set_vq, VIRTIO_MMIO_STATUS,
    VIRTIO_MMIO_INTERRUPT_ACK, VIRTIO_MMIO_CONFIG,
    VIRTIO_MMIO_DEVICE_FEATURES_SEL, VIRTIO_MMIO_DRIVER_FEATURES,
    VIRTIO_MMIO_DRIVER_FEATURES_SEL, VIRTIO_MMIO_QUEUE_SEL, VIRTIO_MMIO_QUEUE_NUM,
    VIRTIO_MMIO_QUEUE_READY, VIRTIO_MMIO_QUEUE_NOTIFY, VIRTIO_MMIO_QUEUE_DESC_LOW,
    VIRTIO_MMIO_QUEUE_DESC_HIGH, VIRTIO_MMIO_QUEUE_AVAIL_LOW, VIRTIO_MMIO_QUEUE_AVAIL_HIGH]

theorem write_used_pair (w : Window) (notify : VirtIODevice → Nat → VirtIODevice)
    (vdev : VirtIODevice) (lo hi : Nat) :
    (write_low_high w notify vdev VIRTIO_MMIO_QUEUE_USED_LOW VIRTIO_MMIO_QUEUE_USED_HIGH lo hi).vqs
        vdev.regs.queue_sel
      = virtqueue_set_used w
          { vdev.vqs vdev.regs.queue_sel with
            used_addr := ((vdev.vqs vdev.regs.queue_sel).used_addr
              ||| (lo &&& UINT32_MAX)) ||| ((hi <<< 32) % 2 ^ 64) } := by
  simp [write_low_high, virtio_mmio_write, set_vq, VIRTIO_MMIO_STATUS,
    VIRTIO_MMIO_INTERRUPT_ACK, VIRTIO_MMIO_CONFIG,
    VIRTIO_MMIO_DEVICE_FEATURES_SEL, VIRTIO_MMIO_DRIVER_FEATURES,
    VIRTIO_MMIO_DRIVER_FEATURES_SEL, VIRTIO_MMIO_QUEUE_SEL, VIRTIO_MMIO_QUEUE_NUM,
    VIRTIO_MMIO_QUEUE_READY, VIRTIO_MMIO_QUEUE_NOTIFY, VIRTIO_MMIO_QUEUE_DESC_LOW,
    VIRTIO_MMIO_QUEUE_DESC_HIGH, VIRTIO_MMIO_QUEUE_AVAIL_LOW, VIRTIO_MMIO_QUEUE_AVAIL_HIGH,
    VIRTIO_MMIO_QUEUE_USED_LOW, VIRTIO_MMIO_QUEUE_USED_HIGH]

/-- C15: on a freshly reset queue selected by `queue_sel`, for 32-bit values `lo` and `hi`,
a write of `lo` to `QUEUE_DESC_LOW` followed by a write of `hi` to `QUEUE_DESC_HIGH`
leaves `desc_table_addr = (hi << 32) | lo` and the resolved pointer
`desc_table = virt_addr + desc_table_addr - phys_addr` in 64-bit pointer arithmetic; the
same holds for the AVAIL pair with `avail_addr`, `avail_ring` and for the USED pair with
`used_addr`, `used_ring`. -/
theorem queue_address_registers (w : Window) (notify : VirtIODevice → Nat → VirtIODevice)
    (vdev : VirtIODevice) (vq0 : VirtQueue) (idx lo hi : Nat)
    (hfresh : vdev.vqs vdev.regs.queue_sel = virtqueue_reset vq0 idx)
    (hlo : lo < 2 ^ 32) (hhi : hi < 2 ^ 32) :
    ((write_low_high w notify vdev VIRTIO_MMIO_QUEUE_DESC_LOW VIRTIO_MMIO_QUEUE_DESC_HIGH
        lo hi).vqs vdev.regs.queue_sel).desc_table_addr = (hi <<< 32) ||| lo ∧
    (((write_low_high w notify vdev VIRTIO_MMIO_QUEUE_DESC_LOW VIRTIO_MMIO_QUEUE_DESC_HIGH
        lo hi).vqs vdev.regs.queue_sel).desc_table : Int)
      = ((w.virt_addr : Int) + (((hi <<< 32) ||| lo : Nat) : Int) - (w.phys_addr : Int))
          % 2 ^ 64 ∧
    ((write_low_high w notify vdev VIRTIO_MMIO_QUEUE_AVAIL_LOW VIRTIO_MMIO_QUEUE_AVAIL_HIGH
        lo hi).vqs vdev.regs.queue_sel).avail_addr = (hi <<< 32) ||| lo ∧
    (((write_low_high w notify vdev VIRTIO_MMIO_QUEUE_AVAIL_LOW VIRTIO_MMIO_QUEUE_AVAIL_HIGH
        lo hi).vqs vdev.regs.queue_sel).avail_ring : Int)
      = ((w.virt_addr : Int) + (((hi <<< 32) ||| lo : Nat) : Int) - (w.phys_addr : Int))
          % 2 ^ 64 ∧
    ((write_low_high w notify vdev VIRTIO_MMIO_QUEUE_USED_LOW VIRTIO_MMIO_QUEUE_USED_HIGH
        lo hi).vqs vdev.regs.queue_sel).used_addr = (hi <<< 32) ||| lo ∧
    (((write_low_high w notify vdev VIRTIO_MMIO_QUEUE_USED_LOW VIRTIO_MMIO_QUEUE_USED_HIGH
        lo hi).vqs vdev.regs.queue_sel).used_ring : Int)
      = ((w.virt_addr : Int) + (((hi <<< 32) ||| lo : Nat) : Int) - (w.phys_addr : Int))
          % 2 ^ 64 := by
  have hc := combine_halves lo hi hlo hhi
  rw [write_desc_pair, write_avail_pair, write_used_pair, hfresh]
  refine ⟨hc, ?_, hc, ?_, hc, ?_⟩
  · show (((w.virt_addr + ((0 ||| (lo &&& UINT32_MAX)) ||| ((hi <<< 32) % 2 ^ 64))
      + (2 ^ 64 - w.phys_addr % 2 ^ 64)) % 2 ^ 64 : Nat) : Int) = _
    rw [hc]; exact resolve_pointer _ _ _
  · show (((w.virt_addr + ((0 ||| (lo &&& UINT32_MAX)) ||| ((hi <<< 32) % 2 ^ 64))
      + (2 ^ 64 - w.phys_addr % 2 ^ 64)) % 2 ^ 64 : Nat) : Int) = _
    rw [hc]; exact resolve_pointer _ _ _
  · show (((w.virt_addr + ((0 ||| (lo &&& UINT32_MAX)) ||| ((hi <<< 32) % 2 ^ 64))
      + (2 ^ 64 - w.phys_addr % 2 ^ 64)) % 2 ^ 64 : Nat) : Int) = _
    rw [hc]; exact resolve_pointer _ _ _

/-- Witness of C15: the device after a reset, `lo = 0x80001000`, `hi = 1`. -/
theorem queue_address_registers_witness :
    ((write_low_high sample_window sample_notify (virtio_dev_reset (sample_dev 0 0 0))
        VIRTIO_MMIO_QUEUE_DESC_LOW VIRTIO_MMIO_QUEUE_DESC_HIGH 0x80001000 1).vqs 0).desc_table_addr
      = 0x180001000 ∧
    ((write_low_high sample_window sample_notify (virtio_dev_reset (sample_dev 0 0 0))
        VIRTIO_MMIO_QUEUE_DESC_LOW VIRTIO_MMIO_QUEUE_DESC_HIGH 0x80001000 1).vqs 0).desc_table
      = 100000 + 0x180001000 - 4096 := by
  have h := queue_address_registers sample_window sample_notify
    (virtio_dev_reset (sample_dev 0 0 0)) ((sample_dev 0 0 0).vqs 0) 0 0x80001000 1
    rfl (by decide) (by decide)
  refine ⟨h.1, ?_⟩
  decide

/-! ## Driver features -/

theorem enable_event_idx_apply (vqs : Nat → VirtQueue) :
    ∀ (n i : Nat), enable_event_idx vqs n i
      = if i < n then { vqs i with event_idx_enabled := 1 } else vqs i := by
  intro n
  induction n with
  | zero => intro i; simp [enable_event_idx]
  | succ n ih =>
    intro i
    rw [enable_event_idx]
    by_cases h : i = n
    · subst h
      rw [set_vq_same, ih]
      simp
    · rw [set_vq_other _ _ _ _ h, ih]
      by_cases h1 : i < n
      · have : i < n + 1 := by omega
        simp [h1, this]
      · have : ¬ i < n + 1 := by omega
        simp [h1, this]

theorem virtio_mmio_write_drv_sel (w : Window) (notify : VirtIODevice → Nat → VirtIODevice)
    (vdev : VirtIODevice) (value : Nat) :
    virtio_mmio_write w notify vdev VIRTIO_MMIO_DRIVER_FEATURES_SEL value 4
      = { vdev with regs := { vdev.regs with drv_feature_sel := if value ≠ 0 then 1 else 0 } } := by
  simp [virtio_mmio_write, VIRTIO_MMIO_CONFIG, VIRTIO_MMIO_DEVICE_FEATURES_SEL,
    VIRTIO_MMIO_DRIVER_FEATURES, VIRTIO_MMIO_DRIVER_FEATURES_SEL]

theorem virtio_mmio_write_drv_features (w : Window)
    (notify : VirtIODevice → Nat → VirtIODevice) (vdev : VirtIODevice) (value : Nat) :
    virtio_mmio_write w notify vdev VIRTIO_MMIO_DRIVER_FEATURES value 4
      = { vdev with
          regs := { vdev.regs with
            drv_feature :=
              if vdev.regs.drv_feature_sel ≠ 0 then
                vdev.regs.drv_feature ||| ((value <<< 32) % 2 ^ 64)
              else vdev.regs.drv_feature ||| value },
          vqs :=
            if (if vdev.regs.drv_feature_sel ≠ 0 then
                  vdev.regs.drv_feature ||| ((value <<< 32) % 2 ^ 64)
                else vdev.regs.drv_feature ||| value) &&& (1 <<< VIRTIO_RING_F_EVENT_IDX) ≠ 0
            then enable_event_idx vdev.vqs vdev.vqs_len else vdev.vqs } := by
  simp [virtio_mmio_write, VIRTIO_MMIO_CONFIG, VIRTIO_MMIO_DEVICE_FEATURES_SEL,
    VIRTIO_MMIO_DRIVER_FEATURES]

theorem shift_high (b : Nat) (hb : b < 2 ^ 32) : (b <<< 32) % 2 ^ 64 = b <<< 32 := by
  apply Nat.mod_eq_of_lt
  rw [Nat.shiftLeft_eq]
  omega

/-- C16: for 32-bit values `a` and `b`, writing the low window `a` and then the high window
`b` of the driver features gives the same final `drv_feature` as writing them in the
opposite order, namely `old | a | (b << 32)`; and when that mask has the
`VIRTIO_RING_F_EVENT_IDX` bit, `event_idx_enabled` is set on every virtqueue of the
device after either sequence. -/
theorem driver_features_order_independent (w : Window)
    (notify : VirtIODevice → Nat → VirtIODevice) (vdev : VirtIODevice) (a b : Nat)
    (_ha : a < 2 ^ 32) (hb : b < 2 ^ 32) :
    (features_low_high w notify vdev a b).regs.drv_feature
      = vdev.regs.drv_feature ||| a ||| (b <<< 32) ∧
    (features_high_low w notify vdev a b).regs.drv_feature
      = vdev.regs.drv_feature ||| a ||| (b <<< 32) ∧
    ((vdev.regs.drv_feature ||| a ||| (b <<< 32)) &&& (1 <<< VIRTIO_RING_F_EVENT_IDX) ≠ 0 →
      ∀ i, i < vdev.vqs_len →
        ((features_low_high w notify vdev a b).vqs i).event_idx_enabled = 1 ∧
        ((features_high_low w notify vdev a b).vqs i).event_idx_enabled = 1) := by
  have hsh := shift_high b hb
  have hcomm : vdev.regs.drv_feature ||| (b <<< 32) ||| a
      = vdev.regs.drv_feature ||| a ||| (b <<< 32) := by
    rw [Nat.lor_assoc, Nat.lor_comm (b <<< 32) a, ← Nat.lor_assoc]
  have e1 : (features_low_high w notify vdev a b).regs.drv_feature
      = vdev.regs.drv_feature ||| a ||| (b <<< 32) := by
    simp only [features_low_high, mmio_writes, virtio_mmio_write_drv_sel,
      virtio_mmio_write_drv_features, hsh]
    simp only [ne_eq, not_true_eq_false, if_false, one_ne_zero, not_false_eq_true, if_true]
  have e2 : (features_high_low w notify vdev a b).regs.drv_feature
      = vdev.regs.drv_feature ||| a ||| (b <<< 32) := by
    simp only [features_high_low, mmio_writes, virtio_mmio_write_drv_sel,
      virtio_mmio_write_drv_features, hsh]
    simp only [ne_eq, not_true_eq_false, if_false, one_ne_zero, not_false_eq_true, if_true,
      hcomm]
  refine ⟨e1, e2, ?_⟩
  intro hbit i hi
  constructor
  · simp only [features_low_high, mmio_writes, virtio_mmio_write_drv_sel,
      virtio_mmio_write_drv_features, hsh]
    simp only [ne_eq, not_true_eq_false, if_false, one_ne_zero, not_false_eq_true, if_true, hbit]
    rw [enable_event_idx_apply]
    split <;> simp_all
  · simp only [features_high_low, mmio_writes, virtio_mmio_write_drv_sel,
      virtio_mmio_write_drv_features, hsh]
    simp only [ne_eq, not_true_eq_false, if_false, one_ne_zero, not_false_eq_true, if_true,
      hcomm, hbit]
    rw [enable_event_idx_apply]
    split <;> simp_all

/-- Witness of C16: the driver accepts `VIRTIO_RING_F_EVENT_IDX` in the low window and
`VIRTIO_F_VERSION_1` in the high window. -/
theorem driver_features_order_independent_witness :
    (features_low_high sample_window sample_notify (sample_dev 0 0 0) (1 <<< 29) 1).regs.drv_feature
      = 0x120000000 ∧
    (features_high_low sample_window sample_notify (sample_dev 0 0 0) (1 <<< 29) 1).regs.drv_feature
      = 0x120000000 ∧
    ((features_low_high sample_window sample_notify (sample_dev 0 0 0) (1 <<< 29) 1).vqs 0).event_idx_enabled
      = 1 ∧
    ((features_high_low sample_window sample_notify (sample_dev 0 0 0) (1 <<< 29) 1).vqs 0).event_idx_enabled
      = 1 := by
  have h := driver_features_order_independent sample_window sample_notify (sample_dev 0 0 0)
    (1 <<< 29) 1 (by decide) (by decide)
  have h3 := h.2.2 (by decide) 0 (by decide)
  exact ⟨h.1.trans (by decide), h.2.1.trans (by decide), h3.1, h3.2⟩

/-! ## The queue size register -/

theorem virtio_mmio_write_queue_num (w : Window) (notify : VirtIODevice → Nat → VirtIODevice)
    (vdev : VirtIODevice) (value : Nat) :
    virtio_mmio_write w notify vdev VIRTIO_MMIO_QUEUE_NUM value 4
      = { vdev with
          vqs := set_vq vdev.vqs vdev.regs.queue_sel
            { vdev.vqs vdev.regs.queue_sel with num := value } } := by
  simp [virtio_mmio_write, VIRTIO_MMIO_CONFIG, VIRTIO_MMIO_DEVICE_FEATURES_SEL,
    VIRTIO_MMIO_DRIVER_FEATURES, VIRTIO_MMIO_DRIVER_FEATURES_SEL, VIRTIO_MMIO_QUEUE_SEL,
    VIRTIO_MMIO_QUEUE_NUM]

/-- C17, amended: a 4-byte `QUEUE_NUM` write never fails and checks nothing: whatever the
value, it becomes the `num` of the selected queue, and no other field of that queue, no
other queue and no register changes. So `num` is a power of two and at most
`queue_num_max` only as far as the driver writes such values. -/
theorem queue_num_write_unchecked (w : Window) (notify : VirtIODevice → Nat → VirtIODevice)
    (vdev : VirtIODevice) (value : Nat) :
    (virtio_mmio_write w notify vdev VIRTIO_MMIO_QUEUE_NUM value 4).vqs vdev.regs.queue_sel
      = { vdev.vqs vdev.regs.queue_sel with num := value } ∧
    ((virtio_mmio_write w notify vdev VIRTIO_MMIO_QUEUE_NUM value 4).vqs
      vdev.regs.queue_sel).num = value ∧
    (∀ i, i ≠ vdev.regs.queue_sel →
      (virtio_mmio_write w notify vdev VIRTIO_MMIO_QUEUE_NUM value 4).vqs i = vdev.vqs i) ∧
    (virtio_mmio_write w notify vdev VIRTIO_MMIO_QUEUE_NUM value 4).regs = vdev.regs := by
  rw [virtio_mmio_write_queue_num]
  refine ⟨set_vq_same _ _ _, ?_, fun i hi => set_vq_other _ _ _ _ hi, rfl⟩
  show (set_vq _ _ _ _).num = value
  rw [set_vq_same]

/-- Counterexample to C17 as stated: on a queue with `queue_num_max = 64` a write of 3 makes
`num = 3`, not a power of two, and a write of 128 makes `num = 128`, above the maximum. -/
theorem queue_num_accepts_any_value :
    ((sample_dev 0 0 0).vqs 0).queue_num_max = 64 ∧
    ((virtio_mmio_write sample_window sample_notify (sample_dev 0 0 0)
      VIRTIO_MMIO_QUEUE_NUM 3 4).vqs 0).num = 3 ∧
    ((virtio_mmio_write sample_window sample_notify (sample_dev 0 0 0)
      VIRTIO_MMIO_QUEUE_NUM 128 4).vqs 0).num = 128 := by
  decide

/-! ## The queue selector -/

theorem reset_keeps_selector (vdev : VirtIODevice) :
    (virtio_dev_reset vdev).regs.queue_sel = vdev.regs.queue_sel ∧
    (virtio_dev_reset vdev).vqs_len = vdev.vqs_len :=
  ⟨rfl, rfl⟩

theorem virtio_mmio_write_selector (w : Window) (notify : VirtIODevice → Nat → VirtIODevice)
    (hnotify : ∀ d q, (notify d q).regs.queue_sel = d.regs.queue_sel ∧
      (notify d q).vqs_len = d.vqs_len)
    (vdev : VirtIODevice) (offset value size : Nat)
    (hinv : vdev.regs.queue_sel < vdev.vqs_len) :
    (virtio_mmio_write w notify vdev offset value size).regs.queue_sel
      < (virtio_mmio_write w notify vdev offset value size).vqs_len := by
  unfold virtio_mmio_write
  dsimp only
  by_cases c0 : offset ≥ VIRTIO_MMIO_CONFIG
  · rw [if_pos c0]
    exact hinv
  rw [if_neg c0]
  by_cases c1 : size ≠ 4
  · rw [if_pos c1]
    exact hinv
  rw [if_neg c1]
  by_cases c2 : offset = VIRTIO_MMIO_DEVICE_FEATURES_SEL
  · rw [if_pos c2]
    exact hinv
  rw [if_neg c2]
  by_cases c3 : offset = VIRTIO_MMIO_DRIVER_FEATURES
  · rw [if_pos c3]
    exact hinv
  rw [if_neg c3]
  by_cases c4 : offset = VIRTIO_MMIO_DRIVER_FEATURES_SEL
  · rw [if_pos c4]
    exact hinv
  rw [if_neg c4]
  by_cases c5 : offset = VIRTIO_MMIO_QUEUE_SEL
  · rw [if_pos c5]
    by_cases hv : value < vdev.vqs_len
    · rw [if_pos hv]; exact hv
    · rw [if_neg hv]; exact hinv
  rw [if_neg c5]
  by_cases c6 : offset = VIRTIO_MMIO_QUEUE_NUM
  · rw [if_pos c6]
    exact hinv
  rw [if_neg c6]
  by_cases c7 : offset = VIRTIO_MMIO_QUEUE_READY
  · rw [if_pos c7]
    exact hinv
  rw [if_neg c7]
  by_cases c8 : offset = VIRTIO_MMIO_QUEUE_NOTIFY
  · rw [if_pos c8]
    by_cases hv : value < vdev.vqs_len
    · rw [if_pos hv, (hnotify _ _).1, (hnotify _ _).2]; exact hinv
    · rw [if_neg hv]; exact hinv
  rw [if_neg c8]
  by_cases c9 : offset = VIRTIO_MMIO_INTERRUPT_ACK
  · rw [if_pos c9]
    by_cases hv : value = vdev.regs.interrupt_status ∧ vdev.regs.interrupt_count > 0
    · rw [if_pos hv]; exact hinv
    · rw [if_neg hv]; exact hinv
  rw [if_neg c9]
  by_cases c10 : offset = VIRTIO_MMIO_STATUS
  · rw [if_pos c10]
    by_cases hv : value = 0
    · rw [if_pos hv]; exact hinv
    · rw [if_neg hv]; exact hinv
  rw [if_neg c10]
  by_cases c11 : offset = VIRTIO_MMIO_QUEUE_DESC_LOW
  · rw [if_pos c11]
    exact hinv
  rw [if_neg c11]
  by_cases c12 : offset = VIRTIO_MMIO_QUEUE_DESC_HIGH
  · rw [if_pos c12]
    exact hinv
  rw [if_neg c12]
  by_cases c13 : offset = VIRTIO_MMIO_QUEUE_AVAIL_LOW
  · rw [if_pos c13]
    exact hinv
  rw [if_neg c13]
  by_cases c14 : offset = VIRTIO_MMIO_QUEUE_AVAIL_HIGH
  · rw [if_pos c14]
    exact hinv
  rw [if_neg c14]
  by_cases c15 : offset = VIRTIO_MMIO_QUEUE_USED_LOW
  · rw [if_pos c15]
    exact hinv
  rw [if_neg c15]
  by_cases c16 : offset = VIRTIO_MMIO_QUEUE_USED_HIGH
  · rw [if_pos c16]
    exact hinv
  rw [if_neg c16]
  exact hinv

theorem mmio_writes_selector (w : Window) (notify : VirtIODevice → Nat → VirtIODevice)
    (hnotify : ∀ d q, (notify d q).regs.queue_sel = d.regs.queue_sel ∧
      (notify d q).vqs_len = d.vqs_len) :
    ∀ (writes : List (Nat × Nat × Nat)) (vdev : VirtIODevice),
      vdev.regs.queue_sel < vdev.vqs_len →
      (mmio_writes w notify vdev writes).regs.queue_sel
        < (mmio_writes w notify vdev writes).vqs_len := by
  intro writes
  induction writes with
  | nil => intro vdev h; exact h
  | cons wr rest ih =>
    intro vdev h
    rw [mmio_writes]
    exact ih _ (virtio_mmio_write_selector w notify hnotify vdev wr.1 wr.2.1 wr.2.2 h)

theorem virtio_mmio_write_queue_sel (w : Window) (notify : VirtIODevice → Nat → VirtIODevice)
    (vdev : VirtIODevice) (value : Nat) :
    virtio_mmio_write w notify vdev VIRTIO_MMIO_QUEUE_SEL value 4
      = if value < vdev.vqs_len then
          { vdev with regs := { vdev.regs with queue_sel := value } }
        else vdev := by
  simp [virtio_mmio_write, VIRTIO_MMIO_CONFIG, VIRTIO_MMIO_DEVICE_FEATURES_SEL,
    VIRTIO_MMIO_DRIVER_FEATURES, VIRTIO_MMIO_DRIVER_FEATURES_SEL, VIRTIO_MMIO_QUEUE_SEL]

theorem init_virtio_queue_regs (h : Headers) (heap : Nat → VirtQueue) (vdev_ptr : Nat)
    (vdev : VirtIODevice) (type : Nat) :
    (init_virtio_queue h heap vdev_ptr vdev type).regs = vdev.regs := by
  unfold init_virtio_queue
  dsimp only
  by_cases c1 : type = h.VirtioTBlock
  · rw [if_pos c1]
  rw [if_neg c1]
  by_cases c2 : type = h.VirtioTNet
  · rw [if_pos c2]
  rw [if_neg c2]
  by_cases c3 : type = h.VirtioTConsole
  · rw [if_pos c3]
  rw [if_neg c3]

theorem create_virtio_device_regs (h : Headers) (heap : Nat → VirtQueue)
    (vdev_ptr : Nat) (is_err : Bool) (dev_type zone_id base_addr len irq_id : Nat)
    (vdev : VirtIODevice)
    (hcreate : create_virtio_device h heap vdev_ptr is_err dev_type zone_id base_addr len irq_id
      = some vdev) :
    vdev.regs.queue_sel = 0 ∧
    ((dev_type = h.VirtioTBlock ∧ vdev.regs.dev_feature = h.BLK_SUPPORTED_FEATURES) ∨
     (dev_type ≠ h.VirtioTBlock ∧ dev_type = h.VirtioTNet ∧
        vdev.regs.dev_feature = h.NET_SUPPORTED_FEATURES) ∨
     (dev_type ≠ h.VirtioTBlock ∧ dev_type ≠ h.VirtioTNet ∧ dev_type = h.VirtioTConsole ∧
        vdev.regs.dev_feature = CONSOLE_SUPPORTED_FEATURES)) := by
  unfold create_virtio_device at hcreate
  dsimp only at hcreate
  cases is_err with
  | true =>
    simp only [if_true] at hcreate
    by_cases c1 : dev_type = h.VirtioTBlock
    · rw [if_pos c1] at hcreate; exact absurd hcreate (by simp)
    rw [if_neg c1] at hcreate
    by_cases c2 : dev_type = h.VirtioTNet
    · rw [if_pos c2] at hcreate; exact absurd hcreate (by simp)
    rw [if_neg c2] at hcreate
    by_cases c3 : dev_type = h.VirtioTConsole
    · rw [if_pos c3] at hcreate; exact absurd hcreate (by simp)
    rw [if_neg c3] at hcreate
    exact absurd hcreate (by simp)
  | false =>
    simp only [Bool.false_eq_true, if_false] at hcreate
    by_cases c1 : dev_type = h.VirtioTBlock
    · rw [if_pos c1] at hcreate
      simp only [Option.some.injEq] at hcreate
      rw [← hcreate, init_virtio_queue_regs]
      exact ⟨rfl, Or.inl ⟨c1, rfl⟩⟩
    rw [if_neg c1] at hcreate
    by_cases c2 : dev_type = h.VirtioTNet
    · rw [if_pos c2] at hcreate
      simp only [Option.some.injEq] at hcreate
      rw [← hcreate, init_virtio_queue_regs]
      exact ⟨rfl, Or.inr (Or.inl ⟨c1, c2, rfl⟩)⟩
    rw [if_neg c2] at hcreate
    by_cases c3 : dev_type = h.VirtioTConsole
    · rw [if_pos c3] at hcreate
      simp only [Option.some.injEq] at hcreate
      rw [← hcreate, init_virtio_queue_regs]
      exact ⟨rfl, Or.inr (Or.inr ⟨c1, c2, c3, rfl⟩)⟩
    rw [if_neg c3] at hcreate
    exact absurd hcreate (by simp)

/-- C18: on a device that `create_virtio_device` made with `vqs_len ≥ 1`, after every
sequence of register writes (resets included) `regs.queue_sel < vqs_len`; a `QUEUE_SEL`
write with a value of `vqs_len` or more changes nothing of the device, and one with a
value below `vqs_len` sets `queue_sel` to that value. The notify handlers of the
back-end, which a `QUEUE_NOTIFY` write runs, are taken to leave `queue_sel` and `vqs_len`
as they are. -/
theorem queue_sel_stays_in_range (h : Headers) (heap : Nat → VirtQueue) (vdev_ptr : Nat)
    (is_err : Bool) (dev_type zone_id base_addr len irq_id : Nat) (w : Window)
    (notify : VirtIODevice → Nat → VirtIODevice) (vdev : VirtIODevice)
    (hcreate : create_virtio_device h heap vdev_ptr is_err dev_type zone_id base_addr len irq_id
      = some vdev)
    (hlen : 1 ≤ vdev.vqs_len)
    (hnotify : ∀ d q, (notify d q).regs.queue_sel = d.regs.queue_sel ∧
      (notify d q).vqs_len = d.vqs_len) :
    (∀ writes, (mmio_writes w notify vdev writes).regs.queue_sel
      < (mmio_writes w notify vdev writes).vqs_len) ∧
    (∀ d value, d.vqs_len ≤ value →
      virtio_mmio_write w notify d VIRTIO_MMIO_QUEUE_SEL value 4 = d) ∧
    (∀ d value, value < d.vqs_len →
      virtio_mmio_write w notify d VIRTIO_MMIO_QUEUE_SEL value 4
        = { d with regs := { d.regs with queue_sel := value } }) := by
  have h0 := (create_virtio_device_regs h heap vdev_ptr is_err dev_type zone_id base_addr len
    irq_id vdev hcreate).1
  refine ⟨fun writes => mmio_writes_selector w notify hnotify writes vdev (by omega), ?_, ?_⟩
  · intro d value hv
    rw [virtio_mmio_write_queue_sel, if_neg (by omega)]
  · intro d value hv
    rw [virtio_mmio_write_queue_sel, if_pos hv]

/-- Witness of C18: the console device; a write of 5 to `QUEUE_SEL` is ignored, a reset and
a write of 1 leave `queue_sel = 1`, below `vqs_len = 2`. -/
theorem queue_sel_stays_in_range_witness :
    ∃ d : VirtIODevice, sample_console = some d ∧
      (mmio_writes sample_window sample_notify d
        [(VIRTIO_MMIO_QUEUE_SEL, 5, 4), (VIRTIO_MMIO_STATUS, 0, 4),
         (VIRTIO_MMIO_QUEUE_SEL, 1, 4)]).regs.queue_sel
        < (mmio_writes sample_window sample_notify d
        [(VIRTIO_MMIO_QUEUE_SEL, 5, 4), (VIRTIO_MMIO_STATUS, 0, 4),
         (VIRTIO_MMIO_QUEUE_SEL, 1, 4)]).vqs_len ∧
      virtio_mmio_write sample_window sample_notify d VIRTIO_MMIO_QUEUE_SEL 5 4 = d := by
  cases hd : sample_console with
  | none =>
    have : sample_console.isSome = true := by decide
    rw [hd] at this
    exact absurd this (by simp)
  | some d =>
    have hlen : d.vqs_len = 2 := by
      have : sample_console.map (fun d => d.vqs_len) = some 2 := by decide
      rw [hd] at this
      simpa using this
    have h := queue_sel_stays_in_range sample_headers sample_heap 9000 false 3 1 0xa003000 0x200
      75 sample_window sample_notify d hd (by omega) (fun _ _ => ⟨rfl, rfl⟩)
    exact ⟨d, rfl, h.1 _, h.2.1 d 5 (by omega)⟩

/-! ## Advertised features -/

/-- C19, amended: the device that `create_virtio_device` makes advertises the feature mask
of its class: `BLK_SUPPORTED_FEATURES` for block and `NET_SUPPORTED_FEATURES` for net (both
defined in headers outside the sources), `CONSOLE_SUPPORTED_FEATURES` for console. The
console mask contains the `VIRTIO_F_VERSION_1` bit and does not contain the
`VIRTIO_RING_F_EVENT_IDX` bit. The three type tags are distinct. -/
theorem created_device_features (h : Headers) (heap : Nat → VirtQueue) (vdev_ptr : Nat)
    (is_err : Bool) (dev_type zone_id base_addr len irq_id : Nat) (vdev : VirtIODevice)
    (hbn : h.VirtioTBlock ≠ h.VirtioTNet) (hbc : h.VirtioTBlock ≠ h.VirtioTConsole)
    (hnc : h.VirtioTNet ≠ h.VirtioTConsole)
    (hcreate : create_virtio_device h heap vdev_ptr is_err dev_type zone_id base_addr len irq_id
      = some vdev) :
    (dev_type = h.VirtioTBlock → vdev.regs.dev_feature = h.BLK_SUPPORTED_FEATURES) ∧
    (dev_type = h.VirtioTNet → vdev.regs.dev_feature = h.NET_SUPPORTED_FEATURES) ∧
    (dev_type = h.VirtioTConsole →
      vdev.regs.dev_feature = CONSOLE_SUPPORTED_FEATURES ∧
      vdev.regs.dev_feature &&& (1 <<< VIRTIO_F_VERSION_1) ≠ 0 ∧
      vdev.regs.dev_feature &&& (1 <<< VIRTIO_RING_F_EVENT_IDX) = 0) := by
  obtain ⟨_, hf⟩ := create_virtio_device_regs h heap vdev_ptr is_err dev_type zone_id base_addr
    len irq_id vdev hcreate
  refine ⟨?_, ?_, ?_⟩
  · intro ht
    rcases hf with ⟨_, hf⟩ | ⟨h1, _, _⟩ | ⟨h1, _, _, _⟩
    · exact hf
    · exact absurd ht h1
    · exact absurd ht h1
  · intro ht
    rcases hf with ⟨h1, _⟩ | ⟨_, _, hf⟩ | ⟨_, h2, _, _⟩
    · exact absurd (h1.symm.trans ht) hbn
    · exact hf
    · exact absurd ht h2
  · intro ht
    have hc : vdev.regs.dev_feature = CONSOLE_SUPPORTED_FEATURES := by
      rcases hf with ⟨h1, _⟩ | ⟨_, h2, _⟩ | ⟨_, _, _, hf⟩
      · exact absurd (h1.symm.trans ht) hbc
      · exact absurd (h2.symm.trans ht) hnc
      · exact hf
    rw [hc]
    exact ⟨rfl, by decide, by decide⟩

/-- Counterexample to C19 as stated: the mask of a created console device has the
`VIRTIO_F_VERSION_1` bit and lacks the `VIRTIO_RING_F_EVENT_IDX` bit. -/
theorem console_lacks_event_idx :
    sample_console.map (fun d =>
      (d.regs.dev_feature, d.regs.dev_feature &&& (1 <<< VIRTIO_F_VERSION_1),
       d.regs.dev_feature &&& (1 <<< VIRTIO_RING_F_EVENT_IDX)))
      = some (0x100000001, 0x100000000, 0) := by
  decide

/-- Witness of C19: the console device of the samples. -/
theorem created_device_features_witness :
    ∃ d : VirtIODevice, sample_console = some d ∧
      d.regs.dev_feature = CONSOLE_SUPPORTED_FEATURES ∧
      d.regs.dev_feature &&& (1 <<< VIRTIO_F_VERSION_1) ≠ 0 ∧
      d.regs.dev_feature &&& (1 <<< VIRTIO_RING_F_EVENT_IDX) = 0 := by
  cases hd : sample_console with
  | none =>
    have : sample_console.isSome = true := by decide
    rw [hd] at this
    exact absurd this (by simp)
  | some d =>
    exact ⟨d, rfl,
      (created_device_features sample_headers sample_heap 9000 false 3 1 0xa003000 0x200 75 d
        (by decide) (by decide) (by decide) hd).2.2 rfl⟩

/-! ## The feature window -/

theorem virtio_mmio_read_device_features (config : VirtIODevice → Nat → Nat)
    (vdev : VirtIODevice) :
    virtio_mmio_read config (some vdev) VIRTIO_MMIO_DEVICE_FEATURES 4
      = if vdev.regs.dev_feature_sel ≠ 0 then vdev.regs.dev_feature >>> 32
        else vdev.regs.dev_feature := by
  simp [virtio_mmio_read, VIRTIO_MMIO_CONFIG, VIRTIO_MMIO_MAGIC_VALUE, VIRTIO_MMIO_VERSION,
    VIRTIO_MMIO_DEVICE_ID, VIRTIO_MMIO_VENDOR_ID, VIRTIO_MMIO_DEVICE_FEATURES]

/-- C20, amended: for a device with 64-bit feature mask `F`, a 4-byte read of
`DEVICE_FEATURES` returns the high 32 bits `F >> 32`, a value below 2^32, when
`dev_feature_sel` is not 0, and the whole mask `F` when `dev_feature_sel` is 0: the low
32 bits of the returned value are the low window `F mod 2^32`, and the value is below
2^32 only when `F` is. -/
theorem device_features_window (config : VirtIODevice → Nat → Nat) (vdev : VirtIODevice)
    (hF : vdev.regs.dev_feature < 2 ^ 64) :
    (vdev.regs.dev_feature_sel ≠ 0 →
      virtio_mmio_read config (some vdev) VIRTIO_MMIO_DEVICE_FEATURES 4
        = vdev.regs.dev_feature >>> 32 ∧
      virtio_mmio_read config (some vdev) VIRTIO_MMIO_DEVICE_FEATURES 4
        = vdev.regs.dev_feature / 2 ^ 32 ∧
      virtio_mmio_read config (some vdev) VIRTIO_MMIO_DEVICE_FEATURES 4 < 2 ^ 32) ∧
    (vdev.regs.dev_feature_sel = 0 →
      virtio_mmio_read config (some vdev) VIRTIO_MMIO_DEVICE_FEATURES 4 = vdev.regs.dev_feature ∧
      virtio_mmio_read config (some vdev) VIRTIO_MMIO_DEVICE_FEATURES 4 % 2 ^ 32
        = vdev.regs.dev_feature % 2 ^ 32 ∧
      (virtio_mmio_read config (some vdev) VIRTIO_MMIO_DEVICE_FEATURES 4 < 2 ^ 32
        ↔ vdev.regs.dev_feature < 2 ^ 32)) := by
  rw [virtio_mmio_read_device_features]
  constructor
  · intro hsel
    rw [if_pos hsel, Nat.shiftRight_eq_div_pow]
    refine ⟨rfl, rfl, ?_⟩
    omega
  · intro hsel
    rw [if_neg (by simpa using hsel)]
    exact ⟨rfl, rfl, Iff.rfl⟩

/-- Counterexample to C20 as stated: on the created console device (`dev_feature_sel = 0`,
`F = 0x100000001`) the read returns `0x100000001`, which is neither `F mod 2^32 = 1` nor
below 2^32. -/
theorem low_window_read_returns_whole_mask :
    sample_console.map (fun d =>
      (d.regs.dev_feature_sel, d.regs.dev_feature % 2 ^ 32,
       virtio_mmio_read sample_config (some d) VIRTIO_MMIO_DEVICE_FEATURES 4,
       decide (virtio_mmio_read sample_config (some d) VIRTIO_MMIO_DEVICE_FEATURES 4 < 2 ^ 32)))
      = some (0, 1, 0x100000001, false) := by
  decide

/-- Witness of C20: the created console device after the driver selected the high window. -/
theorem device_features_window_witness :
    ∃ d : VirtIODevice, sample_console = some d ∧
      virtio_mmio_read sample_config
        (some (virtio_mmio_write sample_window sample_notify d
          VIRTIO_MMIO_DEVICE_FEATURES_SEL 1 4)) VIRTIO_MMIO_DEVICE_FEATURES 4 = 1 := by
  cases hd : sample_console with
  | none =>
    have : sample_console.isSome = true := by decide
    rw [hd] at this
    exact absurd this (by simp)
  | some d =>
    refine ⟨d, rfl, ?_⟩
    have hfeat : d.regs.dev_feature = 0x100000001 := by
      have : sample_console.map (fun d => d.regs.dev_feature) = some 0x100000001 := by decide
      rw [hd] at this
      simpa using this
    have hw : (virtio_mmio_write sample_window sample_notify d
        VIRTIO_MMIO_DEVICE_FEATURES_SEL 1 4)
          = { d with regs := { d.regs with dev_feature_sel := 1 } } := by
      simp [virtio_mmio_write, VIRTIO_MMIO_CONFIG, VIRTIO_MMIO_DEVICE_FEATURES_SEL]
    have h := (device_features_window sample_config
      (virtio_mmio_write sample_window sample_notify d VIRTIO_MMIO_DEVICE_FEATURES_SEL 1 4)
      (by rw [hw]; show d.regs.dev_feature < 2 ^ 64; rw [hfeat]; decide)).1
      (by rw [hw]; exact Nat.one_ne_zero)
    rw [h.2.1, hw]
    show d.regs.dev_feature / 2 ^ 32 = 1
    rw [hfeat]
    decide

/-! ## The guest window -/

theorem process_descriptor_chain_direct_out (fuel : Nat) (w : Window) (m : GuestMem)
    (vq : VirtQueue) (wf : Bool) (al : Int) (k : Nat)
    (hnum1 : 1 ≤ vq.num) (hnum : vq.num < 2 ^ 31)
    (hnonempty : vq.last_avail_idx ≠ (m.avail vq.avail_ring).idx)
    (hk1 : 1 ≤ k) (hk : k ≤ vq.num)
    (hdirect : ∀ j, j < k →
      (chain_desc m vq.desc_table (avail_head m vq) j).flags &&& VRING_DESC_F_INDIRECT = 0)
    (hnext : ∀ j, j < k - 1 →
      (chain_desc m vq.desc_table (avail_head m vq) j).flags &&& VRING_DESC_F_NEXT ≠ 0)
    (hlast : (chain_desc m vq.desc_table (avail_head m vq) (k - 1)).flags
      &&& VRING_DESC_F_NEXT = 0)
    (hfuel : k < fuel) :
    ∃ r, process_descriptor_chain fuel w m vq wf al = some r ∧
      r.ret = (k : Int) ∧ r.cap = some ((k : Int) + al) ∧
      (∀ j, j < k →
        r.out.iov j = some (iov_of w (chain_desc m vq.desc_table (avail_head m vq) j))) ∧
      (∀ x, k ≤ x → r.out.iov x = none ∧ r.out.flags x = none) := by
  have hhead : (m.avail vq.avail_ring).ring (vq.last_avail_idx &&& num_minus_one vq.num)
      = avail_head m vq := by
    unfold avail_head; rw [num_minus_one_of_pos hnum1 (by omega)]
  have hc := count_loop_direct m { vq with last_avail_idx := (vq.last_avail_idx + 1) % 2 ^ 16 }
    hnum k fuel 0 (avail_head m vq) 0 hk1 (by omega) (by simpa using hk) hdirect
    (fun j hj => hnext j (by omega)) hlast
  obtain ⟨out1, hf, hiov, _, _, hframe, _⟩ :=
    fill_loop_direct w m { vq with last_avail_idx := (vq.last_avail_idx + 1) % 2 ^ 16 }
      wf k fuel 0 (avail_head m vq) SgVec.empty hfuel hdirect
  have hlen : (0 : Int) + (((0 + k - 1 : Nat) : Int) + 1) = ((0 + k : Nat) : Int) := by omega
  refine ⟨{ ret := (k : Int), vq := { vq with last_avail_idx := (vq.last_avail_idx + 1) % 2 ^ 16 },
            desc_idx := some (avail_head m vq), cap := some ((k : Int) + al),
            out := out1 }, ?_, rfl, rfl, ?_, ?_⟩
  · unfold process_descriptor_chain
    simp only [hnonempty, if_false, hhead]
    have hc' : count_loop m { vq with last_avail_idx := (vq.last_avail_idx + 1) % 2 ^ 16 } fuel 0
        (avail_head m vq) 0 = some (((0 + k - 1 : Nat) : Int), 0) := by exact_mod_cast hc
    rw [hc']
    simp only [hlen, hf]
    simp
  · intro j hj
    have := hiov j hj
    rw [Nat.zero_add] at this
    exact this
  · intro x hx
    have := hframe x (by omega)
    exact ⟨this.1, this.2⟩

/-- C21, amended: the walker compares no descriptor with the guest window. Every entry,
of a direct descriptor or of an indirect table, is stored by `descriptor2iov`, which
emits `{get_virt_addr(addr), len}` for every descriptor. On a chain of `k` direct
descriptors the walker returns `k` and emits that entry for every descriptor `j < k`,
also when the range `[addr, addr + len)` of the descriptor is not contained in the
window `[start, start + size)`, whatever `start` and `size` are. The queue is non-empty
and its size is in the range of `int`. -/
theorem process_descriptor_chain_ignores_window (fuel : Nat) (w : Window) (m : GuestMem)
    (vq : VirtQueue) (want_flags : Bool) (append_len : Int) (k j start size : Nat)
    (hnum1 : 1 ≤ vq.num) (hnum : vq.num < 2 ^ 31)
    (hnonempty : vq.last_avail_idx ≠ (m.avail vq.avail_ring).idx)
    (hk1 : 1 ≤ k) (hk : k ≤ vq.num)
    (hdirect : ∀ j, j < k →
      (chain_desc m vq.desc_table (avail_head m vq) j).flags &&& VRING_DESC_F_INDIRECT = 0)
    (hnext : ∀ j, j < k - 1 →
      (chain_desc m vq.desc_table (avail_head m vq) j).flags &&& VRING_DESC_F_NEXT ≠ 0)
    (hlast : (chain_desc m vq.desc_table (avail_head m vq) (k - 1)).flags
      &&& VRING_DESC_F_NEXT = 0)
    (hfuel : k < fuel) (hj : j < k)
    (_houtside : ¬ (start ≤ (chain_desc m vq.desc_table (avail_head m vq) j).addr ∧
      (chain_desc m vq.desc_table (avail_head m vq) j).addr
        + (chain_desc m vq.desc_table (avail_head m vq) j).len ≤ start + size)) :
    (∀ (i : Nat) (vd : VirtqDesc) (out : SgVec),
      (descriptor2iov w i vd out want_flags).iov i
        = some { iov_base := get_virt_addr w vd.addr, iov_len := vd.len }) ∧
    ∃ r, process_descriptor_chain fuel w m vq want_flags append_len = some r ∧
      r.ret = (k : Int) ∧
      r.out.iov j = some
        { iov_base := get_virt_addr w (chain_desc m vq.desc_table (avail_head m vq) j).addr,
          iov_len := (chain_desc m vq.desc_table (avail_head m vq) j).len } := by
  obtain ⟨r, hr, hret, _, hiov, _⟩ := process_descriptor_chain_direct_out fuel w m vq want_flags
    append_len k hnum1 hnum hnonempty hk1 hk hdirect hnext hlast hfuel
  exact ⟨fun i vd out => descriptor2iov_iov_same w i vd out want_flags, r, hr, hret, hiov j hj⟩

/-- Counterexample to C21 as stated: the buffer of the head descriptor, 16 bytes at
guest-physical address 0, lies below the window that starts at `phys_addr = 0x1000`; the
walker returns 1 and emits the entry with the host address `virt_addr - 0x1000`. -/
theorem outside_window_entry_emitted :
    sample_window.phys_addr = 4096 ∧
    (desc_at (sample_mem outside_window) (sample_vq 4).desc_table 0).addr = 0 ∧
    (process_descriptor_chain 4 sample_window (sample_mem outside_window) (sample_vq 4)
      true 0).map (fun r => (r.ret, r.out.iov 0))
      = some (1, some { iov_base := 95904, iov_len := 16 }) := by
  decide

/-- Witness of C21: the same descriptor against the window of one MiB at `0x1000`. -/
theorem process_descriptor_chain_ignores_window_witness :
    (∀ (i : Nat) (vd : VirtqDesc) (out : SgVec),
      (descriptor2iov sample_window i vd out true).iov i
        = some { iov_base := get_virt_addr sample_window vd.addr, iov_len := vd.len }) ∧
    ∃ r, process_descriptor_chain 4 sample_window (sample_mem outside_window) (sample_vq 4)
        true 0 = some r ∧
      r.ret = ((1 : Nat) : Int) ∧
      r.out.iov 0 = some
        { iov_base := get_virt_addr sample_window
            (chain_desc (sample_mem outside_window) (sample_vq 4).desc_table
              (avail_head (sample_mem outside_window) (sample_vq 4)) 0).addr,
          iov_len := (chain_desc (sample_mem outside_window) (sample_vq 4).desc_table
              (avail_head (sample_mem outside_window) (sample_vq 4)) 0).len } :=
  process_descriptor_chain_ignores_window 4 sample_window (sample_mem outside_window)
    (sample_vq 4) true 0 1 0 4096 1048576 (by decide) (by decide) (by decide) (by decide)
    (by decide) (by decide) (by decide) (by decide) (by decide) (by decide) (by decide)

/-! ## Nested indirect flags -/

/-- C22, amended: the walker does not look at the INDIRECT flag of an entry of an indirect
table. When the head descriptor is indirect without NEXT, declares `len = 16 * k` and the
NEXT chain of its table has `k` entries, the walker returns `k`, and an entry `j` of the
table that carries INDIRECT contributes the scatter-gather entry
`{get_virt_addr(addr), len}` of its own fields, with its flags in the flags vector, like
every other entry. The queue is non-empty and its size is at least 1 and in the range
of `int`. -/
theorem process_descriptor_chain_ignores_nested_indirect (fuel : Nat) (w : Window)
    (m : GuestMem) (vq : VirtQueue) (want_flags : Bool) (append_len : Int) (k j : Nat)
    (hnum1 : 1 ≤ vq.num) (hnum : vq.num < 2 ^ 31)
    (hnonempty : vq.last_avail_idx ≠ (m.avail vq.avail_ring).idx)
    (hk1 : 1 ≤ k)
    (hind : (desc_at m vq.desc_table (avail_head m vq)).flags &&& VRING_DESC_F_INDIRECT ≠ 0)
    (hnonext : (desc_at m vq.desc_table (avail_head m vq)).flags &&& VRING_DESC_F_NEXT = 0)
    (hlen : (desc_at m vq.desc_table (avail_head m vq)).len = 16 * k)
    (hnext : ∀ j, j < k - 1 →
      (chain_desc m (get_virt_addr w (desc_at m vq.desc_table (avail_head m vq)).addr) 0 j).flags
        &&& VRING_DESC_F_NEXT ≠ 0)
    (hlast : (chain_desc m (get_virt_addr w (desc_at m vq.desc_table (avail_head m vq)).addr) 0
      (k - 1)).flags &&& VRING_DESC_F_NEXT = 0)
    (hfuel : k < fuel) (hj : j < k)
    (_hnested : (chain_desc m (get_virt_addr w (desc_at m vq.desc_table (avail_head m vq)).addr)
      0 j).flags &&& VRING_DESC_F_INDIRECT ≠ 0) :
    ∃ r, process_descriptor_chain fuel w m vq want_flags append_len = some r ∧
      r.ret = (k : Int) ∧
      r.out.iov j = some
        { iov_base := get_virt_addr w (chain_desc m
            (get_virt_addr w (desc_at m vq.desc_table (avail_head m vq)).addr) 0 j).addr,
          iov_len := (chain_desc m
            (get_virt_addr w (desc_at m vq.desc_table (avail_head m vq)).addr) 0 j).len } ∧
      (want_flags = true → r.out.flags j = some (chain_desc m
          (get_virt_addr w (desc_at m vq.desc_table (avail_head m vq)).addr) 0 j).flags) := by
  have hclosed := process_descriptor_chain_indirect_closed fuel w m vq want_flags append_len k
    hnum1 hnum hnonempty hk1 hind hnonext hlen hnext hlast hfuel
  obtain ⟨s1, s2, _⟩ := store_chain_spec w m want_flags
    (get_virt_addr w (desc_at m vq.desc_table (avail_head m vq)).addr) k 0 0 SgVec.empty
  refine ⟨_, hclosed, rfl, ?_, ?_⟩
  · have := s1 j hj
    rw [Nat.zero_add] at this
    exact this
  · intro hwf
    have := s2 j hj hwf
    rw [Nat.zero_add] at this
    exact this

/-- Counterexample to C22 as stated: entry 0 of the indirect table carries INDIRECT (flags 5);
the walker returns 2 and emits an entry for it, with its address and length. -/
theorem nested_indirect_entry_emitted :
    (desc_at (sample_mem nested_indirect) 104096 0).flags &&& VRING_DESC_F_INDIRECT = 4 ∧
    (process_descriptor_chain 4 sample_window (sample_mem nested_indirect) (sample_vq 4)
      true 0).map (fun r => (r.ret, r.out.iov 0, r.out.flags 0, r.out.iov 1))
      = some (2, some { iov_base := 112288, iov_len := 64 }, some 5,
          some { iov_base := 116384, iov_len := 8 }) := by
  decide

/-- Witness of C22: the table whose entry 0 carries INDIRECT. -/
theorem process_descriptor_chain_ignores_nested_indirect_witness :
    (process_descriptor_chain 4 sample_window (sample_mem nested_indirect) (sample_vq 4)
      true 0).map (fun r => (r.ret, r.out.iov 0, r.out.flags 0))
      = some (2, some { iov_base := 112288, iov_len := 64 }, some 5) := by
  obtain ⟨r, hr, h1, h2, h3⟩ :=
    process_descriptor_chain_ignores_nested_indirect 4 sample_window
      (sample_mem nested_indirect) (sample_vq 4) true 0 2 0 (by decide) (by decide) (by decide)
      (by decide) (by decide) (by decide) (by decide) (by decide) (by decide) (by decide)
      (by decide) (by decide)
  rw [hr]
  simp only [Option.map_some', h1, h2, h3 rfl]
  decide

/-! ## Shutdown -/

theorem handle_virtio_requests_round_never_closes (SIGHVI SIGTERM MAX_REQ : Nat) (w : Window)
    (notify : VirtIODevice → Nat → VirtIODevice) (config : VirtIODevice → Nat → Nat)
    (fuel sigwait_result req_front : Nat) (vdevs : List VirtIODevice) (bridge : virtio_bridge)
    (hsig : SIGHVI ≠ SIGTERM) (r : RoundResult)
    (hr : handle_virtio_requests_round SIGHVI SIGTERM MAX_REQ w notify config fuel
      sigwait_result req_front vdevs bridge = some r) :
    r.closed = none ∧ r.left_loop = false := by
  unfold handle_virtio_requests_round at hr
  simp only [c_assign, hsig, if_false, ne_eq, not_true_eq_false] at hr
  split at hr
  · exact absurd hr (by simp)
  · simp only [Option.some.injEq] at hr
    rw [← hr]
    exact ⟨rfl, rfl⟩

/-- The code at the failing input of C23: `sigwait` returns SIGTERM (15, with SIGHVI = 34)
while one request is pending. The round does not call `virtio_close` and does not leave the
loop: it handles the pending request (`cfg_flags[2]` goes to 1, `req_front` to 1), because
`sig` is overwritten with SIGHVI right after `sigwait`. -/
theorem sigterm_round_keeps_running :
    (handle_virtio_requests_round 34 15 4 sample_window sample_notify sample_config 4 15 0
      [sample_dev 0 0 0] sample_pending_bridge).map
      (fun r => (r.closed, r.left_loop, r.req_front, r.bridge.cfg_flags 2,
        r.bridge.cfg_values 2))
      = some (none, false, 1, 1, VIRT_MAGIC) := by
  decide

/-! ## Termination of the walker -/

theorem count_loop_indirect_next_cycle (m : GuestMem) (vq : VirtQueue) (n : Nat)
    (hpos : 0 < castInt vq.num)
    (hind : (desc_at m vq.desc_table n).flags &&& VRING_DESC_F_INDIRECT ≠ 0)
    (hnext : (desc_at m vq.desc_table n).flags &&& VRING_DESC_F_NEXT ≠ 0)
    (hself : (desc_at m vq.desc_table n).next = n) :
    ∀ (fuel : Nat) (cl : Int), count_loop m vq fuel 0 n cl = none := by
  intro fuel
  induction fuel with
  | zero => intro cl; rfl
  | succ fuel ih =>
    intro cl
    rw [count_loop]
    simp only [hpos, if_true, hind, hnext, ne_eq, not_false_eq_true, if_false, hself]
    have e : (0 : Int) - 1 + 1 = 0 := by omega
    rw [e]
    exact ih _

/-- The walker on every table whose head descriptor carries INDIRECT and NEXT and names
itself as next: the counting loop never ends, whatever the fuel. -/
theorem process_descriptor_chain_diverges (w : Window) (m : GuestMem) (vq : VirtQueue)
    (wf : Bool) (al : Int)
    (hnonempty : vq.last_avail_idx ≠ (m.avail vq.avail_ring).idx)
    (hpos : 0 < castInt vq.num)
    (hind : (desc_at m vq.desc_table
      ((m.avail vq.avail_ring).ring (vq.last_avail_idx &&& num_minus_one vq.num))).flags
        &&& VRING_DESC_F_INDIRECT ≠ 0)
    (hnext : (desc_at m vq.desc_table
      ((m.avail vq.avail_ring).ring (vq.last_avail_idx &&& num_minus_one vq.num))).flags
        &&& VRING_DESC_F_NEXT ≠ 0)
    (hself : (desc_at m vq.desc_table
      ((m.avail vq.avail_ring).ring (vq.last_avail_idx &&& num_minus_one vq.num))).next
        = (m.avail vq.avail_ring).ring (vq.last_avail_idx &&& num_minus_one vq.num)) :
    ∀ fuel, process_descriptor_chain fuel w m vq wf al = none := by
  intro fuel
  unfold process_descriptor_chain
  simp only [hnonempty, if_false]
  rw [count_loop_indirect_next_cycle m
    { vq with last_avail_idx := (vq.last_avail_idx + 1) % 2 ^ 16 } _ hpos hind hnext hself]

/-- The code at the failing input of C24: a queue of size 4 whose head descriptor carries
INDIRECT and NEXT and names itself as next. For every amount of fuel the walker has not
returned: the counting loop takes the descriptor again and again, since `i--` undoes the
`i++` of the loop. -/
theorem indirect_next_cycle_never_returns :
    ∀ fuel, process_descriptor_chain fuel sample_window (sample_mem indirect_next_cycle)
      (sample_vq 4) true 0 = none :=
  process_descriptor_chain_diverges sample_window (sample_mem indirect_next_cycle) (sample_vq 4)
    true 0 (by decide) (by decide) (by decide) (by decide) (by decide)

theorem count_loop_direct_table (m : GuestMem) (vq : VirtQueue) (hnum : vq.num < 2 ^ 31)
    (hall : ∀ idx, (desc_at m vq.desc_table idx).flags &&& VRING_DESC_F_INDIRECT = 0) :
    ∀ (k fuel i next : Nat) (cl : Int), k < fuel → vq.num ≤ i + k →
      ∃ i1 : Nat, count_loop m vq fuel (i : Int) next cl = some ((i1 : Int), cl) ∧
        i ≤ i1 ∧ i1 ≤ max i vq.num := by
  intro k
  induction k with
  | zero =>
    intro fuel i next cl hfuel hik
    obtain ⟨fuel, rfl⟩ : ∃ f, fuel = f + 1 := ⟨fuel - 1, by omega⟩
    have hlt : ¬ ((i : Int) < castInt vq.num) := by rw [castInt_of_lt hnum]; omega
    refine ⟨i, ?_, Nat.le_refl _, Nat.le_max_left _ _⟩
    rw [count_loop]
    simp only [hlt, if_false]
  | succ k ih =>
    intro fuel i next cl hfuel hik
    obtain ⟨fuel, rfl⟩ : ∃ f, fuel = f + 1 := ⟨fuel - 1, by omega⟩
    by_cases hlt : (i : Int) < castInt vq.num
    · have hi : i < vq.num := by rw [castInt_of_lt hnum] at hlt; omega
      by_cases hn : (desc_at m vq.desc_table next).flags &&& VRING_DESC_F_NEXT = 0
      · refine ⟨i, ?_, Nat.le_refl _, Nat.le_max_left _ _⟩
        rw [count_loop]
        simp only [hlt, if_true, hall next, ne_eq, not_true_eq_false, if_false, hn]
      · obtain ⟨i1, h1, h2, h3⟩ := ih fuel (i + 1) (desc_at m vq.desc_table next).next cl
          (by omega) (by omega)
        refine ⟨i1, ?_, by omega, ?_⟩
        · rw [count_loop]
          simp only [hlt, if_true, hall next, ne_eq, not_true_eq_false, if_false, hn]
          have e1 : ((i : Int) + 1) = ((i + 1 : Nat) : Int) := by push_cast; ring
          rw [e1, h1]
        · have : max (i + 1) vq.num = vq.num := by omega
          have : max i vq.num = vq.num := by omega
          omega
    · refine ⟨i, ?_, Nat.le_refl _, Nat.le_max_left _ _⟩
      rw [count_loop]
      simp only [hlt, if_false]

/-- What holds of C24 on tables of direct descriptors: when no descriptor of the main table
carries INDIRECT, the walker returns on a non-empty queue for every fuel above
`num + 1`, with a chain length between 1 and `num + 1`. -/
theorem direct_table_walk_returns (fuel : Nat) (w : Window) (m : GuestMem) (vq : VirtQueue)
    (wf : Bool) (al : Int) (hnum : vq.num < 2 ^ 31)
    (hnonempty : vq.last_avail_idx ≠ (m.avail vq.avail_ring).idx)
    (hall : ∀ idx, (desc_at m vq.desc_table idx).flags &&& VRING_DESC_F_INDIRECT = 0)
    (hfuel : vq.num + 1 < fuel) :
    ∃ r, process_descriptor_chain fuel w m vq wf al = some r ∧
      1 ≤ r.ret ∧ r.ret ≤ (vq.num : Int) + 1 := by
  obtain ⟨i1, hc, _, hi1⟩ := count_loop_direct_table m
    { vq with last_avail_idx := (vq.last_avail_idx + 1) % 2 ^ 16 } hnum hall vq.num fuel 0
    ((m.avail vq.avail_ring).ring (vq.last_avail_idx &&& num_minus_one vq.num)) 0
    (by omega) (by simp)
  have hi1' : i1 ≤ vq.num := by
    have : max 0 vq.num = vq.num := by omega
    simpa [this] using hi1
  obtain ⟨out1, hf, _⟩ :=
    fill_loop_direct w m { vq with last_avail_idx := (vq.last_avail_idx + 1) % 2 ^ 16 }
      wf (i1 + 1) fuel 0
      ((m.avail vq.avail_ring).ring (vq.last_avail_idx &&& num_minus_one vq.num)) SgVec.empty
      (by omega) (fun j _ => hall _)
  have hlen : (0 : Int) + ((i1 : Int) + 1) = ((0 + (i1 + 1) : Nat) : Int) := by omega
  refine ⟨{ ret := ((0 + (i1 + 1) : Nat) : Int),
            vq := { vq with last_avail_idx := (vq.last_avail_idx + 1) % 2 ^ 16 },
            desc_idx := some ((m.avail vq.avail_ring).ring
              (vq.last_avail_idx &&& num_minus_one vq.num)),
            cap := some (((0 + (i1 + 1) : Nat) : Int) + al), out := out1 }, ?_, ?_, ?_⟩
  · unfold process_descriptor_chain
    simp only [hnonempty, if_false]
    have hc' : count_loop m { vq with last_avail_idx := (vq.last_avail_idx + 1) % 2 ^ 16 } fuel 0
        ((m.avail vq.avail_ring).ring (vq.last_avail_idx &&& num_minus_one vq.num)) 0
        = some ((i1 : Int), 0) := by exact_mod_cast hc
    rw [hc']
    simp only [hlen, hf]
  · show (1 : Int) ≤ ((0 + (i1 + 1) : Nat) : Int)
    omega
  · show ((0 + (i1 + 1) : Nat) : Int) ≤ (vq.num : Int) + 1
    omega

/-! ## Stores and the allocation -/

/-- The code at the failing input of C25: the head descriptor declares a table of two
entries (`len = 32`, `append_len = 0`), so the vectors are allocated for 2 entries, and the
NEXT chain of the table has three entries. The walker stores an entry and its flags at
index 2, past the allocation, before it compares `table_len` with 0. -/
theorem store_past_allocation :
    (process_descriptor_chain 4 sample_window (sample_mem (indirect_three 32)) (sample_vq 4)
      true 0).map (fun r => (r.cap, r.out.iov 2, r.out.flags 2))
      = some (some 2, some { iov_base := 120480, iov_len := 1 }, some 2) := by
  decide

/-- The same for every indirect head without NEXT that declares `d ≥ 1` entries over a NEXT
chain of `k > d` entries, with `append_len = 0`: the vectors are allocated for `d`
entries and an entry is stored at index `d`. -/
theorem indirect_longer_chain_stores_past_allocation (fuel : Nat) (w : Window) (m : GuestMem)
    (vq : VirtQueue) (wf : Bool) (d k : Nat)
    (hnum1 : 1 ≤ vq.num) (hnum : vq.num < 2 ^ 31)
    (hnonempty : vq.last_avail_idx ≠ (m.avail vq.avail_ring).idx)
    (hd1 : 1 ≤ d) (hdk : d < k)
    (hind : (desc_at m vq.desc_table (avail_head m vq)).flags &&& VRING_DESC_F_INDIRECT ≠ 0)
    (hnonext : (desc_at m vq.desc_table (avail_head m vq)).flags &&& VRING_DESC_F_NEXT = 0)
    (hlen : (desc_at m vq.desc_table (avail_head m vq)).len / 16 = d)
    (hnext : ∀ j, j < k - 1 →
      (chain_desc m (get_virt_addr w (desc_at m vq.desc_table (avail_head m vq)).addr) 0 j).flags
        &&& VRING_DESC_F_NEXT ≠ 0)
    (hlast : (chain_desc m (get_virt_addr w (desc_at m vq.desc_table (avail_head m vq)).addr) 0
      (k - 1)).flags &&& VRING_DESC_F_NEXT = 0)
    (hfuel : k < fuel) :
    ∃ r, process_descriptor_chain fuel w m vq wf 0 = some r ∧
      r.cap = some (d : Int) ∧
      r.out.iov d = some (iov_of w (chain_desc m
        (get_virt_addr w (desc_at m vq.desc_table (avail_head m vq)).addr) 0 d)) := by
  have hclosed := indirect_mismatch_returns_declared_length fuel w m vq wf 0 d k hnum1 hnum
    hnonempty hd1 (by omega) (by omega) hind hnonext hlen hnext hlast hfuel
  obtain ⟨s1, _, _⟩ := store_chain_spec w m wf
    (get_virt_addr w (desc_at m vq.desc_table (avail_head m vq)).addr) k 0 0 SgVec.empty
  refine ⟨_, hclosed, ?_, ?_⟩
  · show some ((d : Int) + 0) = some (d : Int)
    rw [Int.add_zero]
  · have := s1 d hdk
    rw [Nat.zero_add] at this
    exact this

/-! ## The interrupt status over the life of a device -/

end Virtio
